import Mathlib

/-!
Verification of the Grunt virtual machine and the V-SPELLS Charlie app
table-validation program against their natural-language specification.

The definitions below are a shallow embedding of the C sources under
`Code/libs/grunt/fsw/src` and `Code/apps/vsc/fsw/src`.  Pure functions of
the C code become Lean functions; the interpreter's mutable globals become
an explicit `VMState` record threaded through every operation; machine
integers (`uint16`, `uint32`) become `Nat` with the same explicit guard
conditions the C code uses, and with `% 2 ^ 16` written out at the one
place (`g_pc++`) where the C relies on the width of the type.  Fallible
operations return the same numeric status codes as `grunt_status.h`,
with status `0` meaning success exactly as in the C code.
-/

namespace Grunt

/-! ### Status codes, from `grunt_status.h` -/

def GRUNT_HALT_TRUE : Nat := 0x01
def GRUNT_HALT_FALSE : Nat := 0x02
def GRUNT_ERROR_INTERPRETERBUG : Nat := 0x11
def GRUNT_ERROR_INVALIDARGUMENT : Nat := 0x12
def GRUNT_ERROR_INVALIDLITERAL : Nat := 0x13
def GRUNT_ERROR_INVALIDOPCODE : Nat := 0x14
def GRUNT_ERROR_NOLOOPS : Nat := 0x15
def GRUNT_ERROR_NOPROGRAM : Nat := 0x16
def GRUNT_ERROR_OUTOFBOUNDS : Nat := 0x17

/-! ### Value model, from `grunt.h`

`grunt_boolean_t` is `bool`, `grunt_number_t` is `uint32`,
`grunt_string_t` and `grunt_pc_t` are `uint16`.  The tagged union
`grunt_value_t` becomes an inductive type.  -/

def GRUNT_NUM_MAX : Nat := 2 ^ 32 - 1
def GRUNT_PC_MAX : Nat := 2 ^ 16 - 1
def GRUNT_REP_MAX : Nat := 2 ^ 16 - 1

inductive grunt_value where
  | gbool (b : Bool)
  | gnum (u : Nat)
  | gstr (i : Nat)
  | gpc (p : Nat)
deriving DecidableEq

/-- Reading the `val.pc` member of a `grunt_value_t`.  The control stack
only ever holds `gpc` values (enforced by `grunt_stack_ctl_push`), so the
default for the other variants is never observable. -/
def grunt_value_pcval : grunt_value → Nat
  | .gpc p => p
  | _ => 0

/-- `grunt_instruction_t`: an opcode plus either a repetition count or a
literal value.  One constructor per opcode of `grunt.h`; literal-carrying
opcodes carry a whole `grunt_value` so that the literal-type checks of the
interpreter (`GRUNT_ERROR_INVALIDLITERAL`) stay meaningful.  `UNDEF`
stands for any opcode value outside the defined set (dispatch returns
`GRUNT_ERROR_INVALIDOPCODE` for it). -/
inductive grunt_instruction where
  | ADD
  | AND (r : Nat)
  | CALL (lit : grunt_value)
  | DUP (r : Nat)
  | EQ (r : Nat)
  | FLUSH
  | GT
  | HALT
  | JMPIF (lit : grunt_value)
  | LT
  | NOT
  | OR (r : Nat)
  | OUTPUT
  | POP (r : Nat)
  | PUSHB (lit : grunt_value)
  | PUSHN (lit : grunt_value)
  | PUSHS (lit : grunt_value)
  | INPUT (r : Nat)
  | RETURN
  | REWIND (r : Nat)
  | ROLL (r : Nat)
  | SUB
  | UNDEF
deriving DecidableEq

/-- One event delivered through the event sink:
`CFE_EVS_SendEvent(event_id, event_type, "%s", line)`. -/
structure GruntEvent where
  event_id : Nat
  event_type : Nat
  line : List Char
deriving DecidableEq

/-- The Grunt interpreter's mutable state: the two stacks of
`grunt_stack.c` (modelled as two lists, top first, sharing the capacity
`GRUNT_STACK_SIZE`), the input queue of `grunt_input.c`, the string table
and output queue of `grunt_output.c`, the program counter of `grunt.c`,
and the trace of events emitted through the sink. -/
structure VMState where
  argStack : List grunt_value
  ctlStack : List grunt_value
  inputQueue : List Nat
  headIndex : Nat
  stringTable : List String
  numStrings : Nat
  outputQueue : List Char
  tailIndex : Nat
  events : List GruntEvent
  pc : Nat
deriving DecidableEq

/-! ### Dual stack, from `grunt_stack.c` -/

def GRUNT_STACK_SIZE : Nat := 2 * 16

/-- `grunt_stack_arg_push()`: no PC values on the arg stack; full stack is
an overflow. -/
def grunt_stack_arg_push (v : grunt_value) (σ : VMState) : Nat × VMState :=
  match v with
  | .gpc _ => (GRUNT_ERROR_INTERPRETERBUG, σ)
  | _ =>
    if σ.argStack.length + σ.ctlStack.length + 1 > GRUNT_STACK_SIZE then
      (GRUNT_ERROR_OUTOFBOUNDS, σ)
    else
      (0, { σ with argStack := v :: σ.argStack })

/-- `grunt_stack_arg_pop()`: `none` models the `GRUNT_ERROR_OUTOFBOUNDS`
return on an empty argument stack, which leaves the state unchanged. -/
def grunt_stack_arg_pop (σ : VMState) : Option (grunt_value × VMState) :=
  match σ.argStack with
  | [] => none
  | v :: rest => some (v, { σ with argStack := rest })

/-- `grunt_stack_arg_dup()`: duplicate the top `n` elements in order. -/
def grunt_stack_arg_dup (n : Nat) (σ : VMState) : Nat × VMState :=
  if n = 0 then (GRUNT_ERROR_INTERPRETERBUG, σ)
  else if σ.argStack.length < n then (GRUNT_ERROR_OUTOFBOUNDS, σ)
  else if σ.argStack.length + σ.ctlStack.length + n > GRUNT_STACK_SIZE then
    (GRUNT_ERROR_OUTOFBOUNDS, σ)
  else (0, { σ with argStack := σ.argStack.take n ++ σ.argStack })

/-- `grunt_stack_arg_roll()`: roll the topmost `n` elements topward by
one step, i.e. the old top lands `n` deep and the `n - 1` elements below
it each move up one slot (`ROL 3 ; w x y z -- w z x y`). -/
def grunt_stack_arg_roll (n : Nat) (σ : VMState) : Nat × VMState :=
  if n < 2 then (GRUNT_ERROR_INTERPRETERBUG, σ)
  else if σ.argStack.length < n then (GRUNT_ERROR_OUTOFBOUNDS, σ)
  else
    match σ.argStack with
    | [] => (GRUNT_ERROR_OUTOFBOUNDS, σ)
    | top :: rest =>
      (0, { σ with argStack := rest.take (n - 1) ++ top :: rest.drop (n - 1) })

/-- `grunt_stack_ctl_push()`: only PC values on the control stack. -/
def grunt_stack_ctl_push (v : grunt_value) (σ : VMState) : Nat × VMState :=
  match v with
  | .gpc _ =>
    if σ.argStack.length + σ.ctlStack.length + 1 > GRUNT_STACK_SIZE then
      (GRUNT_ERROR_OUTOFBOUNDS, σ)
    else
      (0, { σ with ctlStack := v :: σ.ctlStack })
  | _ => (GRUNT_ERROR_INTERPRETERBUG, σ)

/-- `grunt_stack_ctl_pop()`. -/
def grunt_stack_ctl_pop (σ : VMState) : Option (grunt_value × VMState) :=
  match σ.ctlStack with
  | [] => none
  | v :: rest => some (v, { σ with ctlStack := rest })

/-! ### Input queue, from `grunt_input.c`

The C code reads 1-, 2- and 4-byte unsigned integers directly out of the
caller's buffer in the processor's native byte order; the model commits
to little-endian reads (the byte order of the hosts the code targets). -/

/-- Value of the `n` bytes of `l` starting at index `i`, little-endian. -/
def grunt_le (l : List Nat) (i : Nat) : Nat → Nat
  | 0 => 0
  | m + 1 => l.getD i 0 + 256 * grunt_le l (i + 1) m

/-- `grunt_input_rewind()`: `n = 0` rewinds to the start, `n > 0` rewinds
by `n`; rewinding past the start is an error. -/
def grunt_input_rewind (n : Nat) (σ : VMState) : Nat × VMState :=
  if n > σ.headIndex then (GRUNT_ERROR_OUTOFBOUNDS, σ)
  else if n = 0 then (0, { σ with headIndex := 0 })
  else (0, { σ with headIndex := σ.headIndex - n })

/-- `grunt_input_dequeue()`: read an `n`-byte number at the head, advance
the head.  (`GRUNT_Run` always initializes the queue, so the C code's
null-pointer `GRUNT_ERROR_INTERPRETERBUG` branch is not reachable and is
not modelled.) -/
def grunt_input_dequeue (n : Nat) (σ : VMState) :
    Except Nat (grunt_value × VMState) :=
  if ¬(n = 1 ∨ n = 2 ∨ n = 4) then .error GRUNT_ERROR_INVALIDLITERAL
  else if σ.headIndex + n > σ.inputQueue.length then
    .error GRUNT_ERROR_OUTOFBOUNDS
  else
    .ok (.gnum (grunt_le σ.inputQueue σ.headIndex n),
         { σ with headIndex := σ.headIndex + n })

/-! ### Output queue, from `grunt_output.c` -/

/-- `OUTPUT_QUEUE_SIZE` is `CFE_MISSION_EVS_MAX_MESSAGE_LENGTH`, a cFE
framework configuration constant (the framework default, 122 bytes); the
spec only requires "the framework's per-event maximum". -/
def OUTPUT_QUEUE_SIZE : Nat := 122

/-- `grunt_output_reset()`: zero the whole buffer, tail to 0. -/
def grunt_output_reset (σ : VMState) : VMState :=
  { σ with outputQueue := List.replicate OUTPUT_QUEUE_SIZE (Char.ofNat 0),
           tailIndex := 0 }

/-- `grunt_output_enqueue()`: append `s` at the tail if it fits in
`OUTPUT_QUEUE_SIZE - 1` bytes (one reserved for the terminating NUL). -/
def grunt_output_enqueue (s : List Char) (σ : VMState) : Nat × VMState :=
  if σ.tailIndex + s.length > OUTPUT_QUEUE_SIZE - 1 then
    (GRUNT_ERROR_OUTOFBOUNDS, σ)
  else
    (0, { σ with
            outputQueue := σ.outputQueue.take σ.tailIndex ++ s ++
              σ.outputQueue.drop (σ.tailIndex + s.length),
            tailIndex := σ.tailIndex + s.length })

/-- The digit-extraction loop behind the decimal rendering: peel the
least significant digit and prepend its character, with enough fuel to
exhaust the number. -/
def grunt_number_chars_loop : Nat → Nat → List Char → List Char
  | 0, _, acc => acc
  | _, 0, acc => acc
  | fuel + 1, u, acc =>
    grunt_number_chars_loop fuel (u / 10) (Nat.digitChar (u % 10) :: acc)

/-- The decimal rendering produced by `snprintf(.., "%u", u)`. -/
def grunt_number_chars (u : Nat) : List Char :=
  if u = 0 then ['0'] else grunt_number_chars_loop u u []

/-- `grunt_output_enqueue_boolean()`. -/
def grunt_output_enqueue_boolean (tf : Bool) (σ : VMState) : Nat × VMState :=
  if tf then grunt_output_enqueue "true".data σ
  else grunt_output_enqueue "false".data σ

/-- `grunt_output_enqueue_number()`: render `u` in decimal and append.
(The C code also guards against `snprintf` failure and against a length
above `GRUNT_REP_MAX`; the length check is kept, the `-1` failure return
of `snprintf` has no counterpart for a pure rendering function.) -/
def grunt_output_enqueue_number (u : Nat) (σ : VMState) : Nat × VMState :=
  if (grunt_number_chars u).length > GRUNT_REP_MAX then
    (GRUNT_ERROR_INTERPRETERBUG, σ)
  else grunt_output_enqueue (grunt_number_chars u) σ

/-- `grunt_output_enqueue_string()`: bounds-check the string index
against the string table, then append the string's bytes. -/
def grunt_output_enqueue_string (string_index : Nat) (σ : VMState) :
    Nat × VMState :=
  if ¬(string_index < σ.numStrings) then (GRUNT_ERROR_INVALIDLITERAL, σ)
  else if GRUNT_REP_MAX < (σ.stringTable.getD string_index "").data.length then
    (GRUNT_ERROR_OUTOFBOUNDS, σ)
  else grunt_output_enqueue (σ.stringTable.getD string_index "").data σ

/-- `grunt_output_flush()`: deliver the buffer's NUL-terminated contents
through `CFE_EVS_SendEvent(event_id, event_type, "%s", buffer)`, then
reset the buffer.  The `"%s"` conversion reads the buffer up to its first
NUL byte. -/
def grunt_output_flush (event_type event_id : Nat) (σ : VMState) : VMState :=
  grunt_output_reset
    { σ with events := σ.events ++
        [⟨event_id, event_type, σ.outputQueue.takeWhile (· ≠ Char.ofNat 0)⟩] }

/-! ### Stack instructions, from `grunt_vm_stack.c` -/

/-- `grunt_vm_dup()`. -/
def grunt_vm_dup (reps : Nat) (σ : VMState) : Nat × VMState :=
  if reps < 1 then (GRUNT_ERROR_INVALIDLITERAL, σ)
  else grunt_stack_arg_dup reps σ

/-- The pop loop inside `grunt_vm_pop()`. -/
def grunt_vm_pop_loop : Nat → VMState → Nat × VMState
  | 0, σ => (0, σ)
  | k + 1, σ =>
    match grunt_stack_arg_pop σ with
    | none => (GRUNT_ERROR_OUTOFBOUNDS, σ)
    | some (_, σ1) => grunt_vm_pop_loop k σ1

/-- `grunt_vm_pop()`. -/
def grunt_vm_pop (reps : Nat) (σ : VMState) : Nat × VMState :=
  if reps < 1 then (GRUNT_ERROR_INVALIDLITERAL, σ)
  else grunt_vm_pop_loop reps σ

/-- `grunt_vm_pushb()`. -/
def grunt_vm_pushb (lit : grunt_value) (σ : VMState) : Nat × VMState :=
  match lit with
  | .gbool _ => grunt_stack_arg_push lit σ
  | _ => (GRUNT_ERROR_INVALIDLITERAL, σ)

/-- `grunt_vm_pushn()`. -/
def grunt_vm_pushn (lit : grunt_value) (σ : VMState) : Nat × VMState :=
  match lit with
  | .gnum _ => grunt_stack_arg_push lit σ
  | _ => (GRUNT_ERROR_INVALIDLITERAL, σ)

/-- `grunt_vm_pushs()`. -/
def grunt_vm_pushs (lit : grunt_value) (σ : VMState) : Nat × VMState :=
  match lit with
  | .gstr _ => grunt_stack_arg_push lit σ
  | _ => (GRUNT_ERROR_INVALIDLITERAL, σ)

/-- `grunt_vm_roll()`. -/
def grunt_vm_roll (reps : Nat) (σ : VMState) : Nat × VMState :=
  if reps < 2 then (GRUNT_ERROR_INVALIDLITERAL, σ)
  else grunt_stack_arg_roll reps σ

/-! ### Control instructions, from `grunt_vm_control.c`

`grunt_vm_step` has already incremented the program counter when these
run, exactly as in the C dispatcher. -/

/-- `grunt_vm_call()`: a `CALL` must carry a PC literal, must target a
strictly forward address (`GRUNT_ERROR_NOLOOPS` otherwise, judged against
the already-incremented program counter), pushes the incremented program
counter on the control stack and jumps to the target. -/
def grunt_vm_call (lit : grunt_value) (σ : VMState) : Nat × VMState :=
  match lit with
  | .gpc target =>
    if target < σ.pc then (GRUNT_ERROR_NOLOOPS, σ)
    else if (grunt_stack_ctl_push (.gpc σ.pc) σ).1 ≠ 0 then
      grunt_stack_ctl_push (.gpc σ.pc) σ
    else (0, { (grunt_stack_ctl_push (.gpc σ.pc) σ).2 with pc := target })
  | _ => (GRUNT_ERROR_INVALIDLITERAL, σ)

/-- `grunt_vm_halt()`: pop a Boolean and turn it into the run's
verdict. -/
def grunt_vm_halt (σ : VMState) : Nat × VMState :=
  match grunt_stack_arg_pop σ with
  | none => (GRUNT_ERROR_OUTOFBOUNDS, σ)
  | some (v, σ1) =>
    match v with
    | .gbool b => (if b then GRUNT_HALT_TRUE else GRUNT_HALT_FALSE, σ1)
    | _ => (GRUNT_ERROR_INVALIDARGUMENT, σ1)

/-- `grunt_vm_jmpif()`: relative forward jump by `lit - 1` (on top of the
dispatcher's increment) when the popped Boolean is true. -/
def grunt_vm_jmpif (lit : grunt_value) (σ : VMState) : Nat × VMState :=
  match lit with
  | .gpc adj =>
    if adj < 2 then (GRUNT_ERROR_INVALIDLITERAL, σ)
    else
      match grunt_stack_arg_pop σ with
      | none => (GRUNT_ERROR_OUTOFBOUNDS, σ)
      | some (v, σ1) =>
        match v with
        | .gbool b =>
          if ¬b then (0, σ1)
          else if adj > GRUNT_PC_MAX - σ1.pc then (GRUNT_ERROR_NOPROGRAM, σ1)
          else (0, { σ1 with pc := (σ1.pc + (adj - 1)) % 2 ^ 16 })
        | _ => (GRUNT_ERROR_INVALIDARGUMENT, σ1)
  | _ => (GRUNT_ERROR_INVALIDLITERAL, σ)

/-- `grunt_vm_return()`: pop the control stack and resume there. -/
def grunt_vm_return (σ : VMState) : Nat × VMState :=
  match grunt_stack_ctl_pop σ with
  | none => (GRUNT_ERROR_OUTOFBOUNDS, σ)
  | some (v, σ1) => (0, { σ1 with pc := grunt_value_pcval v })

/-! ### Logic instructions, from `grunt_vm_logic.c` -/

/-- The accumulation loop inside `grunt_vm_and_or()`. -/
def grunt_vm_and_or_loop (and_flag : Bool) (acc : Bool) :
    Nat → VMState → Nat × VMState
  | 0, σ => grunt_stack_arg_push (.gbool acc) σ
  | k + 1, σ =>
    match grunt_stack_arg_pop σ with
    | none => (GRUNT_ERROR_OUTOFBOUNDS, σ)
    | some (v, σ1) =>
      match v with
      | .gbool b =>
        grunt_vm_and_or_loop and_flag
          (if and_flag then acc && b else acc || b) k σ1
      | _ => (GRUNT_ERROR_INVALIDARGUMENT, σ1)

/-- `grunt_vm_and_or()`: pop `n ≥ 2` Booleans, combine, push the
result. -/
def grunt_vm_and_or (n : Nat) (and_flag : Bool) (σ : VMState) :
    Nat × VMState :=
  if n < 2 then (GRUNT_ERROR_INVALIDLITERAL, σ)
  else
    match grunt_stack_arg_pop σ with
    | none => (GRUNT_ERROR_OUTOFBOUNDS, σ)
    | some (v, σ1) =>
      match v with
      | .gbool b => grunt_vm_and_or_loop and_flag b (n - 1) σ1
      | _ => (GRUNT_ERROR_INVALIDARGUMENT, σ1)

/-- The comparison loop inside `grunt_vm_eq()`: every subsequent number
is compared against the first one popped. -/
def grunt_vm_eq_loop (na : Nat) (acc : Bool) : Nat → VMState → Nat × VMState
  | 0, σ => grunt_stack_arg_push (.gbool acc) σ
  | k + 1, σ =>
    match grunt_stack_arg_pop σ with
    | none => (GRUNT_ERROR_OUTOFBOUNDS, σ)
    | some (v, σ1) =>
      match v with
      | .gnum nb => grunt_vm_eq_loop na (acc && decide (na = nb)) k σ1
      | _ => (GRUNT_ERROR_INVALIDARGUMENT, σ1)

/-- `grunt_vm_eq()`: pop `n ≥ 2` numbers, push whether all are equal. -/
def grunt_vm_eq (n : Nat) (σ : VMState) : Nat × VMState :=
  if n < 2 then (GRUNT_ERROR_INVALIDLITERAL, σ)
  else
    match grunt_stack_arg_pop σ with
    | none => (GRUNT_ERROR_OUTOFBOUNDS, σ)
    | some (v, σ1) =>
      match v with
      | .gnum na => grunt_vm_eq_loop na true (n - 1) σ1
      | _ => (GRUNT_ERROR_INVALIDARGUMENT, σ1)

/-- `grunt_vm_lt_gt()`: pop two numbers (`p_rb` first, so `p_rb` is the
old top of the stack) and push `p_ra < p_rb` resp. `p_ra > p_rb`. -/
def grunt_vm_lt_gt (lt_flag : Bool) (σ : VMState) : Nat × VMState :=
  match grunt_stack_arg_pop σ with
  | none => (GRUNT_ERROR_OUTOFBOUNDS, σ)
  | some (vb, σ1) =>
    match vb with
    | .gnum nb =>
      match grunt_stack_arg_pop σ1 with
      | none => (GRUNT_ERROR_OUTOFBOUNDS, σ1)
      | some (va, σ2) =>
        match va with
        | .gnum na =>
          grunt_stack_arg_push
            (.gbool (if lt_flag then decide (na < nb) else decide (na > nb)))
            σ2
        | _ => (GRUNT_ERROR_INVALIDARGUMENT, σ2)
    | _ => (GRUNT_ERROR_INVALIDARGUMENT, σ1)

/-- `grunt_vm_not()`. -/
def grunt_vm_not (σ : VMState) : Nat × VMState :=
  match grunt_stack_arg_pop σ with
  | none => (GRUNT_ERROR_OUTOFBOUNDS, σ)
  | some (v, σ1) =>
    match v with
    | .gbool b => grunt_stack_arg_push (.gbool !b) σ1
    | _ => (GRUNT_ERROR_INVALIDARGUMENT, σ1)

/-! ### Arithmetic instructions, from `grunt_vm_arithmetic.c` -/

/-- `grunt_vm_add_sub()`: pop `p_rb` (the old top) then `p_ra`; `ADD`
pushes `p_ra + p_rb` unless that exceeds `GRUNT_NUM_MAX`, `SUB` pushes
`p_ra - p_rb` unless `p_ra < p_rb`; over/underflow is
`GRUNT_ERROR_OUTOFBOUNDS`, never a wrapping result. -/
def grunt_vm_add_sub (add_flag : Bool) (σ : VMState) : Nat × VMState :=
  match grunt_stack_arg_pop σ with
  | none => (GRUNT_ERROR_OUTOFBOUNDS, σ)
  | some (vb, σ1) =>
    match vb with
    | .gnum nb =>
      match grunt_stack_arg_pop σ1 with
      | none => (GRUNT_ERROR_OUTOFBOUNDS, σ1)
      | some (va, σ2) =>
        match va with
        | .gnum na =>
          if add_flag then
            if nb > GRUNT_NUM_MAX - na then (GRUNT_ERROR_OUTOFBOUNDS, σ2)
            else grunt_stack_arg_push (.gnum (na + nb)) σ2
          else
            if na < nb then (GRUNT_ERROR_OUTOFBOUNDS, σ2)
            else grunt_stack_arg_push (.gnum (na - nb)) σ2
        | _ => (GRUNT_ERROR_INVALIDARGUMENT, σ2)
    | _ => (GRUNT_ERROR_INVALIDARGUMENT, σ1)

/-! ### Input/output instructions, from `grunt_vm_io.c` -/

/-- `grunt_vm_flush()`: pop two numbers and flush the output line through
the sink.  The value popped first (the old stack top) is passed as the
`event_type` (severity) argument of `grunt_output_flush`, the second as
the `event_id`. -/
def grunt_vm_flush (σ : VMState) : Nat × VMState :=
  match grunt_stack_arg_pop σ with
  | none => (GRUNT_ERROR_OUTOFBOUNDS, σ)
  | some (va, σ1) =>
    match va with
    | .gnum na =>
      match grunt_stack_arg_pop σ1 with
      | none => (GRUNT_ERROR_OUTOFBOUNDS, σ1)
      | some (vb, σ2) =>
        match vb with
        | .gnum nb => (0, grunt_output_flush na nb σ2)
        | _ => (GRUNT_ERROR_INVALIDARGUMENT, σ2)
    | _ => (GRUNT_ERROR_INVALIDARGUMENT, σ1)

/-- `grunt_vm_input()`: dequeue an `n`-byte number and push it. -/
def grunt_vm_input (n : Nat) (σ : VMState) : Nat × VMState :=
  if ¬(n = 4 ∨ n = 2 ∨ n = 1) then (GRUNT_ERROR_INVALIDLITERAL, σ)
  else
    match grunt_input_dequeue n σ with
    | .error st => (st, σ)
    | .ok (v, σ1) => grunt_stack_arg_push v σ1

/-- `grunt_vm_output()`: pop a value and append its rendering to the
output line; PC values cannot be output. -/
def grunt_vm_output (σ : VMState) : Nat × VMState :=
  match grunt_stack_arg_pop σ with
  | none => (GRUNT_ERROR_OUTOFBOUNDS, σ)
  | some (v, σ1) =>
    match v with
    | .gbool b => grunt_output_enqueue_boolean b σ1
    | .gnum u => grunt_output_enqueue_number u σ1
    | .gstr i => grunt_output_enqueue_string i σ1
    | .gpc _ => (GRUNT_ERROR_INVALIDARGUMENT, σ1)

/-- `grunt_vm_rewind()`. -/
def grunt_vm_rewind (reps : Nat) (σ : VMState) : Nat × VMState :=
  grunt_input_rewind reps σ

/-! ### Dispatch and run loop, from `grunt.c` -/

/-- `grunt_vm_step()`: increment the program counter (a `uint16`, hence
the `% 2 ^ 16`), then dispatch on the opcode.  Unknown opcodes yield
`GRUNT_ERROR_INVALIDOPCODE`. -/
def grunt_vm_step (i : grunt_instruction) (σ : VMState) : Nat × VMState :=
  let σi := { σ with pc := (σ.pc + 1) % 2 ^ 16 }
  match i with
  | .ADD => grunt_vm_add_sub true σi
  | .AND r => grunt_vm_and_or r true σi
  | .CALL lit => grunt_vm_call lit σi
  | .DUP r => grunt_vm_dup r σi
  | .EQ r => grunt_vm_eq r σi
  | .FLUSH => grunt_vm_flush σi
  | .GT => grunt_vm_lt_gt false σi
  | .HALT => grunt_vm_halt σi
  | .INPUT r => grunt_vm_input r σi
  | .JMPIF lit => grunt_vm_jmpif lit σi
  | .LT => grunt_vm_lt_gt true σi
  | .NOT => grunt_vm_not σi
  | .OUTPUT => grunt_vm_output σi
  | .OR r => grunt_vm_and_or r false σi
  | .POP r => grunt_vm_pop r σi
  | .PUSHB lit => grunt_vm_pushb lit σi
  | .PUSHN lit => grunt_vm_pushn lit σi
  | .PUSHS lit => grunt_vm_pushs lit σi
  | .RETURN => grunt_vm_return σi
  | .REWIND r => grunt_vm_rewind r σi
  | .ROLL r => grunt_vm_roll r σi
  | .SUB => grunt_vm_add_sub false σi
  | .UNDEF => (GRUNT_ERROR_INVALIDOPCODE, σi)

/-- The interpreter main loop of `GRUNT_Run()`: each iteration faults
with `GRUNT_ERROR_NOPROGRAM` if the program counter has left the program,
otherwise executes one step and stops on any non-zero status.  The C loop
has no fuel parameter; `fuel` is the standard device for presenting a
C `do`/`while` loop as a total function, and the termination theorem
below shows that the fuel chosen by `GRUNT_Run` is never exhausted. -/
def grunt_run_loop (program : List grunt_instruction) (num_instructions : Nat) :
    Nat → VMState → Option (Nat × VMState)
  | 0, _ => none
  | fuel + 1, σ =>
    if σ.pc < num_instructions then
      if (grunt_vm_step (program.getD σ.pc .UNDEF) σ).1 = 0 then
        grunt_run_loop program num_instructions fuel
          (grunt_vm_step (program.getD σ.pc .UNDEF) σ).2
      else some (grunt_vm_step (program.getD σ.pc .UNDEF) σ)
    else
      some (GRUNT_ERROR_NOPROGRAM, σ)

/-- Fuel sufficient for any program of length `n ≤ GRUNT_PC_MAX`
(established by the termination theorem below). -/
def grunt_fuel (n : Nat) : Nat := n * (n + 1) ^ 33 + 1

/-- The initialization performed at the top of `GRUNT_Run()`:
`grunt_stack_init()`, `grunt_input_init()`, `grunt_output_init()` and
`grunt_vm_init()` together overwrite every piece of interpreter state,
starting from whatever state `g` a previous run left behind. -/
def grunt_vm_startup (g : VMState) (p_data : List Nat)
    (string_table : List String) (num_strings : Nat) : VMState :=
  { g with
      argStack := []
      ctlStack := []
      inputQueue := p_data
      headIndex := 0
      stringTable := string_table
      numStrings := num_strings
      outputQueue := List.replicate OUTPUT_QUEUE_SIZE (Char.ofNat 0)
      tailIndex := 0
      events := []
      pc := 0 }

/-- `GRUNT_Run()`, starting from the interpreter state `g` left behind by
earlier activity.  Returns the final status together with the final
interpreter state (whose `events` field is the trace of event-sink
calls). -/
def GRUNT_Run_from (g : VMState) (program : List grunt_instruction)
    (p_data : List Nat) (string_table : List String) (num_strings : Nat) :
    Option (Nat × VMState) :=
  grunt_run_loop program program.length (grunt_fuel program.length)
    (grunt_vm_startup g p_data string_table num_strings)

/-- An arbitrary fixed interpreter state, standing for the process state
at the first-ever call of `GRUNT_Run()`. -/
def initialGlobals : VMState :=
  ⟨[], [], [], 0, [], 0, [], 0, [], 0⟩

/-- `GRUNT_Run()`. -/
def GRUNT_Run (program : List grunt_instruction) (p_data : List Nat)
    (string_table : List String) (num_strings : Nat) :
    Option (Nat × VMState) :=
  GRUNT_Run_from initialGlobals program p_data string_table num_strings

/-- The status returned by a run. -/
def grunt_run_status (program : List grunt_instruction) (p_data : List Nat)
    (string_table : List String) (num_strings : Nat) : Option Nat :=
  (GRUNT_Run program p_data string_table num_strings).map (fun r => r.1)

/-- The sequence of events a run emits through the sink. -/
def grunt_run_events (program : List grunt_instruction) (p_data : List Nat)
    (string_table : List String) (num_strings : Nat) :
    Option (List GruntEvent) :=
  (GRUNT_Run program p_data string_table num_strings).map
    (fun r => r.2.events)

/-! ### Table-validation constants

From `vs_tablestruct.h` (parameter identifiers and bound ranges) and
`vs_eventids.h` (event identifiers). -/

def VS_PARM_UNUSED : Nat := 0x00
def VS_PARM_APE : Nat := 0x01
def VS_PARM_BAT : Nat := 0x02
def VS_PARM_CAT : Nat := 0x04
def VS_PARM_DOG : Nat := 0x08
def VS_PARM_NORTH : Nat := 0x10
def VS_PARM_SOUTH : Nat := 0x20
def VS_PARM_EAST : Nat := 0x40
def VS_PARM_WEST : Nat := 0x80

def VS_PARM_ANIMAL_MIN : Nat := 0x00000010
def VS_PARM_ANIMAL_MAX : Nat := 0x00001000
def VS_PARM_DIRECTION_MIN : Nat := 0x00010000
def VS_PARM_DIRECTION_MAX : Nat := 0x01000000

def VS_VALIDATION_INF_EID : Nat := 0x0008
def VS_TBL_ZERO_ERR_EID : Nat := 0x2001
def VS_TBL_PARM_ERR_EID : Nat := 0x2002
def VS_TBL_PAD_ERR_EID : Nat := 0x2004
def VS_TBL_LBND_ERR_EID : Nat := 0x2008
def VS_TBL_HBND_ERR_EID : Nat := 0x2010
def VS_TBL_ORDER_ERR_EID : Nat := 0x2020
def VS_TBL_EXTRA_ERR_EID : Nat := 0x2040
def VS_TBL_REDEF_ERR_EID : Nat := 0x2080

/-- Modelled from the spec: the event severities come from the external
cFE framework header (`cfe.h`), which is not part of this repository.
The spec carries severity as an opaque numeric with distinct values for
INFORMATION and ERROR events; the concrete numerals here are arbitrary
distinct values, all statements about them treat them as opaque. -/
def CFE_EVS_EventType_INFORMATION : Nat := 1

/-- Modelled from the spec: see `CFE_EVS_EventType_INFORMATION`. -/
def CFE_EVS_EventType_ERROR : Nat := 2

/-! ### The validator Grunt program, from `vsvf.h` -/

/-- `vsvf_strings[]`: the program's constant string table. -/
def vsvf_strings : List String := [
  "Table image entries: ",    -- 0
  " valid, ",
  " invalid, ",
  " unused",
  "Table entry ",             -- 4
  " parm ",
  " not zeroed",
  " invalid Parm ID",
  " padding not zeroed",
  " invalid low bound",
  " invalid high bound",
  " invalid bound order",
  " follows an unused entry",
  " redefines earlier entry",
  "Unused",                   -- 14
  "Ape",
  "Bat",
  "Cat",
  "Dog",
  "North",
  "South",
  "East",
  "West",
  "Unknown"]

def VSVF_NUM_STRINGS : Nat := 24

/-! Subroutine addresses, computed exactly as the preprocessor macros in
`vsvf.h` compute them. -/

def MAIN : Nat := 0
def MAIN_LOC : Nat := 33
def VALIDATE_ENTRY : Nat := MAIN + MAIN_LOC
def VALIDATE_ENTRY_LOC : Nat := 52
def IS_UNUSED : Nat := VALIDATE_ENTRY + VALIDATE_ENTRY_LOC
def IS_UNUSED_LOC : Nat := 3
def IS_ANIMAL : Nat := IS_UNUSED + IS_UNUSED_LOC
def IS_ANIMAL_LOC : Nat := 16
def IS_DIRECTION : Nat := IS_ANIMAL + IS_ANIMAL_LOC
def IS_DIRECTION_LOC : Nat := 16
def VALIDATE_UNUSED : Nat := IS_DIRECTION + IS_DIRECTION_LOC
def VALIDATE_UNUSED_LOC : Nat := 18
def VALIDATE_INUSE : Nat := VALIDATE_UNUSED + VALIDATE_UNUSED_LOC
def VALIDATE_INUSE_LOC : Nat := 26
def VALIDATE_PAD : Nat := VALIDATE_INUSE + VALIDATE_INUSE_LOC
def VALIDATE_PAD_LOC : Nat := 17
def VALIDATE_BOUNDS : Nat := VALIDATE_PAD + VALIDATE_PAD_LOC
def VALIDATE_BOUNDS_LOC : Nat := 26
def VALIDATE_RANGE : Nat := VALIDATE_BOUNDS + VALIDATE_BOUNDS_LOC
def VALIDATE_RANGE_LOC : Nat := 15
def VALIDATE_ORDER : Nat := VALIDATE_RANGE + VALIDATE_RANGE_LOC
def VALIDATE_ORDER_LOC : Nat := 13
def VALIDATE_EXTRA : Nat := VALIDATE_ORDER + VALIDATE_ORDER_LOC
def VALIDATE_EXTRA_LOC : Nat := 15
def VALIDATE_REDEF : Nat := VALIDATE_EXTRA + VALIDATE_EXTRA_LOC
def VALIDATE_REDEF_LOC : Nat := 26
def HANDLE_PARMERR : Nat := VALIDATE_REDEF + VALIDATE_REDEF_LOC
def HANDLE_PARMERR_LOC : Nat := 10
def INC_UNUSED : Nat := HANDLE_PARMERR + HANDLE_PARMERR_LOC
def INC_UNUSED_LOC : Nat := 6
def INC_VALID : Nat := INC_UNUSED + INC_UNUSED_LOC
def INC_VALID_LOC : Nat := 5
def COMPUTE_INVALID : Nat := INC_VALID + INC_VALID_LOC
def COMPUTE_INVALID_LOC : Nat := 7
def COMPUTE_RESULT : Nat := COMPUTE_INVALID + COMPUTE_INVALID_LOC
def COMPUTE_RESULT_LOC : Nat := 7
def EMIT_INFO : Nat := COMPUTE_RESULT + COMPUTE_RESULT_LOC
def EMIT_INFO_LOC : Nat := 15
def EMIT_ERROR_PARMERR : Nat := EMIT_INFO + EMIT_INFO_LOC
def EMIT_ERROR_PARMERR_LOC : Nat := 9
def EMIT_ERROR : Nat := EMIT_ERROR_PARMERR + EMIT_ERROR_PARMERR_LOC
def EMIT_ERROR_LOC : Nat := 11
def PARM_TO_STR : Nat := EMIT_ERROR + EMIT_ERROR_LOC
def PARM_TO_STR_LOC : Nat := 75

def VSVF_NUM_INSTRUCTIONS : Nat := PARM_TO_STR + PARM_TO_STR_LOC

section
open grunt_instruction grunt_value

/-- `vsvf_program[]`: the table-validation Grunt program, transcribed
instruction for instruction from `vsvf.h`. -/
def vsvf_program : List grunt_instruction := [
  -- MAIN (address 0):
  -- Validate entry #1.
  PUSHN (gnum 0),                  /- -- unused -/
  PUSHN (gnum 0),                  /- -- u valid -/
  PUSHN (gnum VS_PARM_UNUSED),     /- -- u v saved-parmid-1 -/
  PUSHN (gnum VS_PARM_UNUSED),     /- -- u v s1 saved-parmid-2 -/
  PUSHN (gnum VS_PARM_UNUSED),     /- -- u v s1 s2 saved-parmid-3 -/
  PUSHN (gnum 1),                  /- -- u v s1 s2 s3 entry -/
  CALL (gpc VALIDATE_ENTRY),       /- -- u v s1 -/
  -- Save copies of saved-parmid-1 for entry #3 and #4 checks.
  DUP 1,
  ROLL 4,
  DUP 1,
  ROLL 4,
  -- Validate entry #2.
  PUSHN (gnum VS_PARM_UNUSED),
  PUSHN (gnum VS_PARM_UNUSED),
  PUSHN (gnum 2),
  CALL (gpc VALIDATE_ENTRY),
  -- Save copy of saved-parmid-2 for entry #4 check.
  DUP 1,
  ROLL 5,
  -- Validate entry #3.
  ROLL 3,
  ROLL 4,
  ROLL 4,
  PUSHN (gnum VS_PARM_UNUSED),
  PUSHN (gnum 3),
  CALL (gpc VALIDATE_ENTRY),
  -- Validate entry #4.
  ROLL 3,
  ROLL 5,
  ROLL 5,
  PUSHN (gnum 4),
  CALL (gpc VALIDATE_ENTRY),
  -- Compute invalid entry count and final result.
  POP 1,
  CALL (gpc COMPUTE_INVALID),
  CALL (gpc COMPUTE_RESULT),
  CALL (gpc EMIT_INFO),
  HALT,
  -- VALIDATE_ENTRY (address 33):
  INPUT 1,                         /- -- u v s1 s2 s3 e parmid -/
  DUP 1,
  ROLL 6,
  DUP 1,
  CALL (gpc IS_UNUSED),
  NOT,
  JMPIF (gpc 9),
  -- Validate unused entry.
  ROLL 5,
  ROLL 5,
  POP 3,
  CALL (gpc VALIDATE_UNUSED),
  JMPIF (gpc 2),
  RETURN,
  CALL (gpc INC_UNUSED),
  RETURN,
  -- Set up stack for validating in-use entries.
  ROLL 8,
  ROLL 8,
  ROLL 8,
  ROLL 8,
  ROLL 8,
  ROLL 8,
  ROLL 8,
  DUP 1,
  ROLL 9,
  ROLL 3,
  -- Is this an animal entry?
  DUP 1,
  CALL (gpc IS_ANIMAL),
  NOT,
  JMPIF (gpc 8),
  -- Validate animal entry.
  PUSHN (gnum VS_PARM_ANIMAL_MAX),
  PUSHN (gnum VS_PARM_ANIMAL_MIN),
  CALL (gpc VALIDATE_INUSE),
  JMPIF (gpc 2),
  RETURN,
  CALL (gpc INC_VALID),
  RETURN,
  -- Is this a direction entry?
  DUP 1,
  CALL (gpc IS_DIRECTION),
  NOT,
  JMPIF (gpc 8),
  -- Validate direction entry.
  PUSHN (gnum VS_PARM_DIRECTION_MAX),
  PUSHN (gnum VS_PARM_DIRECTION_MIN),
  CALL (gpc VALIDATE_INUSE),
  JMPIF (gpc 2),
  RETURN,
  CALL (gpc INC_VALID),
  RETURN,
  -- If we reach here, we have a bad parm ID.
  POP 1,
  ROLL 5,
  POP 4,
  CALL (gpc HANDLE_PARMERR),
  RETURN,
  -- IS_UNUSED (address 85):
  PUSHN (gnum VS_PARM_UNUSED),
  EQ 2,
  RETURN,
  -- IS_ANIMAL (address 88):
  DUP 1,
  PUSHN (gnum VS_PARM_APE),
  EQ 2,
  ROLL 2,
  DUP 1,
  PUSHN (gnum VS_PARM_BAT),
  EQ 2,
  ROLL 2,
  DUP 1,
  PUSHN (gnum VS_PARM_CAT),
  EQ 2,
  ROLL 2,
  PUSHN (gnum VS_PARM_DOG),
  EQ 2,
  OR 4,
  RETURN,
  -- IS_DIRECTION (address 104):
  DUP 1,
  PUSHN (gnum VS_PARM_NORTH),
  EQ 2,
  ROLL 2,
  DUP 1,
  PUSHN (gnum VS_PARM_SOUTH),
  EQ 2,
  ROLL 2,
  DUP 1,
  PUSHN (gnum VS_PARM_EAST),
  EQ 2,
  ROLL 2,
  PUSHN (gnum VS_PARM_WEST),
  EQ 2,
  OR 4,
  RETURN,
  -- VALIDATE_UNUSED (address 120):
  INPUT 1,
  INPUT 2,
  INPUT 4,
  INPUT 4,
  PUSHN (gnum 0),
  EQ 5,
  JMPIF (gpc 9),
  -- Not all zeroed.  Emit not-zeroed error message.
  ROLL 2,
  PUSHN (gnum VS_TBL_ZERO_ERR_EID),
  ROLL 3,
  PUSHS (gstr 6),
  ROLL 3,
  CALL (gpc EMIT_ERROR),
  PUSHB (gbool false),
  RETURN,
  -- All zeroed.  Proper unused entry.
  POP 2,
  PUSHB (gbool true),
  RETURN,
  -- VALIDATE_INUSE (address 138):
  ROLL 8,
  ROLL 8,
  DUP 2,
  CALL (gpc VALIDATE_PAD),
  ROLL 9,
  DUP 2,
  ROLL 10,
  ROLL 10,
  ROLL 10,
  ROLL 10,
  ROLL 10,
  ROLL 10,
  ROLL 10,
  ROLL 10,
  CALL (gpc VALIDATE_BOUNDS),
  ROLL 7,
  DUP 2,
  ROLL 5,
  ROLL 5,
  ROLL 3,
  ROLL 3,
  CALL (gpc VALIDATE_EXTRA),
  ROLL 7,
  CALL (gpc VALIDATE_REDEF),
  AND 4,
  RETURN,
  -- VALIDATE_PAD (address 164):
  INPUT 1,
  INPUT 2,
  PUSHN (gnum 0),
  EQ 3,
  NOT,
  JMPIF (gpc 4),
  POP 2,
  PUSHB (gbool true),
  RETURN,
  ROLL 2,
  PUSHN (gnum VS_TBL_PAD_ERR_EID),
  ROLL 3,
  PUSHS (gstr 8),
  ROLL 3,
  CALL (gpc EMIT_ERROR),
  PUSHB (gbool false),
  RETURN,
  -- VALIDATE_BOUNDS (address 181):
  DUP 4,
  INPUT 4,
  DUP 1,
  ROLL 10,
  PUSHN (gnum VS_TBL_LBND_ERR_EID),
  ROLL 6,
  PUSHS (gstr 9),
  ROLL 6,
  CALL (gpc VALIDATE_RANGE),
  ROLL 6,
  DUP 4,
  INPUT 4,
  DUP 1,
  ROLL 11,
  PUSHN (gnum VS_TBL_HBND_ERR_EID),
  ROLL 6,
  PUSHS (gstr 10),
  ROLL 6,
  CALL (gpc VALIDATE_RANGE),
  ROLL 8,
  POP 2,
  ROLL 4,
  ROLL 4,
  CALL (gpc VALIDATE_ORDER),
  AND 3,
  RETURN,
  -- VALIDATE_RANGE (address 207):
  DUP 1,
  ROLL 4,
  ROLL 2,
  grunt_instruction.LT,
  ROLL 3,
  grunt_instruction.GT,
  OR 2,
  JMPIF (gpc 4),
  -- valid
  POP 4,
  PUSHB (gbool true),
  RETURN,
  -- invalid
  ROLL 2,
  CALL (gpc EMIT_ERROR),
  PUSHB (gbool false),
  RETURN,
  -- VALIDATE_ORDER (address 222):
  grunt_instruction.LT,
  JMPIF (gpc 4),
  -- valid
  POP 2,
  PUSHB (gbool true),
  RETURN,
  -- invalid
  ROLL 2,
  PUSHS (gstr 11),
  ROLL 3,
  PUSHN (gnum VS_TBL_ORDER_ERR_EID),
  ROLL 4,
  CALL (gpc EMIT_ERROR),
  PUSHB (gbool false),
  RETURN,
  -- VALIDATE_EXTRA (address 235):
  PUSHN (gnum 0),
  EQ 2,
  NOT,
  JMPIF (gpc 4),
  -- valid
  POP 2,
  PUSHB (gbool true),
  RETURN,
  -- invalid
  ROLL 2,
  PUSHS (gstr 12),
  ROLL 3,
  PUSHN (gnum VS_TBL_EXTRA_ERR_EID),
  ROLL 4,
  CALL (gpc EMIT_ERROR),
  PUSHB (gbool false),
  RETURN,
  -- VALIDATE_REDEF (address 250):
  DUP 1,
  ROLL 5,
  DUP 1,
  ROLL 4,
  DUP 1,
  ROLL 3,
  ROLL 8,
  ROLL 8,
  EQ 2,
  ROLL 5,
  EQ 2,
  ROLL 3,
  EQ 2,
  OR 3,
  JMPIF (gpc 4),
  -- valid (no redef)
  POP 2,
  PUSHB (gbool true),
  RETURN,
  -- not valid
  ROLL 2,
  PUSHS (gstr 13),
  ROLL 3,
  PUSHN (gnum VS_TBL_REDEF_ERR_EID),
  ROLL 4,
  CALL (gpc EMIT_ERROR),
  PUSHB (gbool false),
  RETURN,
  -- HANDLE_PARMERR (address 276):
  INPUT 1,
  POP 1,
  INPUT 2,
  POP 1,
  INPUT 4,
  POP 1,
  INPUT 4,
  POP 1,
  CALL (gpc EMIT_ERROR_PARMERR),
  RETURN,
  -- INC_UNUSED (address 286):
  ROLL 3,
  ROLL 3,
  PUSHN (gnum 1),
  ADD,
  ROLL 3,
  RETURN,
  -- INC_VALID (address 292):
  ROLL 2,
  PUSHN (gnum 1),
  ADD,
  ROLL 2,
  RETURN,
  -- COMPUTE_INVALID (address 297):
  DUP 2,
  ADD,
  PUSHN (gnum 4),
  ROLL 2,
  SUB,
  ROLL 2,
  RETURN,
  -- COMPUTE_RESULT (address 304):
  ROLL 2,
  DUP 1,
  PUSHN (gnum 0),
  EQ 2,
  ROLL 4,
  ROLL 2,
  RETURN,
  -- EMIT_INFO (address 311):
  PUSHS (gstr 0),
  OUTPUT,
  OUTPUT,
  PUSHS (gstr 1),
  OUTPUT,
  OUTPUT,
  PUSHS (gstr 2),
  OUTPUT,
  OUTPUT,
  PUSHS (gstr 3),
  OUTPUT,
  PUSHN (gnum VS_VALIDATION_INF_EID),
  PUSHN (gnum CFE_EVS_EventType_INFORMATION),
  FLUSH,
  RETURN,
  -- EMIT_ERROR_PARMERR (address 326):
  PUSHS (gstr 4),
  OUTPUT,
  OUTPUT,
  PUSHS (gstr 7),
  OUTPUT,
  PUSHN (gnum VS_TBL_PARM_ERR_EID),
  PUSHN (gnum CFE_EVS_EventType_ERROR),
  FLUSH,
  RETURN,
  -- EMIT_ERROR (address 335):
  PUSHS (gstr 4),
  OUTPUT,
  OUTPUT,
  PUSHS (gstr 5),
  OUTPUT,
  CALL (gpc PARM_TO_STR),
  OUTPUT,
  OUTPUT,
  PUSHN (gnum CFE_EVS_EventType_ERROR),
  FLUSH,
  RETURN,
  -- PARM_TO_STR (address 346):
  DUP 1,
  PUSHN (gnum VS_PARM_UNUSED),
  EQ 2,
  NOT,
  JMPIF (gpc 4),
  POP 1,
  PUSHS (gstr 14),
  RETURN,
  DUP 1,
  PUSHN (gnum VS_PARM_APE),
  EQ 2,
  NOT,
  JMPIF (gpc 4),
  POP 1,
  PUSHS (gstr 15),
  RETURN,
  DUP 1,
  PUSHN (gnum VS_PARM_BAT),
  EQ 2,
  NOT,
  JMPIF (gpc 4),
  POP 1,
  PUSHS (gstr 16),
  RETURN,
  DUP 1,
  PUSHN (gnum VS_PARM_CAT),
  EQ 2,
  NOT,
  JMPIF (gpc 4),
  POP 1,
  PUSHS (gstr 17),
  RETURN,
  DUP 1,
  PUSHN (gnum VS_PARM_DOG),
  EQ 2,
  NOT,
  JMPIF (gpc 4),
  POP 1,
  PUSHS (gstr 18),
  RETURN,
  DUP 1,
  PUSHN (gnum VS_PARM_NORTH),
  EQ 2,
  NOT,
  JMPIF (gpc 4),
  POP 1,
  PUSHS (gstr 19),
  RETURN,
  DUP 1,
  PUSHN (gnum VS_PARM_SOUTH),
  EQ 2,
  NOT,
  JMPIF (gpc 4),
  POP 1,
  PUSHS (gstr 20),
  RETURN,
  DUP 1,
  PUSHN (gnum VS_PARM_EAST),
  EQ 2,
  NOT,
  JMPIF (gpc 4),
  POP 1,
  PUSHS (gstr 21),
  RETURN,
  DUP 1,
  PUSHN (gnum VS_PARM_WEST),
  EQ 2,
  NOT,
  JMPIF (gpc 4),
  POP 1,
  PUSHS (gstr 22),
  RETURN,
  POP 1,
  PUSHS (gstr 23),
  RETURN]

end

set_option maxRecDepth 4096 in
/-- The program array has exactly `VSVF_NUM_INSTRUCTIONS` entries, i.e.
the address macros of `vsvf.h` are consistent with the program text. -/
theorem vsvf_program_length : vsvf_program.length = VSVF_NUM_INSTRUCTIONS := by
  decide

/-! ### The host validation callback, from `vsc_table.c` -/

/-- `CFE_SUCCESS` (external cFE status code, zero). -/
def CFE_SUCCESS : Int := 0

/-- `VSC_TABLE_INVALID_RESULT` is `~CFE_SUCCESS`, i.e. the `int32` with
all bits set, which is `-1`. -/
def VSC_TABLE_INVALID_RESULT : Int := -1

/-- `VSC_table_validate()`: run the Grunt validator over the table image
(presumed invalid unless the run halts with `GRUNT_HALT_TRUE`). -/
def VSC_table_validate (tbl_data : List Nat) : Int :=
  match GRUNT_Run vsvf_program tbl_data vsvf_strings VSVF_NUM_STRINGS with
  | some (st, _) =>
    if st = GRUNT_HALT_TRUE then CFE_SUCCESS else VSC_TABLE_INVALID_RESULT
  | none => VSC_TABLE_INVALID_RESULT

/-! ### Termination of the run loop

The termination argument follows the loop-freedom design of the VM: every
successful step either moves the program counter strictly forward
(ordinary instructions and `JMPIF`), or pushes the strictly smaller
return address below a forward jump (`CALL`), or pops a return address
(`RETURN`).  These three effects all strictly decrease a positional
measure built from the control stack and the program counter. -/

/-- `σ'` agrees with `σ` on the control stack and the program counter. -/
def CtlPcEq (σ σ' : VMState) : Prop :=
  σ'.ctlStack = σ.ctlStack ∧ σ'.pc = σ.pc

theorem ctlpc_refl (σ : VMState) : CtlPcEq σ σ := ⟨Eq.refl _, Eq.refl _⟩

theorem ctlpc_trans {σ1 σ2 σ3 : VMState} (h1 : CtlPcEq σ1 σ2)
    (h2 : CtlPcEq σ2 σ3) : CtlPcEq σ1 σ3 :=
  ⟨h2.1.trans h1.1, h2.2.trans h1.2⟩

theorem frame_arg_push (v : grunt_value) (σ : VMState) :
    CtlPcEq σ (grunt_stack_arg_push v σ).2 := by
  cases v <;> simp only [grunt_stack_arg_push] <;>
    first
    | exact ctlpc_refl σ
    | (split
       · exact ctlpc_refl σ
       · exact ⟨rfl, rfl⟩)

theorem frame_arg_pop {σ : VMState} {v : grunt_value} {σ' : VMState}
    (h : grunt_stack_arg_pop σ = some (v, σ')) : CtlPcEq σ σ' := by
  unfold grunt_stack_arg_pop at h
  split at h
  · exact absurd h (by simp)
  · rw [Option.some_inj, Prod.mk.injEq] at h
    exact ⟨by rw [← h.2], by rw [← h.2]⟩

theorem frame_arg_dup (n : Nat) (σ : VMState) :
    CtlPcEq σ (grunt_stack_arg_dup n σ).2 := by
  unfold grunt_stack_arg_dup
  split
  · exact ctlpc_refl σ
  · split
    · exact ctlpc_refl σ
    · split
      · exact ctlpc_refl σ
      · exact ⟨rfl, rfl⟩

theorem frame_arg_roll (n : Nat) (σ : VMState) :
    CtlPcEq σ (grunt_stack_arg_roll n σ).2 := by
  unfold grunt_stack_arg_roll
  split
  · exact ctlpc_refl σ
  · split
    · exact ctlpc_refl σ
    · split
      · exact ctlpc_refl σ
      · exact ⟨rfl, rfl⟩

theorem frame_rewind (n : Nat) (σ : VMState) :
    CtlPcEq σ (grunt_input_rewind n σ).2 := by
  unfold grunt_input_rewind
  split
  · exact ctlpc_refl σ
  · split <;> exact ⟨rfl, rfl⟩

theorem frame_dequeue {n : Nat} {σ : VMState} {v : grunt_value}
    {σ' : VMState} (h : grunt_input_dequeue n σ = .ok (v, σ')) :
    CtlPcEq σ σ' := by
  unfold grunt_input_dequeue at h
  split at h
  · exact absurd h (by simp)
  · split at h
    · exact absurd h (by simp)
    · rw [Except.ok.injEq, Prod.mk.injEq] at h
      exact ⟨by rw [← h.2], by rw [← h.2]⟩

theorem frame_enqueue (s : List Char) (σ : VMState) :
    CtlPcEq σ (grunt_output_enqueue s σ).2 := by
  unfold grunt_output_enqueue
  split
  · exact ctlpc_refl σ
  · exact ⟨rfl, rfl⟩

theorem frame_enqueue_boolean (b : Bool) (σ : VMState) :
    CtlPcEq σ (grunt_output_enqueue_boolean b σ).2 := by
  unfold grunt_output_enqueue_boolean
  split <;> exact frame_enqueue _ _

theorem frame_enqueue_number (u : Nat) (σ : VMState) :
    CtlPcEq σ (grunt_output_enqueue_number u σ).2 := by
  unfold grunt_output_enqueue_number
  split
  · exact ctlpc_refl σ
  · exact frame_enqueue _ _

theorem frame_enqueue_string (i : Nat) (σ : VMState) :
    CtlPcEq σ (grunt_output_enqueue_string i σ).2 := by
  unfold grunt_output_enqueue_string
  split
  · exact ctlpc_refl σ
  · split
    · exact ctlpc_refl σ
    · exact frame_enqueue _ _

theorem frame_output_flush (a b : Nat) (σ : VMState) :
    CtlPcEq σ (grunt_output_flush a b σ) :=
  ⟨rfl, rfl⟩

theorem frame_vm_add_sub (flag : Bool) (σ : VMState) :
    CtlPcEq σ (grunt_vm_add_sub flag σ).2 := by
  obtain ⟨args, ctl, q, hd, st, ns, o, t, e, p⟩ := σ
  unfold grunt_vm_add_sub grunt_stack_arg_pop grunt_stack_arg_push
  rcases args with _ | ⟨vb, args⟩
  · exact ⟨rfl, rfl⟩
  · rcases vb <;> try exact ⟨rfl, rfl⟩
    rcases args with _ | ⟨va, args⟩
    · exact ⟨rfl, rfl⟩
    · rcases va <;> try exact ⟨rfl, rfl⟩
      dsimp only
      repeat' split
      all_goals exact ⟨rfl, rfl⟩

theorem frame_and_or_loop (flag : Bool) :
    ∀ (k : Nat) (acc : Bool) (σ : VMState),
      CtlPcEq σ (grunt_vm_and_or_loop flag acc k σ).2 := by
  intro k
  induction k with
  | zero => exact fun acc σ => frame_arg_push _ _
  | succ k ih =>
    intro acc σ
    obtain ⟨args, ctl, q, hd, st, ns, o, t, e, p⟩ := σ
    unfold grunt_vm_and_or_loop grunt_stack_arg_pop
    rcases args with _ | ⟨v, args⟩
    · exact ⟨rfl, rfl⟩
    · rcases v <;> try exact ⟨rfl, rfl⟩
      exact ih _ _

theorem frame_vm_and_or (n : Nat) (flag : Bool) (σ : VMState) :
    CtlPcEq σ (grunt_vm_and_or n flag σ).2 := by
  obtain ⟨args, ctl, q, hd, st, ns, o, t, e, p⟩ := σ
  unfold grunt_vm_and_or grunt_stack_arg_pop
  split
  · exact ⟨rfl, rfl⟩
  · rcases args with _ | ⟨v, args⟩
    · exact ⟨rfl, rfl⟩
    · rcases v <;> try exact ⟨rfl, rfl⟩
      exact frame_and_or_loop _ _ _ _

theorem frame_eq_loop (na : Nat) :
    ∀ (k : Nat) (acc : Bool) (σ : VMState),
      CtlPcEq σ (grunt_vm_eq_loop na acc k σ).2 := by
  intro k
  induction k with
  | zero => exact fun acc σ => frame_arg_push _ _
  | succ k ih =>
    intro acc σ
    obtain ⟨args, ctl, q, hd, st, ns, o, t, e, p⟩ := σ
    unfold grunt_vm_eq_loop grunt_stack_arg_pop
    rcases args with _ | ⟨v, args⟩
    · exact ⟨rfl, rfl⟩
    · rcases v <;> try exact ⟨rfl, rfl⟩
      exact ih _ _

theorem frame_vm_eq (n : Nat) (σ : VMState) :
    CtlPcEq σ (grunt_vm_eq n σ).2 := by
  obtain ⟨args, ctl, q, hd, st, ns, o, t, e, p⟩ := σ
  unfold grunt_vm_eq grunt_stack_arg_pop
  split
  · exact ⟨rfl, rfl⟩
  · rcases args with _ | ⟨v, args⟩
    · exact ⟨rfl, rfl⟩
    · rcases v <;> try exact ⟨rfl, rfl⟩
      exact frame_eq_loop _ _ _ _

theorem frame_vm_lt_gt (flag : Bool) (σ : VMState) :
    CtlPcEq σ (grunt_vm_lt_gt flag σ).2 := by
  obtain ⟨args, ctl, q, hd, st, ns, o, t, e, p⟩ := σ
  unfold grunt_vm_lt_gt grunt_stack_arg_pop grunt_stack_arg_push
  rcases args with _ | ⟨vb, args⟩
  · exact ⟨rfl, rfl⟩
  · rcases vb <;> try exact ⟨rfl, rfl⟩
    rcases args with _ | ⟨va, args⟩
    · exact ⟨rfl, rfl⟩
    · rcases va <;> try exact ⟨rfl, rfl⟩
      dsimp only
      repeat' split
      all_goals exact ⟨rfl, rfl⟩

theorem frame_vm_not (σ : VMState) : CtlPcEq σ (grunt_vm_not σ).2 := by
  obtain ⟨args, ctl, q, hd, st, ns, o, t, e, p⟩ := σ
  unfold grunt_vm_not grunt_stack_arg_pop grunt_stack_arg_push
  rcases args with _ | ⟨v, args⟩
  · exact ⟨rfl, rfl⟩
  · rcases v <;> try exact ⟨rfl, rfl⟩
    dsimp only
    repeat' split
    all_goals exact ⟨rfl, rfl⟩

theorem frame_vm_dup (r : Nat) (σ : VMState) :
    CtlPcEq σ (grunt_vm_dup r σ).2 := by
  unfold grunt_vm_dup
  split
  · exact ctlpc_refl σ
  · exact frame_arg_dup _ _

theorem frame_pop_loop :
    ∀ (k : Nat) (σ : VMState), CtlPcEq σ (grunt_vm_pop_loop k σ).2 := by
  intro k
  induction k with
  | zero => exact fun σ => ctlpc_refl σ
  | succ k ih =>
    intro σ
    obtain ⟨args, ctl, q, hd, st, ns, o, t, e, p⟩ := σ
    unfold grunt_vm_pop_loop grunt_stack_arg_pop
    rcases args with _ | ⟨v, args⟩
    · exact ⟨rfl, rfl⟩
    · exact ih _

theorem frame_vm_pop (r : Nat) (σ : VMState) :
    CtlPcEq σ (grunt_vm_pop r σ).2 := by
  unfold grunt_vm_pop
  split
  · exact ctlpc_refl σ
  · exact frame_pop_loop _ _

theorem frame_vm_pushb (lit : grunt_value) (σ : VMState) :
    CtlPcEq σ (grunt_vm_pushb lit σ).2 := by
  cases lit <;> simp only [grunt_vm_pushb] <;>
    first
    | exact ctlpc_refl σ
    | exact frame_arg_push _ _

theorem frame_vm_pushn (lit : grunt_value) (σ : VMState) :
    CtlPcEq σ (grunt_vm_pushn lit σ).2 := by
  cases lit <;> simp only [grunt_vm_pushn] <;>
    first
    | exact ctlpc_refl σ
    | exact frame_arg_push _ _

theorem frame_vm_pushs (lit : grunt_value) (σ : VMState) :
    CtlPcEq σ (grunt_vm_pushs lit σ).2 := by
  cases lit <;> simp only [grunt_vm_pushs] <;>
    first
    | exact ctlpc_refl σ
    | exact frame_arg_push _ _

theorem frame_vm_roll (r : Nat) (σ : VMState) :
    CtlPcEq σ (grunt_vm_roll r σ).2 := by
  unfold grunt_vm_roll
  split
  · exact ctlpc_refl σ
  · exact frame_arg_roll _ _

theorem frame_vm_flush (σ : VMState) : CtlPcEq σ (grunt_vm_flush σ).2 := by
  obtain ⟨args, ctl, q, hd, st, ns, o, t, e, p⟩ := σ
  unfold grunt_vm_flush grunt_stack_arg_pop grunt_output_flush
    grunt_output_reset
  rcases args with _ | ⟨va, args⟩
  · exact ⟨rfl, rfl⟩
  · rcases va <;> try exact ⟨rfl, rfl⟩
    rcases args with _ | ⟨vb, args⟩
    · exact ⟨rfl, rfl⟩
    · rcases vb <;> exact ⟨rfl, rfl⟩

theorem frame_vm_input (n : Nat) (σ : VMState) :
    CtlPcEq σ (grunt_vm_input n σ).2 := by
  unfold grunt_vm_input
  split
  · exact ctlpc_refl σ
  · cases hq : grunt_input_dequeue n σ with
    | error st => exact ctlpc_refl σ
    | ok vσ =>
      obtain ⟨v, σ1⟩ := vσ
      exact ctlpc_trans (frame_dequeue hq) (frame_arg_push _ _)

theorem frame_vm_output (σ : VMState) : CtlPcEq σ (grunt_vm_output σ).2 := by
  obtain ⟨args, ctl, q, hd, st, ns, o, t, e, p⟩ := σ
  unfold grunt_vm_output grunt_stack_arg_pop grunt_output_enqueue_boolean
    grunt_output_enqueue_number grunt_output_enqueue_string
    grunt_output_enqueue
  rcases args with _ | ⟨v, args⟩
  · exact ⟨rfl, rfl⟩
  · rcases v <;> try exact ⟨rfl, rfl⟩
    all_goals
      dsimp only
      repeat' split
      all_goals exact ⟨rfl, rfl⟩

theorem frame_vm_rewind (r : Nat) (σ : VMState) :
    CtlPcEq σ (grunt_vm_rewind r σ).2 :=
  frame_rewind _ _

/-- `grunt_vm_halt` never reports success: it either faults or ends the
run with one of the two halt statuses. -/
theorem status_fst {a b : Nat} {x y : VMState} (h : (a, x) = (b, y)) :
    a = b :=
  congrArg Prod.fst h

theorem grunt_vm_halt_status (σ : VMState) : (grunt_vm_halt σ).1 ≠ 0 := by
  obtain ⟨args, ctl, q, hd, st, ns, o, t, e, p⟩ := σ
  unfold grunt_vm_halt grunt_stack_arg_pop
  rcases args with _ | ⟨v, args⟩
  · simp [GRUNT_ERROR_OUTOFBOUNDS]
  · rcases v with b | u | i | pp
    · cases b <;> simp [GRUNT_HALT_TRUE, GRUNT_HALT_FALSE]
    · simp [GRUNT_ERROR_INVALIDARGUMENT]
    · simp [GRUNT_ERROR_INVALIDARGUMENT]
    · simp [GRUNT_ERROR_INVALIDARGUMENT]

/-- Every successful `grunt_vm_step` either keeps the control stack and
moves the (incremented) program counter forward or in place, or pushes
the incremented program counter and jumps at least that far forward
(`CALL`), or pops the control stack and resumes at the popped address
(`RETURN`). -/
theorem grunt_vm_step_shape (i : grunt_instruction) (σ σ1 : VMState)
    (h : grunt_vm_step i σ = (0, σ1)) :
    (σ1.ctlStack = σ.ctlStack ∧ (σ.pc + 1) % 2 ^ 16 ≤ σ1.pc) ∨
    (σ1.ctlStack = grunt_value.gpc ((σ.pc + 1) % 2 ^ 16) :: σ.ctlStack ∧
      (σ.pc + 1) % 2 ^ 16 ≤ σ1.pc ∧ σ1.ctlStack.length ≤ GRUNT_STACK_SIZE) ∨
    (∃ v rest, σ.ctlStack = v :: rest ∧ σ1.ctlStack = rest ∧
      σ1.pc = grunt_value_pcval v) := by
  obtain ⟨args, ctl, q, hd, st, ns, o, t, e, p⟩ := σ
  unfold grunt_vm_step at h
  cases i with
  | ADD =>
    dsimp only at h
    have hf := frame_vm_add_sub true ⟨args, ctl, q, hd, st, ns, o, t, e,
      (p + 1) % 2 ^ 16⟩
    rw [h] at hf
    exact Or.inl ⟨hf.1, Nat.le_of_eq hf.2.symm⟩
  | AND r =>
    dsimp only at h
    have hf := frame_vm_and_or r true ⟨args, ctl, q, hd, st, ns, o, t, e,
      (p + 1) % 2 ^ 16⟩
    rw [h] at hf
    exact Or.inl ⟨hf.1, Nat.le_of_eq hf.2.symm⟩
  | DUP r =>
    dsimp only at h
    have hf := frame_vm_dup r ⟨args, ctl, q, hd, st, ns, o, t, e,
      (p + 1) % 2 ^ 16⟩
    rw [h] at hf
    exact Or.inl ⟨hf.1, Nat.le_of_eq hf.2.symm⟩
  | EQ r =>
    dsimp only at h
    have hf := frame_vm_eq r ⟨args, ctl, q, hd, st, ns, o, t, e,
      (p + 1) % 2 ^ 16⟩
    rw [h] at hf
    exact Or.inl ⟨hf.1, Nat.le_of_eq hf.2.symm⟩
  | FLUSH =>
    dsimp only at h
    have hf := frame_vm_flush ⟨args, ctl, q, hd, st, ns, o, t, e,
      (p + 1) % 2 ^ 16⟩
    rw [h] at hf
    exact Or.inl ⟨hf.1, Nat.le_of_eq hf.2.symm⟩
  | GT =>
    dsimp only at h
    have hf := frame_vm_lt_gt false ⟨args, ctl, q, hd, st, ns, o, t, e,
      (p + 1) % 2 ^ 16⟩
    rw [h] at hf
    exact Or.inl ⟨hf.1, Nat.le_of_eq hf.2.symm⟩
  | HALT =>
    dsimp only at h
    exact absurd (congrArg Prod.fst h)
      (grunt_vm_halt_status ⟨args, ctl, q, hd, st, ns, o, t, e,
        (p + 1) % 2 ^ 16⟩)
  | INPUT r =>
    dsimp only at h
    have hf := frame_vm_input r ⟨args, ctl, q, hd, st, ns, o, t, e,
      (p + 1) % 2 ^ 16⟩
    rw [h] at hf
    exact Or.inl ⟨hf.1, Nat.le_of_eq hf.2.symm⟩
  | LT =>
    dsimp only at h
    have hf := frame_vm_lt_gt true ⟨args, ctl, q, hd, st, ns, o, t, e,
      (p + 1) % 2 ^ 16⟩
    rw [h] at hf
    exact Or.inl ⟨hf.1, Nat.le_of_eq hf.2.symm⟩
  | NOT =>
    dsimp only at h
    have hf := frame_vm_not ⟨args, ctl, q, hd, st, ns, o, t, e,
      (p + 1) % 2 ^ 16⟩
    rw [h] at hf
    exact Or.inl ⟨hf.1, Nat.le_of_eq hf.2.symm⟩
  | OUTPUT =>
    dsimp only at h
    have hf := frame_vm_output ⟨args, ctl, q, hd, st, ns, o, t, e,
      (p + 1) % 2 ^ 16⟩
    rw [h] at hf
    exact Or.inl ⟨hf.1, Nat.le_of_eq hf.2.symm⟩
  | OR r =>
    dsimp only at h
    have hf := frame_vm_and_or r false ⟨args, ctl, q, hd, st, ns, o, t, e,
      (p + 1) % 2 ^ 16⟩
    rw [h] at hf
    exact Or.inl ⟨hf.1, Nat.le_of_eq hf.2.symm⟩
  | POP r =>
    dsimp only at h
    have hf := frame_vm_pop r ⟨args, ctl, q, hd, st, ns, o, t, e,
      (p + 1) % 2 ^ 16⟩
    rw [h] at hf
    exact Or.inl ⟨hf.1, Nat.le_of_eq hf.2.symm⟩
  | PUSHB lit =>
    dsimp only at h
    have hf := frame_vm_pushb lit ⟨args, ctl, q, hd, st, ns, o, t, e,
      (p + 1) % 2 ^ 16⟩
    rw [h] at hf
    exact Or.inl ⟨hf.1, Nat.le_of_eq hf.2.symm⟩
  | PUSHN lit =>
    dsimp only at h
    have hf := frame_vm_pushn lit ⟨args, ctl, q, hd, st, ns, o, t, e,
      (p + 1) % 2 ^ 16⟩
    rw [h] at hf
    exact Or.inl ⟨hf.1, Nat.le_of_eq hf.2.symm⟩
  | PUSHS lit =>
    dsimp only at h
    have hf := frame_vm_pushs lit ⟨args, ctl, q, hd, st, ns, o, t, e,
      (p + 1) % 2 ^ 16⟩
    rw [h] at hf
    exact Or.inl ⟨hf.1, Nat.le_of_eq hf.2.symm⟩
  | REWIND r =>
    dsimp only at h
    have hf := frame_vm_rewind r ⟨args, ctl, q, hd, st, ns, o, t, e,
      (p + 1) % 2 ^ 16⟩
    rw [h] at hf
    exact Or.inl ⟨hf.1, Nat.le_of_eq hf.2.symm⟩
  | ROLL r =>
    dsimp only at h
    have hf := frame_vm_roll r ⟨args, ctl, q, hd, st, ns, o, t, e,
      (p + 1) % 2 ^ 16⟩
    rw [h] at hf
    exact Or.inl ⟨hf.1, Nat.le_of_eq hf.2.symm⟩
  | SUB =>
    dsimp only at h
    have hf := frame_vm_add_sub false ⟨args, ctl, q, hd, st, ns, o, t, e,
      (p + 1) % 2 ^ 16⟩
    rw [h] at hf
    exact Or.inl ⟨hf.1, Nat.le_of_eq hf.2.symm⟩
  | UNDEF =>
    dsimp only at h
    exact absurd (status_fst h) (by decide)
  | CALL lit =>
    dsimp only at h
    unfold grunt_vm_call grunt_stack_ctl_push at h
    cases lit with
    | gpc target =>
      dsimp only at h
      split at h
      · exact absurd (status_fst h) (by decide)
      next hfw =>
        by_cases hcap :
            args.length + ctl.length + 1 > GRUNT_STACK_SIZE
        · simp only [if_pos hcap] at h
          exact absurd (status_fst h) (by decide)
        · simp only [if_neg hcap] at h
          norm_num at h
          rw [← h]
          refine Or.inr (Or.inl ⟨rfl, ?_, ?_⟩)
          · dsimp only
            omega
          · simp only [List.length_cons]
            unfold GRUNT_STACK_SIZE at hcap ⊢
            omega
    | gbool b => exact absurd (status_fst h) (by decide)
    | gnum u => exact absurd (status_fst h) (by decide)
    | gstr i => exact absurd (status_fst h) (by decide)
  | JMPIF lit =>
    dsimp only at h
    unfold grunt_vm_jmpif grunt_stack_arg_pop at h
    cases lit with
    | gpc adj =>
      dsimp only at h
      split at h
      · exact absurd (status_fst h) (by decide)
      · rcases args with _ | ⟨v, args⟩
        · exact absurd (status_fst h) (by decide)
        · rcases v with b | u | i | pp
          · cases b
            · simp only [Bool.false_eq_true, not_false_eq_true,
                if_true] at h
              rw [Prod.mk.injEq] at h
              rw [← h.2]
              exact Or.inl ⟨rfl, Nat.le_refl _⟩
            · simp only [not_true_eq_false, if_false] at h
              split at h
              · exact absurd (status_fst h) (by decide)
              next hov =>
                rw [Prod.mk.injEq] at h
                rw [← h.2]
                refine Or.inl ⟨rfl, ?_⟩
                try dsimp only
                try dsimp only at hov
                have hs : (p + 1) % 2 ^ 16 + (adj - 1) < 2 ^ 16 := by
                  have hmlt : (p + 1) % 2 ^ 16 < 2 ^ 16 :=
                    Nat.mod_lt _ (by decide)
                  unfold GRUNT_PC_MAX at hov
                  omega
                rw [Nat.mod_eq_of_lt hs]
                omega
          · exact absurd (status_fst h) (by decide)
          · exact absurd (status_fst h) (by decide)
          · exact absurd (status_fst h) (by decide)
    | gbool b => exact absurd (status_fst h) (by decide)
    | gnum u => exact absurd (status_fst h) (by decide)
    | gstr i => exact absurd (status_fst h) (by decide)
  | RETURN =>
    dsimp only at h
    unfold grunt_vm_return grunt_stack_ctl_pop at h
    rcases ctl with _ | ⟨v, rest⟩
    · exact absurd (status_fst h) (by decide)
    · dsimp only at h
      rw [Prod.mk.injEq] at h
      rw [← h.2]
      exact Or.inr (Or.inr ⟨v, rest, rfl, rfl, rfl⟩)

/-- A successful step keeps the control stack within the stack
capacity. -/
theorem grunt_vm_step_ctl_le (i : grunt_instruction) {σ σ1 : VMState}
    (h : grunt_vm_step i σ = (0, σ1)) (hctl : σ.ctlStack.length ≤ 32) :
    σ1.ctlStack.length ≤ 32 := by
  rcases grunt_vm_step_shape i σ σ1 h with h1 | h2 | h3
  · rw [h1.1]; exact hctl
  · exact h2.2.2
  · obtain ⟨v, rest, hc, h1, _⟩ := h3
    rw [h1]
    have := congrArg List.length hc
    simp at this
    omega

/-- Value of a big-endian digit string in base `B`. -/
def valB (B : Nat) : List Nat → Nat
  | [] => 0
  | d :: ds => d * B ^ ds.length + valB B ds

theorem valB_lt_pow (B : Nat) (ds : List Nat) (h : ∀ d ∈ ds, d < B) :
    valB B ds < B ^ ds.length := by
  induction ds with
  | nil => simp [valB]
  | cons d ds ih =>
    have hd : d < B := h d (by simp)
    have ih2 := ih (fun x hx => h x (by simp [hx]))
    calc d * B ^ ds.length + valB B ds
        < d * B ^ ds.length + B ^ ds.length := by omega
      _ = (d + 1) * B ^ ds.length := by ring
      _ ≤ B * B ^ ds.length := Nat.mul_le_mul_right _ hd
      _ = B ^ (d :: ds).length := by
          simp [List.length_cons, pow_succ]
          ring

theorem valB_append (B : Nat) (xs ys : List Nat) :
    valB B (xs ++ ys) = valB B xs * B ^ ys.length + valB B ys := by
  induction xs with
  | nil => simp [valB]
  | cons d ds ih =>
    simp only [List.cons_append, valB, List.append_eq]
    rw [ih, List.length_append, pow_add]
    ring

theorem valB_replicate_zero (B n : Nat) :
    valB B (List.replicate n 0) = 0 := by
  induction n with
  | zero => simp [valB]
  | succ n ih => simp [List.replicate_succ, valB, ih]

/-- The positional comparison: with a common prefix and a strictly
smaller digit at the first difference, the value drops, whatever the
lower-order digits are (as long as they are genuine base-`B` digits). -/
theorem valB_append_lt (B : Nat) (xs : List Nat) {a b : Nat}
    {t1 t2 : List Nat} (hlen : t2.length = t1.length) (hab : b < a)
    (ht : ∀ d ∈ t2, d < B) :
    valB B (xs ++ b :: t2) < valB B (xs ++ a :: t1) := by
  rw [valB_append, valB_append]
  have hl : (b :: t2).length = (a :: t1).length := by simp [hlen]
  rw [hl]
  have key : valB B (b :: t2) < valB B (a :: t1) := by
    simp only [valB]
    have h2 : valB B t2 < B ^ t2.length := valB_lt_pow B t2 ht
    calc b * B ^ t2.length + valB B t2
        < b * B ^ t2.length + B ^ t2.length := by omega
      _ = (b + 1) * B ^ t2.length := by ring
      _ ≤ a * B ^ t2.length := Nat.mul_le_mul_right _ hab
      _ = a * B ^ t1.length := by rw [hlen]
      _ ≤ a * B ^ t1.length + valB B t1 := Nat.le_add_right _ _
  omega

/-- The termination measure digits: the control stack from the bottom
up, then the program counter, each as its distance from the end of the
program, padded with zeros to a fixed width. -/
def pcMeasureDigits (N : Nat) (σ : VMState) : List Nat :=
  σ.ctlStack.reverse.map (fun v => N - grunt_value_pcval v) ++
    (N - σ.pc) :: List.replicate (33 - σ.ctlStack.length) 0

/-- The termination measure: the digits read as a base-`N + 1`
numeral. -/
def gruntMeasure (N : Nat) (σ : VMState) : Nat :=
  valB (N + 1) (pcMeasureDigits N σ)

theorem measure_decreases {N : Nat} {σ σ1 : VMState}
    (i : grunt_instruction) (hN : N ≤ 65535) (hpc : σ.pc < N)
    (hctl : σ.ctlStack.length ≤ 32) (h : grunt_vm_step i σ = (0, σ1)) :
    gruntMeasure N σ1 < gruntMeasure N σ := by
  have hpci : (σ.pc + 1) % 2 ^ 16 = σ.pc + 1 :=
    Nat.mod_eq_of_lt (by omega)
  rcases grunt_vm_step_shape i σ σ1 h with hs | hs | hs
  · obtain ⟨h1, h2⟩ := hs
    rw [hpci] at h2
    unfold gruntMeasure pcMeasureDigits
    rw [h1]
    exact valB_append_lt _ _ rfl (by omega)
      (fun d hd => by
        rw [List.eq_of_mem_replicate hd]
        omega)
  · obtain ⟨h1, h2, h3⟩ := hs
    rw [hpci] at h1 h2
    have hk : σ.ctlStack.length ≤ 31 := by
      rw [h1] at h3
      simp only [List.length_cons, GRUNT_STACK_SIZE] at h3
      omega
    unfold gruntMeasure pcMeasureDigits
    rw [h1]
    simp only [List.reverse_cons, List.map_append, List.map_cons,
      List.map_nil, List.length_cons, List.append_assoc,
      List.singleton_append]
    have h33 : 33 - (σ.ctlStack.length + 1) = 32 - σ.ctlStack.length := by
      omega
    rw [h33]
    refine valB_append_lt _ _ ?_ ?_ ?_
    · simp only [List.length_cons, List.length_replicate]
      omega
    · simp only [grunt_value_pcval]
      omega
    · intro d hd
      simp only [List.mem_cons] at hd
      rcases hd with hd | hd
      · omega
      · rw [List.eq_of_mem_replicate hd]
        omega
  · obtain ⟨v, rest, hc, h1, h2⟩ := hs
    have hrest : rest.length ≤ 31 := by
      have := congrArg List.length hc
      simp only [List.length_cons] at this
      omega
    unfold gruntMeasure pcMeasureDigits
    rw [h1, h2, hc]
    simp only [List.reverse_cons, List.map_append, List.map_cons,
      List.map_nil, List.length_cons, List.append_assoc,
      List.singleton_append]
    have h33 : 33 - (rest.length + 1) = 32 - rest.length := by omega
    have h34 : 33 - rest.length = 32 - rest.length + 1 := by omega
    rw [h33, h34, List.replicate_succ]
    have hsh :
        rest.reverse.map (fun v => N - grunt_value_pcval v) ++
            (N - grunt_value_pcval v) ::
              (0 : Nat) :: List.replicate (32 - rest.length) 0 =
          (rest.reverse.map (fun v => N - grunt_value_pcval v) ++
              [N - grunt_value_pcval v]) ++
            (0 : Nat) :: List.replicate (32 - rest.length) 0 := by
      simp
    have hsh2 :
        rest.reverse.map (fun v => N - grunt_value_pcval v) ++
            (N - grunt_value_pcval v) ::
              (N - σ.pc) :: List.replicate (32 - rest.length) 0 =
          (rest.reverse.map (fun v => N - grunt_value_pcval v) ++
              [N - grunt_value_pcval v]) ++
            (N - σ.pc) :: List.replicate (32 - rest.length) 0 := by
      simp
    rw [hsh, hsh2]
    refine valB_append_lt _ _ rfl (by omega) ?_
    intro d hd
    rw [List.eq_of_mem_replicate hd]
    omega

/-- Any status inside a `some` result of the run loop is non-zero:
the loop only stops on `HALT` or on a fault. -/
theorem grunt_run_loop_status {prog : List grunt_instruction} {N : Nat} :
    ∀ {fuel : Nat} {σ : VMState} {r : Nat × VMState},
      grunt_run_loop prog N fuel σ = some r → r.1 ≠ 0 := by
  intro fuel
  induction fuel with
  | zero => intro σ r h; exact absurd h (by simp [grunt_run_loop])
  | succ fuel ih =>
    intro σ r h
    unfold grunt_run_loop at h
    split at h
    · split at h
      · exact ih h
      next hne =>
        rw [Option.some_inj] at h
        rw [← h]
        exact hne
    · rw [Option.some_inj] at h
      rw [← h]
      simp [GRUNT_ERROR_NOPROGRAM]

/-- Growing the fuel cannot change a `some` result of the run loop. -/
theorem grunt_run_loop_mono {prog : List grunt_instruction} {N : Nat} :
    ∀ {f1 : Nat} {σ : VMState} {r : Nat × VMState},
      grunt_run_loop prog N f1 σ = some r →
      ∀ {f2 : Nat}, f1 ≤ f2 → grunt_run_loop prog N f2 σ = some r := by
  intro f1
  induction f1 with
  | zero => intro σ r h; exact absurd h (by simp [grunt_run_loop])
  | succ f1 ih =>
    intro σ r h f2 hle
    match f2, hle with
    | f2 + 1, hle =>
      unfold grunt_run_loop at h ⊢
      split at h
      · split at h
        · next hpc hst =>
          rw [if_pos hpc, if_pos hst]
          exact ih h (by omega)
        · next hpc hst =>
          rw [if_pos hpc, if_neg hst]
          exact h
      · next hpc =>
        rw [if_neg hpc]
        exact h

/-- The run loop terminates: with fuel above the measure of the state it
always returns a result. -/
theorem grunt_run_loop_terminates {prog : List grunt_instruction}
    {N : Nat} (hN : N ≤ 65535) :
    ∀ (fuel : Nat) (σ : VMState), σ.ctlStack.length ≤ 32 →
      gruntMeasure N σ < fuel →
      ∃ r, grunt_run_loop prog N fuel σ = some r := by
  intro fuel
  induction fuel with
  | zero => intro σ _ hm; omega
  | succ fuel ih =>
    intro σ hctl hm
    unfold grunt_run_loop
    by_cases hpc : σ.pc < N
    · rw [if_pos hpc]
      by_cases hst : (grunt_vm_step (prog.getD σ.pc .UNDEF) σ).1 = 0
      · rw [if_pos hst]
        have hstep : grunt_vm_step (prog.getD σ.pc .UNDEF) σ =
            (0, (grunt_vm_step (prog.getD σ.pc .UNDEF) σ).2) := by
          rw [← hst]
        have hdec := measure_decreases (prog.getD σ.pc .UNDEF) hN hpc
          hctl hstep
        exact ih _ (grunt_vm_step_ctl_le _ hstep hctl) (by omega)
      · rw [if_neg hst]
        exact ⟨_, rfl⟩
    · rw [if_neg hpc]
      exact ⟨_, rfl⟩

/-- The measure of a freshly initialized interpreter state. -/
theorem gruntMeasure_startup (N : Nat) (g : VMState) (d : List Nat)
    (s : List String) (n : Nat) :
    gruntMeasure N (grunt_vm_startup g d s n) = N * (N + 1) ^ 33 := by
  unfold gruntMeasure pcMeasureDigits grunt_vm_startup
  simp [valB, valB_replicate_zero]

/-- `GRUNT_Run` (from any pre-existing interpreter state) terminates
with some result, for every program expressible in C (the program length
is a `grunt_pc_t`, i.e. at most `GRUNT_PC_MAX`), and that result is
never the internal "keep running" status 0. -/
theorem GRUNT_Run_from_terminates (g : VMState)
    (program : List grunt_instruction) (p_data : List Nat)
    (string_table : List String) (num_strings : Nat)
    (hlen : program.length ≤ GRUNT_PC_MAX) :
    ∃ r, GRUNT_Run_from g program p_data string_table num_strings =
        some r ∧ r.1 ≠ 0 := by
  unfold GRUNT_Run_from
  have hN : program.length ≤ 65535 := by
    unfold GRUNT_PC_MAX at hlen
    omega
  obtain ⟨r, hr⟩ := grunt_run_loop_terminates hN
    (grunt_fuel program.length)
    (grunt_vm_startup g p_data string_table num_strings)
    (by simp [grunt_vm_startup])
    (by
      rw [gruntMeasure_startup]
      unfold grunt_fuel
      omega)
  exact ⟨r, hr, grunt_run_loop_status hr⟩

/-! ### Symbolic execution of the validator program

`VReach σ σ2` says the interpreter, executing `vsvf_program`, reaches
`σ2` from `σ` by zero or more successful (status-0) steps.  The lemmas
`vr_*` below are one symbolic step each, specialized to the instruction
shapes the validator program uses, stated in continuation-passing form so
that whole subroutine executions chain by nested application. -/

set_option maxRecDepth 4096 in
theorem vsvf_length421 : vsvf_program.length = 421 := by decide

/-- Reachability by zero or more successful VM steps of the validator
program. -/
inductive VReach : VMState → VMState → Prop where
  | refl (σ : VMState) : VReach σ σ
  | step {σ σ1 σ2 : VMState} (hpc : σ.pc < 421)
      (h : grunt_vm_step (vsvf_program.getD σ.pc grunt_instruction.UNDEF) σ =
        (0, σ1))
      (rest : VReach σ1 σ2) : VReach σ σ2

/-- The canonical form of the interpreter's output buffer: the
accumulated line followed by zero padding up to the buffer size. -/
def obuf (l : List Char) : List Char :=
  l ++ List.replicate (OUTPUT_QUEUE_SIZE - l.length) (Char.ofNat 0)

theorem obuf_nil :
    List.replicate OUTPUT_QUEUE_SIZE (Char.ofNat 0) = obuf [] := by
  simp [obuf]

theorem obuf_write (acc s : List Char)
    (h : acc.length + s.length ≤ OUTPUT_QUEUE_SIZE - 1) :
    (obuf acc).take acc.length ++ s ++
      (obuf acc).drop (acc.length + s.length) = obuf (acc ++ s) := by
  unfold OUTPUT_QUEUE_SIZE at h
  unfold obuf OUTPUT_QUEUE_SIZE
  rw [List.take_append_of_le_length (by omega), List.take_of_length_le
    (by omega)]
  rw [List.drop_append_eq_append_drop]
  rw [List.drop_of_length_le (by omega), List.drop_replicate]
  have harith : 122 - acc.length - (acc.length + s.length - acc.length) =
      122 - (acc.length + s.length) := by omega
  rw [harith]
  simp [List.append_assoc, List.length_append]

theorem obuf_takeWhile_aux :
    ∀ (acc : List Char) (m : Nat), 0 < m →
      (∀ ch ∈ acc, ch ≠ Char.ofNat 0) →
      (acc ++ List.replicate m (Char.ofNat 0)).takeWhile
        (· ≠ Char.ofNat 0) = acc := by
  intro acc
  induction acc with
  | nil =>
    intro m hm _
    match m, hm with
    | m + 1, _ =>
      rw [List.replicate_succ]
      simp [List.takeWhile]
  | cons ch acc ih =>
    intro m hm hne
    have hch : ch ≠ Char.ofNat 0 := hne ch (by simp)
    have ih2 := ih m hm (fun x hx => hne x (by simp [hx]))
    simp only [ne_eq, decide_not] at ih2
    simp [List.takeWhile_cons, hch, ih2]

theorem obuf_takeWhile (acc : List Char)
    (h : acc.length ≤ OUTPUT_QUEUE_SIZE - 1)
    (hne : ∀ ch ∈ acc, ch ≠ Char.ofNat 0) :
    (obuf acc).takeWhile (· ≠ Char.ofNat 0) = acc := by
  unfold obuf
  exact obuf_takeWhile_aux acc _
    (by unfold OUTPUT_QUEUE_SIZE at h ⊢; omega) hne

theorem grunt_number_chars_digit (u : Nat) (h : u < 10) :
    grunt_number_chars u = [Nat.digitChar u] := by
  interval_cases u <;> decide

theorem digitChar_ne_nul (u : Nat) (hu : u < 10) :
    Nat.digitChar u ≠ Char.ofNat 0 := by
  interval_cases u <;> decide

theorem vr_pushn {n : Nat} {a c : List grunt_value} {q : List Nat}
    {hd : Nat} {st : List String} {ns : Nat} {o : List Char} {t : Nat}
    {e : List GruntEvent} {p : Nat} {σ2 : VMState}
    (hi : vsvf_program.getD p .UNDEF = .PUSHN (.gnum n))
    (hp : p < 421)
    (hcap : a.length + c.length + 1 ≤ GRUNT_STACK_SIZE)
    (hk : VReach ⟨.gnum n :: a, c, q, hd, st, ns, o, t, e, p + 1⟩ σ2) :
    VReach ⟨a, c, q, hd, st, ns, o, t, e, p⟩ σ2 := by
  refine VReach.step hp ?_ hk
  dsimp only
  rw [hi]
  unfold grunt_vm_step grunt_vm_pushn grunt_stack_arg_push
  dsimp only
  rw [if_neg (by omega), Nat.mod_eq_of_lt (show p + 1 < 2 ^ 16 by omega)]

theorem vr_pushb {b : Bool} {a c : List grunt_value} {q : List Nat}
    {hd : Nat} {st : List String} {ns : Nat} {o : List Char} {t : Nat}
    {e : List GruntEvent} {p : Nat} {σ2 : VMState}
    (hi : vsvf_program.getD p .UNDEF = .PUSHB (.gbool b))
    (hp : p < 421)
    (hcap : a.length + c.length + 1 ≤ GRUNT_STACK_SIZE)
    (hk : VReach ⟨.gbool b :: a, c, q, hd, st, ns, o, t, e, p + 1⟩ σ2) :
    VReach ⟨a, c, q, hd, st, ns, o, t, e, p⟩ σ2 := by
  refine VReach.step hp ?_ hk
  dsimp only
  rw [hi]
  unfold grunt_vm_step grunt_vm_pushb grunt_stack_arg_push
  dsimp only
  rw [if_neg (by omega), Nat.mod_eq_of_lt (show p + 1 < 2 ^ 16 by omega)]

theorem vr_pushs {i : Nat} {a c : List grunt_value} {q : List Nat}
    {hd : Nat} {st : List String} {ns : Nat} {o : List Char} {t : Nat}
    {e : List GruntEvent} {p : Nat} {σ2 : VMState}
    (hi : vsvf_program.getD p .UNDEF = .PUSHS (.gstr i))
    (hp : p < 421)
    (hcap : a.length + c.length + 1 ≤ GRUNT_STACK_SIZE)
    (hk : VReach ⟨.gstr i :: a, c, q, hd, st, ns, o, t, e, p + 1⟩ σ2) :
    VReach ⟨a, c, q, hd, st, ns, o, t, e, p⟩ σ2 := by
  refine VReach.step hp ?_ hk
  dsimp only
  rw [hi]
  unfold grunt_vm_step grunt_vm_pushs grunt_stack_arg_push
  dsimp only
  rw [if_neg (by omega), Nat.mod_eq_of_lt (show p + 1 < 2 ^ 16 by omega)]

theorem vr_pop1 {v1 : grunt_value} {a c : List grunt_value} {q : List Nat}
    {hd : Nat} {st : List String} {ns : Nat} {o : List Char} {t : Nat}
    {e : List GruntEvent} {p : Nat} {σ2 : VMState}
    (hi : vsvf_program.getD p .UNDEF = .POP 1)
    (hp : p < 421)
    (hk : VReach ⟨a, c, q, hd, st, ns, o, t, e, p + 1⟩ σ2) :
    VReach ⟨v1 :: a, c, q, hd, st, ns, o, t, e, p⟩ σ2 := by
  refine VReach.step hp ?_ hk
  dsimp only
  rw [hi]
  simp only [grunt_vm_step, grunt_vm_pop, grunt_vm_pop_loop,
    grunt_stack_arg_pop, Nat.mod_eq_of_lt (show p + 1 < 2 ^ 16 by omega)]
  norm_num

theorem vr_pop2 {v1 v2 : grunt_value} {a c : List grunt_value}
    {q : List Nat} {hd : Nat} {st : List String} {ns : Nat} {o : List Char}
    {t : Nat} {e : List GruntEvent} {p : Nat} {σ2 : VMState}
    (hi : vsvf_program.getD p .UNDEF = .POP 2)
    (hp : p < 421)
    (hk : VReach ⟨a, c, q, hd, st, ns, o, t, e, p + 1⟩ σ2) :
    VReach ⟨v1 :: v2 :: a, c, q, hd, st, ns, o, t, e, p⟩ σ2 := by
  refine VReach.step hp ?_ hk
  dsimp only
  rw [hi]
  simp only [grunt_vm_step, grunt_vm_pop, grunt_vm_pop_loop,
    grunt_stack_arg_pop, Nat.mod_eq_of_lt (show p + 1 < 2 ^ 16 by omega)]
  norm_num

theorem vr_pop3 {v1 v2 v3 : grunt_value} {a c : List grunt_value}
    {q : List Nat} {hd : Nat} {st : List String} {ns : Nat} {o : List Char}
    {t : Nat} {e : List GruntEvent} {p : Nat} {σ2 : VMState}
    (hi : vsvf_program.getD p .UNDEF = .POP 3)
    (hp : p < 421)
    (hk : VReach ⟨a, c, q, hd, st, ns, o, t, e, p + 1⟩ σ2) :
    VReach ⟨v1 :: v2 :: v3 :: a, c, q, hd, st, ns, o, t, e, p⟩ σ2 := by
  refine VReach.step hp ?_ hk
  dsimp only
  rw [hi]
  simp only [grunt_vm_step, grunt_vm_pop, grunt_vm_pop_loop,
    grunt_stack_arg_pop, Nat.mod_eq_of_lt (show p + 1 < 2 ^ 16 by omega)]
  norm_num

theorem vr_pop4 {v1 v2 v3 v4 : grunt_value} {a c : List grunt_value}
    {q : List Nat} {hd : Nat} {st : List String} {ns : Nat} {o : List Char}
    {t : Nat} {e : List GruntEvent} {p : Nat} {σ2 : VMState}
    (hi : vsvf_program.getD p .UNDEF = .POP 4)
    (hp : p < 421)
    (hk : VReach ⟨a, c, q, hd, st, ns, o, t, e, p + 1⟩ σ2) :
    VReach ⟨v1 :: v2 :: v3 :: v4 :: a, c, q, hd, st, ns, o, t, e, p⟩ σ2 := by
  refine VReach.step hp ?_ hk
  dsimp only
  rw [hi]
  simp only [grunt_vm_step, grunt_vm_pop, grunt_vm_pop_loop,
    grunt_stack_arg_pop, Nat.mod_eq_of_lt (show p + 1 < 2 ^ 16 by omega)]
  norm_num

theorem vr_dup1 {v1 : grunt_value} {a c : List grunt_value} {q : List Nat}
    {hd : Nat} {st : List String} {ns : Nat} {o : List Char} {t : Nat}
    {e : List GruntEvent} {p : Nat} {σ2 : VMState}
    (hi : vsvf_program.getD p .UNDEF = .DUP 1)
    (hp : p < 421)
    (hcap : a.length + c.length + 2 ≤ GRUNT_STACK_SIZE)
    (hk : VReach ⟨v1 :: v1 :: a, c, q, hd, st, ns, o, t, e, p + 1⟩ σ2) :
    VReach ⟨v1 :: a, c, q, hd, st, ns, o, t, e, p⟩ σ2 := by
  refine VReach.step hp ?_ hk
  dsimp only
  rw [hi]
  simp only [grunt_vm_step, grunt_vm_dup, grunt_stack_arg_dup,
    List.length_cons, Nat.mod_eq_of_lt (show p + 1 < 2 ^ 16 by omega)]
  repeat rw [if_neg (by omega)]
  rfl

theorem vr_dup2 {v1 v2 : grunt_value} {a c : List grunt_value}
    {q : List Nat} {hd : Nat} {st : List String} {ns : Nat} {o : List Char}
    {t : Nat} {e : List GruntEvent} {p : Nat} {σ2 : VMState}
    (hi : vsvf_program.getD p .UNDEF = .DUP 2)
    (hp : p < 421)
    (hcap : a.length + c.length + 4 ≤ GRUNT_STACK_SIZE)
    (hk : VReach ⟨v1 :: v2 :: v1 :: v2 :: a, c, q, hd, st, ns, o, t, e,
      p + 1⟩ σ2) :
    VReach ⟨v1 :: v2 :: a, c, q, hd, st, ns, o, t, e, p⟩ σ2 := by
  refine VReach.step hp ?_ hk
  dsimp only
  rw [hi]
  simp only [grunt_vm_step, grunt_vm_dup, grunt_stack_arg_dup,
    List.length_cons, Nat.mod_eq_of_lt (show p + 1 < 2 ^ 16 by omega)]
  repeat rw [if_neg (by omega)]
  rfl

theorem vr_dup4 {v1 v2 v3 v4 : grunt_value} {a c : List grunt_value}
    {q : List Nat} {hd : Nat} {st : List String} {ns : Nat} {o : List Char}
    {t : Nat} {e : List GruntEvent} {p : Nat} {σ2 : VMState}
    (hi : vsvf_program.getD p .UNDEF = .DUP 4)
    (hp : p < 421)
    (hcap : a.length + c.length + 8 ≤ GRUNT_STACK_SIZE)
    (hk : VReach ⟨v1 :: v2 :: v3 :: v4 :: v1 :: v2 :: v3 :: v4 :: a, c, q,
      hd, st, ns, o, t, e, p + 1⟩ σ2) :
    VReach ⟨v1 :: v2 :: v3 :: v4 :: a, c, q, hd, st, ns, o, t, e, p⟩ σ2 := by
  refine VReach.step hp ?_ hk
  dsimp only
  rw [hi]
  simp only [grunt_vm_step, grunt_vm_dup, grunt_stack_arg_dup,
    List.length_cons, Nat.mod_eq_of_lt (show p + 1 < 2 ^ 16 by omega)]
  repeat rw [if_neg (by omega)]
  rfl

theorem vr_roll2 {v1 v2 : grunt_value} {a c : List grunt_value}
    {q : List Nat} {hd : Nat} {st : List String} {ns : Nat}
    {o : List Char} {t : Nat} {e : List GruntEvent} {p : Nat}
    {σ2 : VMState}
    (hi : vsvf_program.getD p .UNDEF = .ROLL 2)
    (hp : p < 421)
    (hk : VReach ⟨v2 :: v1 :: a, c, q, hd, st, ns, o, t, e, p + 1⟩ σ2) :
    VReach ⟨v1 :: v2 :: a, c, q, hd, st, ns, o, t, e, p⟩ σ2 := by
  refine VReach.step hp ?_ hk
  dsimp only
  rw [hi]
  simp only [grunt_vm_step, grunt_vm_roll, grunt_stack_arg_roll,
    List.length_cons, Nat.mod_eq_of_lt (show p + 1 < 2 ^ 16 by omega)]
  repeat rw [if_neg (by omega)]
  rfl

theorem vr_roll3 {v1 v2 v3 : grunt_value} {a c : List grunt_value}
    {q : List Nat} {hd : Nat} {st : List String} {ns : Nat}
    {o : List Char} {t : Nat} {e : List GruntEvent} {p : Nat}
    {σ2 : VMState}
    (hi : vsvf_program.getD p .UNDEF = .ROLL 3)
    (hp : p < 421)
    (hk : VReach ⟨v2 :: v3 :: v1 :: a, c, q, hd, st, ns, o, t, e, p + 1⟩ σ2) :
    VReach ⟨v1 :: v2 :: v3 :: a, c, q, hd, st, ns, o, t, e, p⟩ σ2 := by
  refine VReach.step hp ?_ hk
  dsimp only
  rw [hi]
  simp only [grunt_vm_step, grunt_vm_roll, grunt_stack_arg_roll,
    List.length_cons, Nat.mod_eq_of_lt (show p + 1 < 2 ^ 16 by omega)]
  repeat rw [if_neg (by omega)]
  rfl

theorem vr_roll4 {v1 v2 v3 v4 : grunt_value} {a c : List grunt_value}
    {q : List Nat} {hd : Nat} {st : List String} {ns : Nat}
    {o : List Char} {t : Nat} {e : List GruntEvent} {p : Nat}
    {σ2 : VMState}
    (hi : vsvf_program.getD p .UNDEF = .ROLL 4)
    (hp : p < 421)
    (hk : VReach ⟨v2 :: v3 :: v4 :: v1 :: a, c, q, hd, st, ns, o, t, e, p + 1⟩ σ2) :
    VReach ⟨v1 :: v2 :: v3 :: v4 :: a, c, q, hd, st, ns, o, t, e, p⟩ σ2 := by
  refine VReach.step hp ?_ hk
  dsimp only
  rw [hi]
  simp only [grunt_vm_step, grunt_vm_roll, grunt_stack_arg_roll,
    List.length_cons, Nat.mod_eq_of_lt (show p + 1 < 2 ^ 16 by omega)]
  repeat rw [if_neg (by omega)]
  rfl

theorem vr_roll5 {v1 v2 v3 v4 v5 : grunt_value} {a c : List grunt_value}
    {q : List Nat} {hd : Nat} {st : List String} {ns : Nat}
    {o : List Char} {t : Nat} {e : List GruntEvent} {p : Nat}
    {σ2 : VMState}
    (hi : vsvf_program.getD p .UNDEF = .ROLL 5)
    (hp : p < 421)
    (hk : VReach ⟨v2 :: v3 :: v4 :: v5 :: v1 :: a, c, q, hd, st, ns, o, t, e, p + 1⟩ σ2) :
    VReach ⟨v1 :: v2 :: v3 :: v4 :: v5 :: a, c, q, hd, st, ns, o, t, e, p⟩ σ2 := by
  refine VReach.step hp ?_ hk
  dsimp only
  rw [hi]
  simp only [grunt_vm_step, grunt_vm_roll, grunt_stack_arg_roll,
    List.length_cons, Nat.mod_eq_of_lt (show p + 1 < 2 ^ 16 by omega)]
  repeat rw [if_neg (by omega)]
  rfl

theorem vr_roll6 {v1 v2 v3 v4 v5 v6 : grunt_value} {a c : List grunt_value}
    {q : List Nat} {hd : Nat} {st : List String} {ns : Nat}
    {o : List Char} {t : Nat} {e : List GruntEvent} {p : Nat}
    {σ2 : VMState}
    (hi : vsvf_program.getD p .UNDEF = .ROLL 6)
    (hp : p < 421)
    (hk : VReach ⟨v2 :: v3 :: v4 :: v5 :: v6 :: v1 :: a, c, q, hd, st, ns, o, t, e, p + 1⟩ σ2) :
    VReach ⟨v1 :: v2 :: v3 :: v4 :: v5 :: v6 :: a, c, q, hd, st, ns, o, t, e, p⟩ σ2 := by
  refine VReach.step hp ?_ hk
  dsimp only
  rw [hi]
  simp only [grunt_vm_step, grunt_vm_roll, grunt_stack_arg_roll,
    List.length_cons, Nat.mod_eq_of_lt (show p + 1 < 2 ^ 16 by omega)]
  repeat rw [if_neg (by omega)]
  rfl

theorem vr_roll7 {v1 v2 v3 v4 v5 v6 v7 : grunt_value} {a c : List grunt_value}
    {q : List Nat} {hd : Nat} {st : List String} {ns : Nat}
    {o : List Char} {t : Nat} {e : List GruntEvent} {p : Nat}
    {σ2 : VMState}
    (hi : vsvf_program.getD p .UNDEF = .ROLL 7)
    (hp : p < 421)
    (hk : VReach ⟨v2 :: v3 :: v4 :: v5 :: v6 :: v7 :: v1 :: a, c, q, hd, st, ns, o, t, e, p + 1⟩ σ2) :
    VReach ⟨v1 :: v2 :: v3 :: v4 :: v5 :: v6 :: v7 :: a, c, q, hd, st, ns, o, t, e, p⟩ σ2 := by
  refine VReach.step hp ?_ hk
  dsimp only
  rw [hi]
  simp only [grunt_vm_step, grunt_vm_roll, grunt_stack_arg_roll,
    List.length_cons, Nat.mod_eq_of_lt (show p + 1 < 2 ^ 16 by omega)]
  repeat rw [if_neg (by omega)]
  rfl

theorem vr_roll8 {v1 v2 v3 v4 v5 v6 v7 v8 : grunt_value} {a c : List grunt_value}
    {q : List Nat} {hd : Nat} {st : List String} {ns : Nat}
    {o : List Char} {t : Nat} {e : List GruntEvent} {p : Nat}
    {σ2 : VMState}
    (hi : vsvf_program.getD p .UNDEF = .ROLL 8)
    (hp : p < 421)
    (hk : VReach ⟨v2 :: v3 :: v4 :: v5 :: v6 :: v7 :: v8 :: v1 :: a, c, q, hd, st, ns, o, t, e, p + 1⟩ σ2) :
    VReach ⟨v1 :: v2 :: v3 :: v4 :: v5 :: v6 :: v7 :: v8 :: a, c, q, hd, st, ns, o, t, e, p⟩ σ2 := by
  refine VReach.step hp ?_ hk
  dsimp only
  rw [hi]
  simp only [grunt_vm_step, grunt_vm_roll, grunt_stack_arg_roll,
    List.length_cons, Nat.mod_eq_of_lt (show p + 1 < 2 ^ 16 by omega)]
  repeat rw [if_neg (by omega)]
  rfl

theorem vr_roll9 {v1 v2 v3 v4 v5 v6 v7 v8 v9 : grunt_value} {a c : List grunt_value}
    {q : List Nat} {hd : Nat} {st : List String} {ns : Nat}
    {o : List Char} {t : Nat} {e : List GruntEvent} {p : Nat}
    {σ2 : VMState}
    (hi : vsvf_program.getD p .UNDEF = .ROLL 9)
    (hp : p < 421)
    (hk : VReach ⟨v2 :: v3 :: v4 :: v5 :: v6 :: v7 :: v8 :: v9 :: v1 :: a, c, q, hd, st, ns, o, t, e, p + 1⟩ σ2) :
    VReach ⟨v1 :: v2 :: v3 :: v4 :: v5 :: v6 :: v7 :: v8 :: v9 :: a, c, q, hd, st, ns, o, t, e, p⟩ σ2 := by
  refine VReach.step hp ?_ hk
  dsimp only
  rw [hi]
  simp only [grunt_vm_step, grunt_vm_roll, grunt_stack_arg_roll,
    List.length_cons, Nat.mod_eq_of_lt (show p + 1 < 2 ^ 16 by omega)]
  repeat rw [if_neg (by omega)]
  rfl

theorem vr_roll10 {v1 v2 v3 v4 v5 v6 v7 v8 v9 v10 : grunt_value} {a c : List grunt_value}
    {q : List Nat} {hd : Nat} {st : List String} {ns : Nat}
    {o : List Char} {t : Nat} {e : List GruntEvent} {p : Nat}
    {σ2 : VMState}
    (hi : vsvf_program.getD p .UNDEF = .ROLL 10)
    (hp : p < 421)
    (hk : VReach ⟨v2 :: v3 :: v4 :: v5 :: v6 :: v7 :: v8 :: v9 :: v10 :: v1 :: a, c, q, hd, st, ns, o, t, e, p + 1⟩ σ2) :
    VReach ⟨v1 :: v2 :: v3 :: v4 :: v5 :: v6 :: v7 :: v8 :: v9 :: v10 :: a, c, q, hd, st, ns, o, t, e, p⟩ σ2 := by
  refine VReach.step hp ?_ hk
  dsimp only
  rw [hi]
  simp only [grunt_vm_step, grunt_vm_roll, grunt_stack_arg_roll,
    List.length_cons, Nat.mod_eq_of_lt (show p + 1 < 2 ^ 16 by omega)]
  repeat rw [if_neg (by omega)]
  rfl

theorem vr_roll11 {v1 v2 v3 v4 v5 v6 v7 v8 v9 v10 v11 : grunt_value} {a c : List grunt_value}
    {q : List Nat} {hd : Nat} {st : List String} {ns : Nat}
    {o : List Char} {t : Nat} {e : List GruntEvent} {p : Nat}
    {σ2 : VMState}
    (hi : vsvf_program.getD p .UNDEF = .ROLL 11)
    (hp : p < 421)
    (hk : VReach ⟨v2 :: v3 :: v4 :: v5 :: v6 :: v7 :: v8 :: v9 :: v10 :: v11 :: v1 :: a, c, q, hd, st, ns, o, t, e, p + 1⟩ σ2) :
    VReach ⟨v1 :: v2 :: v3 :: v4 :: v5 :: v6 :: v7 :: v8 :: v9 :: v10 :: v11 :: a, c, q, hd, st, ns, o, t, e, p⟩ σ2 := by
  refine VReach.step hp ?_ hk
  dsimp only
  rw [hi]
  simp only [grunt_vm_step, grunt_vm_roll, grunt_stack_arg_roll,
    List.length_cons, Nat.mod_eq_of_lt (show p + 1 < 2 ^ 16 by omega)]
  repeat rw [if_neg (by omega)]
  rfl

theorem vr_not {b : Bool} {a c : List grunt_value}
    {q : List Nat} {hd : Nat} {st : List String} {ns : Nat}
    {o : List Char} {t : Nat} {e : List GruntEvent} {p : Nat}
    {σ2 : VMState}
    (hi : vsvf_program.getD p .UNDEF = .NOT)
    (hp : p < 421)
    (hcap : a.length + c.length + 1 ≤ GRUNT_STACK_SIZE)
    (hk : VReach ⟨.gbool (!b) :: a, c, q, hd, st, ns, o, t, e, p + 1⟩ σ2) :
    VReach ⟨.gbool b :: a, c, q, hd, st, ns, o, t, e, p⟩ σ2 := by
  refine VReach.step hp ?_ hk
  dsimp only
  rw [hi]
  simp only [grunt_vm_step, grunt_vm_not, grunt_stack_arg_pop,
    grunt_stack_arg_push, Nat.mod_eq_of_lt (show p + 1 < 2 ^ 16 by omega)]
  repeat rw [if_neg (by omega)]
  all_goals rfl

theorem vr_lt {na nb : Nat} {a c : List grunt_value}
    {q : List Nat} {hd : Nat} {st : List String} {ns : Nat}
    {o : List Char} {t : Nat} {e : List GruntEvent} {p : Nat}
    {σ2 : VMState}
    (hi : vsvf_program.getD p .UNDEF = .LT)
    (hp : p < 421)
    (hcap : a.length + c.length + 1 ≤ GRUNT_STACK_SIZE)
    (hk : VReach ⟨.gbool (decide (na < nb)) :: a, c, q, hd, st, ns, o, t, e,
      p + 1⟩ σ2) :
    VReach ⟨.gnum nb :: .gnum na :: a, c, q, hd, st, ns, o, t, e, p⟩ σ2 := by
  refine VReach.step hp ?_ hk
  dsimp only
  rw [hi]
  simp only [grunt_vm_step, grunt_vm_lt_gt, grunt_stack_arg_pop,
    grunt_stack_arg_push, if_true, if_false,
    Nat.mod_eq_of_lt (show p + 1 < 2 ^ 16 by omega)]
  repeat rw [if_neg (by omega)]
  all_goals rfl

theorem vr_gt {na nb : Nat} {a c : List grunt_value}
    {q : List Nat} {hd : Nat} {st : List String} {ns : Nat}
    {o : List Char} {t : Nat} {e : List GruntEvent} {p : Nat}
    {σ2 : VMState}
    (hi : vsvf_program.getD p .UNDEF = .GT)
    (hp : p < 421)
    (hcap : a.length + c.length + 1 ≤ GRUNT_STACK_SIZE)
    (hk : VReach ⟨.gbool (decide (na > nb)) :: a, c, q, hd, st, ns, o, t, e,
      p + 1⟩ σ2) :
    VReach ⟨.gnum nb :: .gnum na :: a, c, q, hd, st, ns, o, t, e, p⟩ σ2 := by
  refine VReach.step hp ?_ hk
  dsimp only
  rw [hi]
  simp only [grunt_vm_step, grunt_vm_lt_gt, grunt_stack_arg_pop,
    grunt_stack_arg_push, if_true, if_false,
    Nat.mod_eq_of_lt (show p + 1 < 2 ^ 16 by omega)]
  repeat rw [if_neg (by omega)]
  all_goals rfl

theorem vr_eq2 {x1 x2 : Nat} {a c : List grunt_value}
    {q : List Nat} {hd : Nat} {st : List String} {ns : Nat}
    {o : List Char} {t : Nat} {e : List GruntEvent} {p : Nat}
    {σ2 : VMState}
    (hi : vsvf_program.getD p .UNDEF = .EQ 2)
    (hp : p < 421)
    (hcap : a.length + c.length + 1 ≤ GRUNT_STACK_SIZE)
    (hk : VReach ⟨.gbool (decide (x1 = x2)) :: a, c, q, hd, st, ns, o, t, e,
      p + 1⟩ σ2) :
    VReach ⟨.gnum x1 :: .gnum x2 :: a, c, q, hd, st, ns, o, t, e, p⟩ σ2 := by
  refine VReach.step hp ?_ hk
  dsimp only
  rw [hi]
  simp only [grunt_vm_step, grunt_vm_eq, grunt_vm_eq_loop,
    grunt_stack_arg_pop, grunt_stack_arg_push, Bool.true_and,
    Nat.mod_eq_of_lt (show p + 1 < 2 ^ 16 by omega)]
  repeat rw [if_neg (by omega)]
  all_goals rfl

theorem vr_eq3 {x1 x2 x3 : Nat} {a c : List grunt_value}
    {q : List Nat} {hd : Nat} {st : List String} {ns : Nat}
    {o : List Char} {t : Nat} {e : List GruntEvent} {p : Nat}
    {σ2 : VMState}
    (hi : vsvf_program.getD p .UNDEF = .EQ 3)
    (hp : p < 421)
    (hcap : a.length + c.length + 1 ≤ GRUNT_STACK_SIZE)
    (hk : VReach ⟨.gbool (decide (x1 = x2) && decide (x1 = x3)) :: a, c, q, hd, st, ns, o, t, e,
      p + 1⟩ σ2) :
    VReach ⟨.gnum x1 :: .gnum x2 :: .gnum x3 :: a, c, q, hd, st, ns, o, t, e, p⟩ σ2 := by
  refine VReach.step hp ?_ hk
  dsimp only
  rw [hi]
  simp only [grunt_vm_step, grunt_vm_eq, grunt_vm_eq_loop,
    grunt_stack_arg_pop, grunt_stack_arg_push, Bool.true_and,
    Nat.mod_eq_of_lt (show p + 1 < 2 ^ 16 by omega)]
  repeat rw [if_neg (by omega)]
  all_goals rfl

theorem vr_eq5 {x1 x2 x3 x4 x5 : Nat} {a c : List grunt_value}
    {q : List Nat} {hd : Nat} {st : List String} {ns : Nat}
    {o : List Char} {t : Nat} {e : List GruntEvent} {p : Nat}
    {σ2 : VMState}
    (hi : vsvf_program.getD p .UNDEF = .EQ 5)
    (hp : p < 421)
    (hcap : a.length + c.length + 1 ≤ GRUNT_STACK_SIZE)
    (hk : VReach ⟨.gbool (((decide (x1 = x2) && decide (x1 = x3)) && decide (x1 = x4)) && decide (x1 = x5)) :: a, c, q, hd, st, ns, o, t, e,
      p + 1⟩ σ2) :
    VReach ⟨.gnum x1 :: .gnum x2 :: .gnum x3 :: .gnum x4 :: .gnum x5 :: a, c, q, hd, st, ns, o, t, e, p⟩ σ2 := by
  refine VReach.step hp ?_ hk
  dsimp only
  rw [hi]
  simp only [grunt_vm_step, grunt_vm_eq, grunt_vm_eq_loop,
    grunt_stack_arg_pop, grunt_stack_arg_push, Bool.true_and,
    Nat.mod_eq_of_lt (show p + 1 < 2 ^ 16 by omega)]
  repeat rw [if_neg (by omega)]
  all_goals rfl

theorem vr_and3 {b1 b2 b3 : Bool} {a c : List grunt_value}
    {q : List Nat} {hd : Nat} {st : List String} {ns : Nat}
    {o : List Char} {t : Nat} {e : List GruntEvent} {p : Nat}
    {σ2 : VMState}
    (hi : vsvf_program.getD p .UNDEF = .AND 3)
    (hp : p < 421)
    (hcap : a.length + c.length + 1 ≤ GRUNT_STACK_SIZE)
    (hk : VReach ⟨.gbool ((b1 && b2) && b3) :: a, c, q, hd, st, ns, o, t, e,
      p + 1⟩ σ2) :
    VReach ⟨.gbool b1 :: .gbool b2 :: .gbool b3 :: a, c, q, hd, st, ns, o, t, e, p⟩ σ2 := by
  refine VReach.step hp ?_ hk
  dsimp only
  rw [hi]
  simp only [grunt_vm_step, grunt_vm_and_or, grunt_vm_and_or_loop,
    grunt_stack_arg_pop, grunt_stack_arg_push, if_true, if_false,
    Nat.mod_eq_of_lt (show p + 1 < 2 ^ 16 by omega)]
  repeat rw [if_neg (by omega)]
  all_goals rfl

theorem vr_and4 {b1 b2 b3 b4 : Bool} {a c : List grunt_value}
    {q : List Nat} {hd : Nat} {st : List String} {ns : Nat}
    {o : List Char} {t : Nat} {e : List GruntEvent} {p : Nat}
    {σ2 : VMState}
    (hi : vsvf_program.getD p .UNDEF = .AND 4)
    (hp : p < 421)
    (hcap : a.length + c.length + 1 ≤ GRUNT_STACK_SIZE)
    (hk : VReach ⟨.gbool (((b1 && b2) && b3) && b4) :: a, c, q, hd, st, ns, o, t, e,
      p + 1⟩ σ2) :
    VReach ⟨.gbool b1 :: .gbool b2 :: .gbool b3 :: .gbool b4 :: a, c, q, hd, st, ns, o, t, e, p⟩ σ2 := by
  refine VReach.step hp ?_ hk
  dsimp only
  rw [hi]
  simp only [grunt_vm_step, grunt_vm_and_or, grunt_vm_and_or_loop,
    grunt_stack_arg_pop, grunt_stack_arg_push, if_true, if_false,
    Nat.mod_eq_of_lt (show p + 1 < 2 ^ 16 by omega)]
  repeat rw [if_neg (by omega)]
  all_goals rfl

theorem vr_or2 {b1 b2 : Bool} {a c : List grunt_value}
    {q : List Nat} {hd : Nat} {st : List String} {ns : Nat}
    {o : List Char} {t : Nat} {e : List GruntEvent} {p : Nat}
    {σ2 : VMState}
    (hi : vsvf_program.getD p .UNDEF = .OR 2)
    (hp : p < 421)
    (hcap : a.length + c.length + 1 ≤ GRUNT_STACK_SIZE)
    (hk : VReach ⟨.gbool (b1 || b2) :: a, c, q, hd, st, ns, o, t, e,
      p + 1⟩ σ2) :
    VReach ⟨.gbool b1 :: .gbool b2 :: a, c, q, hd, st, ns, o, t, e, p⟩ σ2 := by
  refine VReach.step hp ?_ hk
  dsimp only
  rw [hi]
  simp only [grunt_vm_step, grunt_vm_and_or, grunt_vm_and_or_loop,
    grunt_stack_arg_pop, grunt_stack_arg_push, if_true, if_false,
    Nat.mod_eq_of_lt (show p + 1 < 2 ^ 16 by omega)]
  repeat rw [if_neg (by omega)]
  all_goals rfl

theorem vr_or3 {b1 b2 b3 : Bool} {a c : List grunt_value}
    {q : List Nat} {hd : Nat} {st : List String} {ns : Nat}
    {o : List Char} {t : Nat} {e : List GruntEvent} {p : Nat}
    {σ2 : VMState}
    (hi : vsvf_program.getD p .UNDEF = .OR 3)
    (hp : p < 421)
    (hcap : a.length + c.length + 1 ≤ GRUNT_STACK_SIZE)
    (hk : VReach ⟨.gbool ((b1 || b2) || b3) :: a, c, q, hd, st, ns, o, t, e,
      p + 1⟩ σ2) :
    VReach ⟨.gbool b1 :: .gbool b2 :: .gbool b3 :: a, c, q, hd, st, ns, o, t, e, p⟩ σ2 := by
  refine VReach.step hp ?_ hk
  dsimp only
  rw [hi]
  simp only [grunt_vm_step, grunt_vm_and_or, grunt_vm_and_or_loop,
    grunt_stack_arg_pop, grunt_stack_arg_push, if_true, if_false,
    Nat.mod_eq_of_lt (show p + 1 < 2 ^ 16 by omega)]
  repeat rw [if_neg (by omega)]
  all_goals rfl

theorem vr_or4 {b1 b2 b3 b4 : Bool} {a c : List grunt_value}
    {q : List Nat} {hd : Nat} {st : List String} {ns : Nat}
    {o : List Char} {t : Nat} {e : List GruntEvent} {p : Nat}
    {σ2 : VMState}
    (hi : vsvf_program.getD p .UNDEF = .OR 4)
    (hp : p < 421)
    (hcap : a.length + c.length + 1 ≤ GRUNT_STACK_SIZE)
    (hk : VReach ⟨.gbool (((b1 || b2) || b3) || b4) :: a, c, q, hd, st, ns, o, t, e,
      p + 1⟩ σ2) :
    VReach ⟨.gbool b1 :: .gbool b2 :: .gbool b3 :: .gbool b4 :: a, c, q, hd, st, ns, o, t, e, p⟩ σ2 := by
  refine VReach.step hp ?_ hk
  dsimp only
  rw [hi]
  simp only [grunt_vm_step, grunt_vm_and_or, grunt_vm_and_or_loop,
    grunt_stack_arg_pop, grunt_stack_arg_push, if_true, if_false,
    Nat.mod_eq_of_lt (show p + 1 < 2 ^ 16 by omega)]
  repeat rw [if_neg (by omega)]
  all_goals rfl

theorem vr_add {na nb : Nat} {a c : List grunt_value}
    {q : List Nat} {hd : Nat} {st : List String} {ns : Nat}
    {o : List Char} {t : Nat} {e : List GruntEvent} {p : Nat}
    {σ2 : VMState}
    (hi : vsvf_program.getD p .UNDEF = .ADD)
    (hp : p < 421)
    (hno : na + nb ≤ GRUNT_NUM_MAX)
    (hcap : a.length + c.length + 1 ≤ GRUNT_STACK_SIZE)
    (hk : VReach ⟨.gnum (na + nb) :: a, c, q, hd, st, ns, o, t, e,
      p + 1⟩ σ2) :
    VReach ⟨.gnum nb :: .gnum na :: a, c, q, hd, st, ns, o, t, e, p⟩ σ2 := by
  refine VReach.step hp ?_ hk
  dsimp only
  rw [hi]
  simp only [grunt_vm_step, grunt_vm_add_sub, grunt_stack_arg_pop,
    grunt_stack_arg_push, if_true, if_false,
    Nat.mod_eq_of_lt (show p + 1 < 2 ^ 16 by omega)]
  repeat rw [if_neg (by omega)]
  all_goals rfl

theorem vr_sub {na nb : Nat} {a c : List grunt_value}
    {q : List Nat} {hd : Nat} {st : List String} {ns : Nat}
    {o : List Char} {t : Nat} {e : List GruntEvent} {p : Nat}
    {σ2 : VMState}
    (hi : vsvf_program.getD p .UNDEF = .SUB)
    (hp : p < 421)
    (hge : nb ≤ na)
    (hcap : a.length + c.length + 1 ≤ GRUNT_STACK_SIZE)
    (hk : VReach ⟨.gnum (na - nb) :: a, c, q, hd, st, ns, o, t, e,
      p + 1⟩ σ2) :
    VReach ⟨.gnum nb :: .gnum na :: a, c, q, hd, st, ns, o, t, e, p⟩ σ2 := by
  refine VReach.step hp ?_ hk
  dsimp only
  rw [hi]
  simp only [grunt_vm_step, grunt_vm_add_sub, grunt_stack_arg_pop,
    grunt_stack_arg_push,
    Nat.mod_eq_of_lt (show p + 1 < 2 ^ 16 by omega)]
  rw [if_neg Bool.false_ne_true]
  repeat rw [if_neg (by omega)]
  all_goals rfl

theorem vr_input1 {a c : List grunt_value}
    {q : List Nat} {hd : Nat} {st : List String} {ns : Nat}
    {o : List Char} {t : Nat} {e : List GruntEvent} {p : Nat}
    {σ2 : VMState}
    (hi : vsvf_program.getD p .UNDEF = .INPUT 1)
    (hp : p < 421)
    (hlen : hd + 1 ≤ q.length)
    (hcap : a.length + c.length + 1 ≤ GRUNT_STACK_SIZE)
    (hk : VReach ⟨.gnum (grunt_le q hd 1) :: a, c, q, hd + 1, st, ns,
      o, t, e, p + 1⟩ σ2) :
    VReach ⟨a, c, q, hd, st, ns, o, t, e, p⟩ σ2 := by
  refine VReach.step hp ?_ hk
  dsimp only
  rw [hi]
  simp only [grunt_vm_step, grunt_vm_input, grunt_input_dequeue,
    grunt_stack_arg_push, Nat.mod_eq_of_lt (show p + 1 < 2 ^ 16 by omega)]
  norm_num
  repeat rw [if_neg (by omega)]
  norm_num
  repeat rw [if_neg (by omega)]
  all_goals first | rfl | omega

theorem vr_input2 {a c : List grunt_value}
    {q : List Nat} {hd : Nat} {st : List String} {ns : Nat}
    {o : List Char} {t : Nat} {e : List GruntEvent} {p : Nat}
    {σ2 : VMState}
    (hi : vsvf_program.getD p .UNDEF = .INPUT 2)
    (hp : p < 421)
    (hlen : hd + 2 ≤ q.length)
    (hcap : a.length + c.length + 1 ≤ GRUNT_STACK_SIZE)
    (hk : VReach ⟨.gnum (grunt_le q hd 2) :: a, c, q, hd + 2, st, ns,
      o, t, e, p + 1⟩ σ2) :
    VReach ⟨a, c, q, hd, st, ns, o, t, e, p⟩ σ2 := by
  refine VReach.step hp ?_ hk
  dsimp only
  rw [hi]
  simp only [grunt_vm_step, grunt_vm_input, grunt_input_dequeue,
    grunt_stack_arg_push, Nat.mod_eq_of_lt (show p + 1 < 2 ^ 16 by omega)]
  norm_num
  repeat rw [if_neg (by omega)]
  norm_num
  repeat rw [if_neg (by omega)]
  all_goals first | rfl | omega

theorem vr_input4 {a c : List grunt_value}
    {q : List Nat} {hd : Nat} {st : List String} {ns : Nat}
    {o : List Char} {t : Nat} {e : List GruntEvent} {p : Nat}
    {σ2 : VMState}
    (hi : vsvf_program.getD p .UNDEF = .INPUT 4)
    (hp : p < 421)
    (hlen : hd + 4 ≤ q.length)
    (hcap : a.length + c.length + 1 ≤ GRUNT_STACK_SIZE)
    (hk : VReach ⟨.gnum (grunt_le q hd 4) :: a, c, q, hd + 4, st, ns,
      o, t, e, p + 1⟩ σ2) :
    VReach ⟨a, c, q, hd, st, ns, o, t, e, p⟩ σ2 := by
  refine VReach.step hp ?_ hk
  dsimp only
  rw [hi]
  simp only [grunt_vm_step, grunt_vm_input, grunt_input_dequeue,
    grunt_stack_arg_push, Nat.mod_eq_of_lt (show p + 1 < 2 ^ 16 by omega)]
  norm_num
  repeat rw [if_neg (by omega)]
  norm_num
  repeat rw [if_neg (by omega)]
  all_goals first | rfl | omega

theorem vr_call {tgt : Nat} {a c : List grunt_value}
    {q : List Nat} {hd : Nat} {st : List String} {ns : Nat}
    {o : List Char} {t : Nat} {e : List GruntEvent} {p : Nat}
    {σ2 : VMState}
    (hi : vsvf_program.getD p .UNDEF = .CALL (.gpc tgt))
    (hp : p < 421)
    (htgt : p + 1 ≤ tgt)
    (hcap : a.length + c.length + 1 ≤ GRUNT_STACK_SIZE)
    (hk : VReach ⟨a, .gpc (p + 1) :: c, q, hd, st, ns, o, t, e, tgt⟩ σ2) :
    VReach ⟨a, c, q, hd, st, ns, o, t, e, p⟩ σ2 := by
  refine VReach.step hp ?_ hk
  dsimp only
  rw [hi]
  simp only [grunt_vm_step, grunt_vm_call, grunt_stack_ctl_push,
    Nat.mod_eq_of_lt (show p + 1 < 2 ^ 16 by omega)]
  repeat rw [if_neg (by omega)]
  norm_num [if_neg (show ¬ GRUNT_STACK_SIZE < a.length + c.length + 1
    by omega)]

theorem vr_return {r : Nat} {a c : List grunt_value}
    {q : List Nat} {hd : Nat} {st : List String} {ns : Nat}
    {o : List Char} {t : Nat} {e : List GruntEvent} {p : Nat}
    {σ2 : VMState}
    (hi : vsvf_program.getD p .UNDEF = .RETURN)
    (hp : p < 421)
    (hk : VReach ⟨a, c, q, hd, st, ns, o, t, e, r⟩ σ2) :
    VReach ⟨a, .gpc r :: c, q, hd, st, ns, o, t, e, p⟩ σ2 := by
  refine VReach.step hp ?_ hk
  dsimp only
  rw [hi]
  unfold grunt_vm_step grunt_vm_return grunt_stack_ctl_pop
  dsimp only
  rfl

theorem vr_jmpiff {adj : Nat} {a c : List grunt_value}
    {q : List Nat} {hd : Nat} {st : List String} {ns : Nat}
    {o : List Char} {t : Nat} {e : List GruntEvent} {p : Nat}
    {σ2 : VMState}
    (hi : vsvf_program.getD p .UNDEF = .JMPIF (.gpc adj))
    (hp : p < 421)
    (hadj : 2 ≤ adj)
    (hk : VReach ⟨a, c, q, hd, st, ns, o, t, e, p + 1⟩ σ2) :
    VReach ⟨.gbool false :: a, c, q, hd, st, ns, o, t, e, p⟩ σ2 := by
  refine VReach.step hp ?_ hk
  dsimp only
  rw [hi]
  simp only [grunt_vm_step, grunt_vm_jmpif, grunt_stack_arg_pop,
    Nat.mod_eq_of_lt (show p + 1 < 2 ^ 16 by omega)]
  rw [if_neg (by omega)]
  norm_num

theorem vr_jmpift {adj : Nat} {a c : List grunt_value}
    {q : List Nat} {hd : Nat} {st : List String} {ns : Nat}
    {o : List Char} {t : Nat} {e : List GruntEvent} {p : Nat}
    {σ2 : VMState}
    (hi : vsvf_program.getD p .UNDEF = .JMPIF (.gpc adj))
    (hp : p < 421)
    (hadj : 2 ≤ adj)
    (hbnd : p + 1 + adj ≤ GRUNT_PC_MAX)
    (hk : VReach ⟨a, c, q, hd, st, ns, o, t, e, p + adj⟩ σ2) :
    VReach ⟨.gbool true :: a, c, q, hd, st, ns, o, t, e, p⟩ σ2 := by
  refine VReach.step hp ?_ hk
  dsimp only
  rw [hi]
  simp only [grunt_vm_step, grunt_vm_jmpif, grunt_stack_arg_pop,
    Nat.mod_eq_of_lt (show p + 1 < 2 ^ 16 by omega)]
  rw [if_neg (by omega)]
  norm_num
  unfold GRUNT_PC_MAX at hbnd ⊢
  norm_num at hbnd ⊢
  rw [if_neg (by omega)]
  rw [Nat.mod_eq_of_lt (show p + 1 + (adj - 1) < 65536 by omega)]
  rw [show p + 1 + (adj - 1) = p + adj by omega]

theorem vr_output_num (acc : List Char) {u : Nat} {a c : List grunt_value}
    {q : List Nat} {hd : Nat} {st : List String} {ns : Nat}
    {e : List GruntEvent} {p : Nat} {σ2 : VMState}
    (hi : vsvf_program.getD p .UNDEF = .OUTPUT)
    (hp : p < 421)
    (hfit : acc.length + (grunt_number_chars u).length ≤
      OUTPUT_QUEUE_SIZE - 1)
    (hk : VReach ⟨a, c, q, hd, st, ns, obuf (acc ++ grunt_number_chars u),
      (acc ++ grunt_number_chars u).length, e, p + 1⟩ σ2) :
    VReach ⟨.gnum u :: a, c, q, hd, st, ns, obuf acc, acc.length, e, p⟩
      σ2 := by
  refine VReach.step hp ?_ hk
  dsimp only
  rw [hi]
  simp only [grunt_vm_step, grunt_vm_output, grunt_output_enqueue_number,
    grunt_output_enqueue, grunt_stack_arg_pop,
    Nat.mod_eq_of_lt (show p + 1 < 2 ^ 16 by omega)]
  have hfit2 : acc.length + (grunt_number_chars u).length ≤ 121 := by
    unfold OUTPUT_QUEUE_SIZE at hfit
    omega
  rw [if_neg (by unfold GRUNT_REP_MAX; omega)]
  rw [if_neg (by unfold OUTPUT_QUEUE_SIZE; omega)]
  rw [obuf_write acc (grunt_number_chars u) hfit, List.length_append]

theorem vr_output_str (acc : List Char) {i : Nat} {a c : List grunt_value}
    {q : List Nat} {hd : Nat} {st : List String} {ns : Nat}
    {e : List GruntEvent} {p : Nat} {σ2 : VMState}
    (hi : vsvf_program.getD p .UNDEF = .OUTPUT)
    (hp : p < 421)
    (hns : i < ns)
    (hfit : acc.length + (st.getD i "").data.length ≤
      OUTPUT_QUEUE_SIZE - 1)
    (hk : VReach ⟨a, c, q, hd, st, ns,
      obuf (acc ++ (st.getD i "").data),
      (acc ++ (st.getD i "").data).length, e, p + 1⟩ σ2) :
    VReach ⟨.gstr i :: a, c, q, hd, st, ns, obuf acc, acc.length, e, p⟩
      σ2 := by
  refine VReach.step hp ?_ hk
  dsimp only
  rw [hi]
  simp only [grunt_vm_step, grunt_vm_output, grunt_output_enqueue_string,
    grunt_output_enqueue, grunt_stack_arg_pop,
    Nat.mod_eq_of_lt (show p + 1 < 2 ^ 16 by omega)]
  have hfit2 : acc.length + (st.getD i "").data.length ≤ 121 := by
    unfold OUTPUT_QUEUE_SIZE at hfit
    omega
  rw [if_neg (by omega)]
  rw [if_neg (by unfold GRUNT_REP_MAX; omega)]
  rw [if_neg (by unfold OUTPUT_QUEUE_SIZE; omega)]
  rw [obuf_write acc (st.getD i "").data hfit, List.length_append]

theorem vr_flush (acc : List Char) {sev eid : Nat} {a c : List grunt_value}
    {q : List Nat} {hd : Nat} {st : List String} {ns : Nat}
    {e : List GruntEvent} {p : Nat} {σ2 : VMState}
    (hi : vsvf_program.getD p .UNDEF = .FLUSH)
    (hp : p < 421)
    (hlen : acc.length ≤ OUTPUT_QUEUE_SIZE - 1)
    (hne : ∀ ch ∈ acc, ch ≠ Char.ofNat 0)
    (hk : VReach ⟨a, c, q, hd, st, ns, obuf [], 0,
      e ++ [⟨eid, sev, acc⟩], p + 1⟩ σ2) :
    VReach ⟨.gnum sev :: .gnum eid :: a, c, q, hd, st, ns, obuf acc,
      acc.length, e, p⟩ σ2 := by
  refine VReach.step hp ?_ hk
  dsimp only
  rw [hi]
  simp only [grunt_vm_step, grunt_vm_flush, grunt_output_flush,
    grunt_output_reset, grunt_stack_arg_pop,
    Nat.mod_eq_of_lt (show p + 1 < 2 ^ 16 by omega)]
  rw [obuf_takeWhile acc hlen hne, obuf_nil]

/-- `VReach` composes. -/
theorem vreach_trans {σ1 σ2 σ3 : VMState} (h12 : VReach σ1 σ2)
    (h23 : VReach σ2 σ3) : VReach σ1 σ3 := by
  induction h12 with
  | refl _ => exact h23
  | step hpc hstep _ ih => exact VReach.step hpc hstep (ih h23)

/-- A run-loop result available at the end of a `VReach` chain is
available (with more fuel) from the chain's start. -/
theorem vreach_run_loop {σ σh : VMState} (h : VReach σ σh) :
    ∀ {f1 : Nat} {r : Nat × VMState},
      grunt_run_loop vsvf_program 421 f1 σh = some r →
      ∃ f, grunt_run_loop vsvf_program 421 f σ = some r := by
  induction h with
  | refl _ => exact fun hr => ⟨_, hr⟩
  | step hpc hstep _ ih =>
    intro f1 r hr
    obtain ⟨f, hf⟩ := ih hr
    refine ⟨f + 1, ?_⟩
    unfold grunt_run_loop
    rw [if_pos hpc, hstep]
    simpa using hf

/-- Executing `HALT` on a Boolean top of stack stops the run loop with
the corresponding verdict. -/
theorem vreach_halt {b : Bool} {a c : List grunt_value} {q : List Nat}
    {hd : Nat} {st : List String} {ns : Nat} {o : List Char} {t : Nat}
    {e : List GruntEvent} {p : Nat}
    (hi : vsvf_program.getD p .UNDEF = .HALT)
    (hp : p < 421) :
    grunt_run_loop vsvf_program 421 1
        ⟨.gbool b :: a, c, q, hd, st, ns, o, t, e, p⟩ =
      some (if b then GRUNT_HALT_TRUE else GRUNT_HALT_FALSE,
        ⟨a, c, q, hd, st, ns, o, t, e, (p + 1) % 2 ^ 16⟩) := by
  unfold grunt_run_loop
  rw [if_pos hp, hi]
  simp only [grunt_vm_step, grunt_vm_halt, grunt_stack_arg_pop]
  cases b <;> simp [GRUNT_HALT_TRUE, GRUNT_HALT_FALSE]

set_option maxRecDepth 8192 in
/-- A `VReach` chain from the startup state to a `HALT`-stopping state
determines the whole result of `GRUNT_Run` on the validator program. -/
theorem grunt_run_of_vreach {img : List Nat} {strs : List String}
    {ns : Nat} {σh : VMState} {r : Nat × VMState}
    (h : VReach (grunt_vm_startup initialGlobals img strs ns) σh)
    (hstop : grunt_run_loop vsvf_program 421 1 σh = some r) :
    GRUNT_Run vsvf_program img strs ns = some r := by
  obtain ⟨f, hf⟩ := vreach_run_loop h hstop
  have hterm := GRUNT_Run_from_terminates initialGlobals vsvf_program img
    strs ns (by rw [vsvf_length421]; unfold GRUNT_PC_MAX; omega)
  obtain ⟨r0, hr0, _⟩ := hterm
  have hloop0 : grunt_run_loop vsvf_program 421
      (grunt_fuel vsvf_program.length)
      (grunt_vm_startup initialGlobals img strs ns) = some r0 := by
    have := hr0
    unfold GRUNT_Run_from at this
    rwa [vsvf_length421] at this
  have h1 := grunt_run_loop_mono hf
    (show f ≤ f + grunt_fuel vsvf_program.length by omega)
  have h2 := grunt_run_loop_mono hloop0
    (show grunt_fuel vsvf_program.length ≤
      f + grunt_fuel vsvf_program.length by omega)
  have : r = r0 := by
    have := h1.symm.trans h2
    exact (Option.some.injEq _ _ ▸ this)
  subst this
  exact hr0

/-! ### Reference semantics of the validator program

These definitions mirror, check by check, what the `vsvf_program`
bytecode computes on one 12-byte table entry: the little-endian fields it
reads with `INPUT`, the Boolean each validation subroutine leaves on the
stack, the events each failed check emits, and the running unused/valid
counters.  The theorems below prove that running `vsvf_program` under the
Grunt VM produces exactly these events and this verdict. -/

/-- Entry `k`'s `parm_id` field (byte offset `12 k`). -/
def vsvf_parm (img : List Nat) (k : Nat) : Nat := grunt_le img (12 * k) 1

/-- Entry `k`'s first padding byte (offset `12 k + 1`). -/
def vsvf_pad1 (img : List Nat) (k : Nat) : Nat :=
  grunt_le img (12 * k + 1) 1

/-- Entry `k`'s second and third padding bytes (offset `12 k + 2`). -/
def vsvf_pad2 (img : List Nat) (k : Nat) : Nat :=
  grunt_le img (12 * k + 2) 2

/-- Entry `k`'s `bound_low` field (offset `12 k + 4`). -/
def vsvf_lbnd (img : List Nat) (k : Nat) : Nat :=
  grunt_le img (12 * k + 4) 4

/-- Entry `k`'s `bound_high` field (offset `12 k + 8`). -/
def vsvf_hbnd (img : List Nat) (k : Nat) : Nat :=
  grunt_le img (12 * k + 8) 4

/-- The Boolean `IS_ANIMAL` computes, in the machine's own comparison
and `OR 4` accumulation order. -/
def vsvf_is_animal (p : Nat) : Bool :=
  ((decide (VS_PARM_DOG = p) || decide (VS_PARM_CAT = p)) ||
    decide (VS_PARM_BAT = p)) || decide (VS_PARM_APE = p)

/-- The Boolean `IS_DIRECTION` computes. -/
def vsvf_is_direction (p : Nat) : Bool :=
  ((decide (VS_PARM_WEST = p) || decide (VS_PARM_EAST = p)) ||
    decide (VS_PARM_SOUTH = p)) || decide (VS_PARM_NORTH = p)

/-- The string-table index `PARM_TO_STR` selects for a parameter id. -/
def vsvf_parm_str (p : Nat) : Nat :=
  if p = VS_PARM_UNUSED then 14
  else if p = VS_PARM_APE then 15
  else if p = VS_PARM_BAT then 16
  else if p = VS_PARM_CAT then 17
  else if p = VS_PARM_DOG then 18
  else if p = VS_PARM_NORTH then 19
  else if p = VS_PARM_SOUTH then 20
  else if p = VS_PARM_EAST then 21
  else if p = VS_PARM_WEST then 22
  else 23

/-- The line `EMIT_ERROR` renders: `"Table entry E parm NAME<msg>"`. -/
def vsvf_err_line (e p msgIdx : Nat) : List Char :=
  "Table entry ".data ++ grunt_number_chars e ++ " parm ".data ++
    (vsvf_strings.getD (vsvf_parm_str p) "").data ++
    (vsvf_strings.getD msgIdx "").data

/-- An error event as `EMIT_ERROR` emits it. -/
def vsvf_err_event (eid e p msgIdx : Nat) : GruntEvent :=
  ⟨eid, CFE_EVS_EventType_ERROR, vsvf_err_line e p msgIdx⟩

/-- The Parm-ID error event as `EMIT_ERROR_PARMERR` emits it. -/
def vsvf_parmerr_event (e : Nat) : GruntEvent :=
  ⟨VS_TBL_PARM_ERR_EID, CFE_EVS_EventType_ERROR,
    "Table entry ".data ++ grunt_number_chars e ++
      " invalid Parm ID".data⟩

/-- The all-zero test `VALIDATE_UNUSED` makes with its `EQ 5`, in the
machine's accumulation order. -/
def vsvf_unused_ok (img : List Nat) (k : Nat) : Bool :=
  ((decide (0 = vsvf_hbnd img k) && decide (0 = vsvf_lbnd img k)) &&
    decide (0 = vsvf_pad2 img k)) && decide (0 = vsvf_pad1 img k)

/-- The padding test `VALIDATE_PAD` makes with its `EQ 3`. -/
def vsvf_pad_ok (img : List Nat) (k : Nat) : Bool :=
  decide (0 = vsvf_pad2 img k) && decide (0 = vsvf_pad1 img k)

/-- The out-of-range test `VALIDATE_RANGE` makes on one bound. -/
def vsvf_range_bad (mn mx b : Nat) : Bool :=
  decide (b > mx) || decide (b < mn)

/-- The bound-order test `VALIDATE_ORDER` makes. -/
def vsvf_order_bad (img : List Nat) (k : Nat) : Bool :=
  decide (vsvf_hbnd img k < vsvf_lbnd img k)

/-- The redefinition test `VALIDATE_REDEF` makes against the three saved
parameter ids. -/
def vsvf_redef (p s1 s2 s3 : Nat) : Bool :=
  (decide (p = s1) || decide (p = s2)) || decide (p = s3)

/-- Whether entry `k` increments the unused counter: its id is `UNUSED`
and the rest of the entry is all zero. -/
def vsvf_entry_unused_inc (img : List Nat) (k : Nat) : Bool :=
  decide (vsvf_parm img k = 0) && vsvf_unused_ok img k

/-- The saved parameter id of entry 1 as later entries see it. -/
def vsvf_s1 (img : List Nat) (k : Nat) : Nat :=
  if 1 ≤ k then vsvf_parm img 0 else 0

/-- The saved parameter id of entry 2 as later entries see it. -/
def vsvf_s2 (img : List Nat) (k : Nat) : Nat :=
  if 2 ≤ k then vsvf_parm img 1 else 0

/-- The saved parameter id of entry 3 as later entries see it. -/
def vsvf_s3 (img : List Nat) (k : Nat) : Nat :=
  if 3 ≤ k then vsvf_parm img 2 else 0

/-- The number of unused entries among entries `0 .. k-1`. -/
def vsvf_ucount (img : List Nat) : Nat → Nat
  | 0 => 0
  | k + 1 =>
    vsvf_ucount img k + (if vsvf_entry_unused_inc img k then 1 else 0)

/-- Whether an in-use entry `k` with unused-count `u`, saved ids
`s1 s2 s3` and bound range `mn .. mx` passes all six in-use checks, in
the exact accumulation order of the `AND 4` at the end of
`VALIDATE_INUSE` (with `VALIDATE_BOUNDS`'s `AND 3` nested inside). -/
def vsvf_inuse_ok (img : List Nat) (k u s1 s2 s3 mn mx : Nat) : Bool :=
  ((!vsvf_redef (vsvf_parm img k) s1 s2 s3 &&
      ((!vsvf_order_bad img k &&
          !vsvf_range_bad mn mx (vsvf_lbnd img k)) &&
        !vsvf_range_bad mn mx (vsvf_hbnd img k))) &&
    decide (0 = u)) && vsvf_pad_ok img k

/-- Whether entry `k` increments the valid counter, given the
unused-count `u` and saved ids it is validated against. -/
def vsvf_entry_valid_at (img : List Nat) (k u s1 s2 s3 : Nat) : Bool :=
  if vsvf_parm img k = 0 then false
  else if vsvf_is_animal (vsvf_parm img k) then
    vsvf_inuse_ok img k u s1 s2 s3 VS_PARM_ANIMAL_MIN VS_PARM_ANIMAL_MAX
  else if vsvf_is_direction (vsvf_parm img k) then
    vsvf_inuse_ok img k u s1 s2 s3 VS_PARM_DIRECTION_MIN
      VS_PARM_DIRECTION_MAX
  else false

/-- Whether entry `k` increments the valid counter. -/
def vsvf_entry_valid (img : List Nat) (k : Nat) : Bool :=
  vsvf_entry_valid_at img k (vsvf_ucount img k) (vsvf_s1 img k)
    (vsvf_s2 img k) (vsvf_s3 img k)

/-- The number of valid entries among entries `0 .. k-1`. -/
def vsvf_vcount (img : List Nat) : Nat → Nat
  | 0 => 0
  | k + 1 => vsvf_vcount img k + (if vsvf_entry_valid img k then 1 else 0)

/-- The events an in-use entry `k` with a valid id emits, in program
order: PAD, LBND, HBND, ORDER, EXTRA, REDEF. -/
def vsvf_inuse_events (img : List Nat) (k u s1 s2 s3 mn mx : Nat) :
    List GruntEvent :=
  (if vsvf_pad_ok img k then []
    else [vsvf_err_event VS_TBL_PAD_ERR_EID (k + 1) (vsvf_parm img k) 8]) ++
  (if vsvf_range_bad mn mx (vsvf_lbnd img k) then
    [vsvf_err_event VS_TBL_LBND_ERR_EID (k + 1) (vsvf_parm img k) 9]
    else []) ++
  (if vsvf_range_bad mn mx (vsvf_hbnd img k) then
    [vsvf_err_event VS_TBL_HBND_ERR_EID (k + 1) (vsvf_parm img k) 10]
    else []) ++
  (if vsvf_order_bad img k then
    [vsvf_err_event VS_TBL_ORDER_ERR_EID (k + 1) (vsvf_parm img k) 11]
    else []) ++
  (if decide (0 = u) then []
    else [vsvf_err_event VS_TBL_EXTRA_ERR_EID (k + 1) (vsvf_parm img k) 12]) ++
  (if vsvf_redef (vsvf_parm img k) s1 s2 s3 then
    [vsvf_err_event VS_TBL_REDEF_ERR_EID (k + 1) (vsvf_parm img k) 13]
    else [])

/-- The events entry `k` emits, in program order, given the unused-count
and saved ids it is validated against. -/
def vsvf_entry_events_at (img : List Nat) (k u s1 s2 s3 : Nat) :
    List GruntEvent :=
  if vsvf_parm img k = 0 then
    if vsvf_unused_ok img k then []
    else [vsvf_err_event VS_TBL_ZERO_ERR_EID (k + 1) (vsvf_parm img k) 6]
  else if vsvf_is_animal (vsvf_parm img k) then
    vsvf_inuse_events img k u s1 s2 s3 VS_PARM_ANIMAL_MIN
      VS_PARM_ANIMAL_MAX
  else if vsvf_is_direction (vsvf_parm img k) then
    vsvf_inuse_events img k u s1 s2 s3 VS_PARM_DIRECTION_MIN
      VS_PARM_DIRECTION_MAX
  else [vsvf_parmerr_event (k + 1)]

/-- The events entry `k` emits, in program order. -/
def vsvf_entry_events (img : List Nat) (k : Nat) : List GruntEvent :=
  vsvf_entry_events_at img k (vsvf_ucount img k) (vsvf_s1 img k)
    (vsvf_s2 img k) (vsvf_s3 img k)

/-- The digits `snprintf("%u")` produces for a counter, as a character
list. -/
def vsvf_info_line (v i u : Nat) : List Char :=
  "Table image entries: ".data ++ grunt_number_chars v ++
    " valid, ".data ++ grunt_number_chars i ++ " invalid, ".data ++
    grunt_number_chars u ++ " unused".data

/-- The single INFORMATION event `EMIT_INFO` emits. -/
def vsvf_info_event (v i u : Nat) : GruntEvent :=
  ⟨VS_VALIDATION_INF_EID, CFE_EVS_EventType_INFORMATION,
    vsvf_info_line v i u⟩

/-- The invalid-entry count `COMPUTE_INVALID` computes. -/
def vsvf_icount (img : List Nat) : Nat :=
  4 - (vsvf_ucount img 4 + vsvf_vcount img 4)

/-- The full event sequence of a validator run. -/
def vsvf_events (img : List Nat) : List GruntEvent :=
  vsvf_entry_events img 0 ++ vsvf_entry_events img 1 ++
    vsvf_entry_events img 2 ++ vsvf_entry_events img 3 ++
    [vsvf_info_event (vsvf_vcount img 4) (vsvf_icount img)
      (vsvf_ucount img 4)]

/-- The verdict `COMPUTE_RESULT` computes: no invalid entries. -/
def vsvf_verdict (img : List Nat) : Bool := decide (0 = vsvf_icount img)

/-- Symbolic execution of the `IS_UNUSED` subroutine. -/
theorem vr_IS_UNUSED {p : Nat} {a c : List grunt_value} {q : List Nat}
    {hd : Nat} {st : List String} {ns : Nat} {o : List Char} {t : Nat}
    {e : List GruntEvent} {ret : Nat} {σ2 : VMState}
    (hcap : a.length + c.length + 3 ≤ GRUNT_STACK_SIZE)
    (hk : VReach ⟨.gbool (decide (VS_PARM_UNUSED = p)) :: a, c, q, hd,
      st, ns, o, t, e, ret⟩ σ2) :
    VReach ⟨.gnum p :: a, .gpc ret :: c, q, hd, st, ns, o, t, e,
      IS_UNUSED⟩ σ2 := by
  refine vr_pushn rfl (by decide) (by simp only [List.length_cons]; omega) ?_
  refine vr_eq2 rfl (by decide) (by simp only [List.length_cons]; omega) ?_
  exact vr_return rfl (by decide) hk

/-- Symbolic execution of the `IS_ANIMAL` subroutine. -/
theorem vr_IS_ANIMAL {p : Nat} {a c : List grunt_value} {q : List Nat}
    {hd : Nat} {st : List String} {ns : Nat} {o : List Char} {t : Nat}
    {e : List GruntEvent} {ret : Nat} {σ2 : VMState}
    (hcap : a.length + c.length + 6 ≤ GRUNT_STACK_SIZE)
    (hk : VReach ⟨.gbool (vsvf_is_animal p) :: a, c, q, hd, st, ns, o, t,
      e, ret⟩ σ2) :
    VReach ⟨.gnum p :: a, .gpc ret :: c, q, hd, st, ns, o, t, e,
      IS_ANIMAL⟩ σ2 := by
  refine vr_dup1 rfl (by decide) (by simp only [List.length_cons]; omega) ?_
  refine vr_pushn rfl (by decide) (by simp only [List.length_cons]; omega) ?_
  refine vr_eq2 rfl (by decide) (by simp only [List.length_cons]; omega) ?_
  refine vr_roll2 rfl (by decide) ?_
  refine vr_dup1 rfl (by decide) (by simp only [List.length_cons]; omega) ?_
  refine vr_pushn rfl (by decide) (by simp only [List.length_cons]; omega) ?_
  refine vr_eq2 rfl (by decide) (by simp only [List.length_cons]; omega) ?_
  refine vr_roll2 rfl (by decide) ?_
  refine vr_dup1 rfl (by decide) (by simp only [List.length_cons]; omega) ?_
  refine vr_pushn rfl (by decide) (by simp only [List.length_cons]; omega) ?_
  refine vr_eq2 rfl (by decide) (by simp only [List.length_cons]; omega) ?_
  refine vr_roll2 rfl (by decide) ?_
  refine vr_pushn rfl (by decide) (by simp only [List.length_cons]; omega) ?_
  refine vr_eq2 rfl (by decide) (by simp only [List.length_cons]; omega) ?_
  refine vr_or4 rfl (by decide) (by simp only [List.length_cons]; omega) ?_
  exact vr_return rfl (by decide) hk

/-- Symbolic execution of the `IS_DIRECTION` subroutine. -/
theorem vr_IS_DIRECTION {p : Nat} {a c : List grunt_value} {q : List Nat}
    {hd : Nat} {st : List String} {ns : Nat} {o : List Char} {t : Nat}
    {e : List GruntEvent} {ret : Nat} {σ2 : VMState}
    (hcap : a.length + c.length + 6 ≤ GRUNT_STACK_SIZE)
    (hk : VReach ⟨.gbool (vsvf_is_direction p) :: a, c, q, hd, st, ns, o,
      t, e, ret⟩ σ2) :
    VReach ⟨.gnum p :: a, .gpc ret :: c, q, hd, st, ns, o, t, e,
      IS_DIRECTION⟩ σ2 := by
  refine vr_dup1 rfl (by decide) (by simp only [List.length_cons]; omega) ?_
  refine vr_pushn rfl (by decide) (by simp only [List.length_cons]; omega) ?_
  refine vr_eq2 rfl (by decide) (by simp only [List.length_cons]; omega) ?_
  refine vr_roll2 rfl (by decide) ?_
  refine vr_dup1 rfl (by decide) (by simp only [List.length_cons]; omega) ?_
  refine vr_pushn rfl (by decide) (by simp only [List.length_cons]; omega) ?_
  refine vr_eq2 rfl (by decide) (by simp only [List.length_cons]; omega) ?_
  refine vr_roll2 rfl (by decide) ?_
  refine vr_dup1 rfl (by decide) (by simp only [List.length_cons]; omega) ?_
  refine vr_pushn rfl (by decide) (by simp only [List.length_cons]; omega) ?_
  refine vr_eq2 rfl (by decide) (by simp only [List.length_cons]; omega) ?_
  refine vr_roll2 rfl (by decide) ?_
  refine vr_pushn rfl (by decide) (by simp only [List.length_cons]; omega) ?_
  refine vr_eq2 rfl (by decide) (by simp only [List.length_cons]; omega) ?_
  refine vr_or4 rfl (by decide) (by simp only [List.length_cons]; omega) ?_
  exact vr_return rfl (by decide) hk

/-- Symbolic execution of the `PARM_TO_STR` subroutine. -/
theorem vr_PARM_TO_STR {p : Nat} {a c : List grunt_value} {q : List Nat}
    {hd : Nat} {st : List String} {ns : Nat} {o : List Char} {t : Nat}
    {e : List GruntEvent} {ret : Nat} {σ2 : VMState}
    (hcap : a.length + c.length + 4 ≤ GRUNT_STACK_SIZE)
    (hk : VReach ⟨.gstr (vsvf_parm_str p) :: a, c, q, hd, st, ns, o, t,
      e, ret⟩ σ2) :
    VReach ⟨.gnum p :: a, .gpc ret :: c, q, hd, st, ns, o, t, e,
      PARM_TO_STR⟩ σ2 := by
  refine vr_dup1 rfl (by decide) (by simp only [List.length_cons]; omega) ?_
  refine vr_pushn rfl (by decide) (by simp only [List.length_cons]; omega) ?_
  refine vr_eq2 rfl (by decide) (by simp only [List.length_cons]; omega) ?_
  by_cases h0 : p = VS_PARM_UNUSED
  · rw [decide_eq_true (show VS_PARM_UNUSED = p from h0.symm)]
    refine vr_not rfl (by decide) (by simp only [List.length_cons]; omega) ?_
    refine vr_jmpiff rfl (by decide) (by decide) ?_
    refine vr_pop1 rfl (by decide) ?_
    refine vr_pushs rfl (by decide) (by simp only [List.length_cons]; omega) ?_
    unfold vsvf_parm_str at hk
    rw [if_pos h0] at hk
    exact vr_return rfl (by decide) hk
  rw [decide_eq_false (show ¬(VS_PARM_UNUSED = p) by omega)]
  refine vr_not rfl (by decide) (by simp only [List.length_cons]; omega) ?_
  refine vr_jmpift rfl (by decide) (by decide) (by decide) ?_
  refine vr_dup1 rfl (by decide) (by simp only [List.length_cons]; omega) ?_
  refine vr_pushn rfl (by decide) (by simp only [List.length_cons]; omega) ?_
  refine vr_eq2 rfl (by decide) (by simp only [List.length_cons]; omega) ?_
  by_cases h1 : p = VS_PARM_APE
  · rw [decide_eq_true (show VS_PARM_APE = p from h1.symm)]
    refine vr_not rfl (by decide) (by simp only [List.length_cons]; omega) ?_
    refine vr_jmpiff rfl (by decide) (by decide) ?_
    refine vr_pop1 rfl (by decide) ?_
    refine vr_pushs rfl (by decide) (by simp only [List.length_cons]; omega) ?_
    unfold vsvf_parm_str at hk
    rw [if_neg h0, if_pos h1] at hk
    exact vr_return rfl (by decide) hk
  rw [decide_eq_false (show ¬(VS_PARM_APE = p) by omega)]
  refine vr_not rfl (by decide) (by simp only [List.length_cons]; omega) ?_
  refine vr_jmpift rfl (by decide) (by decide) (by decide) ?_
  refine vr_dup1 rfl (by decide) (by simp only [List.length_cons]; omega) ?_
  refine vr_pushn rfl (by decide) (by simp only [List.length_cons]; omega) ?_
  refine vr_eq2 rfl (by decide) (by simp only [List.length_cons]; omega) ?_
  by_cases h2 : p = VS_PARM_BAT
  · rw [decide_eq_true (show VS_PARM_BAT = p from h2.symm)]
    refine vr_not rfl (by decide) (by simp only [List.length_cons]; omega) ?_
    refine vr_jmpiff rfl (by decide) (by decide) ?_
    refine vr_pop1 rfl (by decide) ?_
    refine vr_pushs rfl (by decide) (by simp only [List.length_cons]; omega) ?_
    unfold vsvf_parm_str at hk
    rw [if_neg h0, if_neg h1, if_pos h2] at hk
    exact vr_return rfl (by decide) hk
  rw [decide_eq_false (show ¬(VS_PARM_BAT = p) by omega)]
  refine vr_not rfl (by decide) (by simp only [List.length_cons]; omega) ?_
  refine vr_jmpift rfl (by decide) (by decide) (by decide) ?_
  refine vr_dup1 rfl (by decide) (by simp only [List.length_cons]; omega) ?_
  refine vr_pushn rfl (by decide) (by simp only [List.length_cons]; omega) ?_
  refine vr_eq2 rfl (by decide) (by simp only [List.length_cons]; omega) ?_
  by_cases h3 : p = VS_PARM_CAT
  · rw [decide_eq_true (show VS_PARM_CAT = p from h3.symm)]
    refine vr_not rfl (by decide) (by simp only [List.length_cons]; omega) ?_
    refine vr_jmpiff rfl (by decide) (by decide) ?_
    refine vr_pop1 rfl (by decide) ?_
    refine vr_pushs rfl (by decide) (by simp only [List.length_cons]; omega) ?_
    unfold vsvf_parm_str at hk
    rw [if_neg h0, if_neg h1, if_neg h2, if_pos h3] at hk
    exact vr_return rfl (by decide) hk
  rw [decide_eq_false (show ¬(VS_PARM_CAT = p) by omega)]
  refine vr_not rfl (by decide) (by simp only [List.length_cons]; omega) ?_
  refine vr_jmpift rfl (by decide) (by decide) (by decide) ?_
  refine vr_dup1 rfl (by decide) (by simp only [List.length_cons]; omega) ?_
  refine vr_pushn rfl (by decide) (by simp only [List.length_cons]; omega) ?_
  refine vr_eq2 rfl (by decide) (by simp only [List.length_cons]; omega) ?_
  by_cases h4 : p = VS_PARM_DOG
  · rw [decide_eq_true (show VS_PARM_DOG = p from h4.symm)]
    refine vr_not rfl (by decide) (by simp only [List.length_cons]; omega) ?_
    refine vr_jmpiff rfl (by decide) (by decide) ?_
    refine vr_pop1 rfl (by decide) ?_
    refine vr_pushs rfl (by decide) (by simp only [List.length_cons]; omega) ?_
    unfold vsvf_parm_str at hk
    rw [if_neg h0, if_neg h1, if_neg h2, if_neg h3, if_pos h4] at hk
    exact vr_return rfl (by decide) hk
  rw [decide_eq_false (show ¬(VS_PARM_DOG = p) by omega)]
  refine vr_not rfl (by decide) (by simp only [List.length_cons]; omega) ?_
  refine vr_jmpift rfl (by decide) (by decide) (by decide) ?_
  refine vr_dup1 rfl (by decide) (by simp only [List.length_cons]; omega) ?_
  refine vr_pushn rfl (by decide) (by simp only [List.length_cons]; omega) ?_
  refine vr_eq2 rfl (by decide) (by simp only [List.length_cons]; omega) ?_
  by_cases h5 : p = VS_PARM_NORTH
  · rw [decide_eq_true (show VS_PARM_NORTH = p from h5.symm)]
    refine vr_not rfl (by decide) (by simp only [List.length_cons]; omega) ?_
    refine vr_jmpiff rfl (by decide) (by decide) ?_
    refine vr_pop1 rfl (by decide) ?_
    refine vr_pushs rfl (by decide) (by simp only [List.length_cons]; omega) ?_
    unfold vsvf_parm_str at hk
    rw [if_neg h0, if_neg h1, if_neg h2, if_neg h3, if_neg h4, if_pos h5] at hk
    exact vr_return rfl (by decide) hk
  rw [decide_eq_false (show ¬(VS_PARM_NORTH = p) by omega)]
  refine vr_not rfl (by decide) (by simp only [List.length_cons]; omega) ?_
  refine vr_jmpift rfl (by decide) (by decide) (by decide) ?_
  refine vr_dup1 rfl (by decide) (by simp only [List.length_cons]; omega) ?_
  refine vr_pushn rfl (by decide) (by simp only [List.length_cons]; omega) ?_
  refine vr_eq2 rfl (by decide) (by simp only [List.length_cons]; omega) ?_
  by_cases h6 : p = VS_PARM_SOUTH
  · rw [decide_eq_true (show VS_PARM_SOUTH = p from h6.symm)]
    refine vr_not rfl (by decide) (by simp only [List.length_cons]; omega) ?_
    refine vr_jmpiff rfl (by decide) (by decide) ?_
    refine vr_pop1 rfl (by decide) ?_
    refine vr_pushs rfl (by decide) (by simp only [List.length_cons]; omega) ?_
    unfold vsvf_parm_str at hk
    rw [if_neg h0, if_neg h1, if_neg h2, if_neg h3, if_neg h4, if_neg h5, if_pos h6] at hk
    exact vr_return rfl (by decide) hk
  rw [decide_eq_false (show ¬(VS_PARM_SOUTH = p) by omega)]
  refine vr_not rfl (by decide) (by simp only [List.length_cons]; omega) ?_
  refine vr_jmpift rfl (by decide) (by decide) (by decide) ?_
  refine vr_dup1 rfl (by decide) (by simp only [List.length_cons]; omega) ?_
  refine vr_pushn rfl (by decide) (by simp only [List.length_cons]; omega) ?_
  refine vr_eq2 rfl (by decide) (by simp only [List.length_cons]; omega) ?_
  by_cases h7 : p = VS_PARM_EAST
  · rw [decide_eq_true (show VS_PARM_EAST = p from h7.symm)]
    refine vr_not rfl (by decide) (by simp only [List.length_cons]; omega) ?_
    refine vr_jmpiff rfl (by decide) (by decide) ?_
    refine vr_pop1 rfl (by decide) ?_
    refine vr_pushs rfl (by decide) (by simp only [List.length_cons]; omega) ?_
    unfold vsvf_parm_str at hk
    rw [if_neg h0, if_neg h1, if_neg h2, if_neg h3, if_neg h4, if_neg h5, if_neg h6, if_pos h7] at hk
    exact vr_return rfl (by decide) hk
  rw [decide_eq_false (show ¬(VS_PARM_EAST = p) by omega)]
  refine vr_not rfl (by decide) (by simp only [List.length_cons]; omega) ?_
  refine vr_jmpift rfl (by decide) (by decide) (by decide) ?_
  refine vr_dup1 rfl (by decide) (by simp only [List.length_cons]; omega) ?_
  refine vr_pushn rfl (by decide) (by simp only [List.length_cons]; omega) ?_
  refine vr_eq2 rfl (by decide) (by simp only [List.length_cons]; omega) ?_
  by_cases h8 : p = VS_PARM_WEST
  · rw [decide_eq_true (show VS_PARM_WEST = p from h8.symm)]
    refine vr_not rfl (by decide) (by simp only [List.length_cons]; omega) ?_
    refine vr_jmpiff rfl (by decide) (by decide) ?_
    refine vr_pop1 rfl (by decide) ?_
    refine vr_pushs rfl (by decide) (by simp only [List.length_cons]; omega) ?_
    unfold vsvf_parm_str at hk
    rw [if_neg h0, if_neg h1, if_neg h2, if_neg h3, if_neg h4, if_neg h5, if_neg h6, if_neg h7, if_pos h8] at hk
    exact vr_return rfl (by decide) hk
  rw [decide_eq_false (show ¬(VS_PARM_WEST = p) by omega)]
  refine vr_not rfl (by decide) (by simp only [List.length_cons]; omega) ?_
  refine vr_jmpift rfl (by decide) (by decide) (by decide) ?_
  refine vr_pop1 rfl (by decide) ?_
  refine vr_pushs rfl (by decide) (by simp only [List.length_cons]; omega) ?_
  unfold vsvf_parm_str at hk
  rw [if_neg h0, if_neg h1, if_neg h2, if_neg h3, if_neg h4, if_neg h5, if_neg h6, if_neg h7, if_neg h8] at hk
  exact vr_return rfl (by decide) hk

/-- Appending preserves NUL-freedom. -/
theorem no_nul_append {l1 l2 : List Char}
    (h1 : ∀ ch ∈ l1, ch ≠ Char.ofNat 0)
    (h2 : ∀ ch ∈ l2, ch ≠ Char.ofNat 0) :
    ∀ ch ∈ l1 ++ l2, ch ≠ Char.ofNat 0 := by
  intro ch hch
  rcases List.mem_append.mp hch with h | h
  · exact h1 ch h
  · exact h2 ch h

/-- Every string in the validator's string table is at most 26 bytes. -/
theorem vsvf_strings_len (m : Nat) :
    (vsvf_strings.getD m "").data.length ≤ 26 := by
  rcases Nat.lt_or_ge m 24 with h | h
  · interval_cases m <;> decide
  · rw [List.getD_eq_default _ _ (by simpa [vsvf_strings] using h)]
    decide

/-- No string in the validator's string table contains a NUL byte. -/
theorem vsvf_strings_no_nul (m : Nat) :
    ∀ ch ∈ (vsvf_strings.getD m "").data, ch ≠ Char.ofNat 0 := by
  rcases Nat.lt_or_ge m 24 with h | h
  · interval_cases m <;> decide
  · rw [List.getD_eq_default _ _ (by simpa [vsvf_strings] using h)]
    decide

/-- `PARM_TO_STR` always selects an in-range string index. -/
theorem vsvf_parm_str_lt (p : Nat) : vsvf_parm_str p < 24 := by
  unfold vsvf_parm_str
  repeat' split
  all_goals decide

/-- Every parameter-name string is at most 7 bytes. -/
theorem vsvf_parm_str_len (p : Nat) :
    (vsvf_strings.getD (vsvf_parm_str p) "").data.length ≤ 7 := by
  unfold vsvf_parm_str
  repeat' split
  all_goals decide

/-- No parameter-name string contains a NUL byte. -/
theorem vsvf_parm_str_no_nul (p : Nat) :
    ∀ ch ∈ (vsvf_strings.getD (vsvf_parm_str p) "").data,
      ch ≠ Char.ofNat 0 := by
  unfold vsvf_parm_str
  repeat' split
  all_goals decide

/-- A one-digit rendered number contains no NUL byte. -/
theorem grunt_number_chars_no_nul {u : Nat} (hu : u < 10) :
    ∀ ch ∈ grunt_number_chars u, ch ≠ Char.ofNat 0 := by
  rw [grunt_number_chars_digit u hu]
  intro ch hch
  rw [List.mem_singleton] at hch
  subst hch
  exact digitChar_ne_nul u hu

/-- Symbolic execution of the `EMIT_ERROR` subroutine: renders
`"Table entry E parm NAME<msg>"` and flushes it as an ERROR event. -/
theorem vr_EMIT_ERROR {en p m eid : Nat} {a c : List grunt_value}
    {q : List Nat} {hd : Nat} {e : List GruntEvent} {ret : Nat}
    {σ2 : VMState}
    (he : en < 10)
    (hm : m < 24)
    (hcap : a.length + c.length + 9 ≤ GRUNT_STACK_SIZE)
    (hk : VReach ⟨a, c, q, hd, vsvf_strings, 24, obuf [], 0,
      e ++ [vsvf_err_event eid en p m], ret⟩ σ2) :
    VReach ⟨.gnum en :: .gnum p :: .gstr m :: .gnum eid :: a,
      .gpc ret :: c, q, hd, vsvf_strings, 24, obuf [], 0, e,
      EMIT_ERROR⟩ σ2 := by
  have hl4 : (vsvf_strings.getD 4 "").data.length = 12 := by decide
  have hl5 : (vsvf_strings.getD 5 "").data.length = 6 := by decide
  refine vr_pushs rfl (by decide) (by simp only [List.length_cons]; omega) ?_
  refine vr_output_str ([] : List Char) rfl (by decide) (by decide) (by have hp7 := vsvf_parm_str_len p; have hm26 := vsvf_strings_len m; simp only [grunt_number_chars_digit en he, List.length_append, List.nil_append, List.length_cons, List.length_nil, hl4, hl5]; unfold OUTPUT_QUEUE_SIZE; omega) ?_
  refine vr_output_num ([] ++ (vsvf_strings.getD 4 "").data) rfl (by decide) (by have hp7 := vsvf_parm_str_len p; have hm26 := vsvf_strings_len m; simp only [grunt_number_chars_digit en he, List.length_append, List.nil_append, List.length_cons, List.length_nil, hl4, hl5]; unfold OUTPUT_QUEUE_SIZE; omega) ?_
  refine vr_pushs rfl (by decide) (by simp only [List.length_cons]; omega) ?_
  refine vr_output_str (([] ++ (vsvf_strings.getD 4 "").data) ++ grunt_number_chars en) rfl (by decide) (by decide) (by have hp7 := vsvf_parm_str_len p; have hm26 := vsvf_strings_len m; simp only [grunt_number_chars_digit en he, List.length_append, List.nil_append, List.length_cons, List.length_nil, hl4, hl5]; unfold OUTPUT_QUEUE_SIZE; omega) ?_
  refine vr_call rfl (by decide) (by decide) (by simp only [List.length_cons]; omega) ?_
  refine vr_PARM_TO_STR (by simp only [List.length_cons]; omega) ?_
  refine vr_output_str ((([] ++ (vsvf_strings.getD 4 "").data) ++ grunt_number_chars en) ++ (vsvf_strings.getD 5 "").data) rfl (by decide) (vsvf_parm_str_lt p) (by have hp7 := vsvf_parm_str_len p; have hm26 := vsvf_strings_len m; simp only [grunt_number_chars_digit en he, List.length_append, List.nil_append, List.length_cons, List.length_nil, hl4, hl5]; unfold OUTPUT_QUEUE_SIZE; omega) ?_
  refine vr_output_str (((([] ++ (vsvf_strings.getD 4 "").data) ++ grunt_number_chars en) ++ (vsvf_strings.getD 5 "").data) ++ (vsvf_strings.getD (vsvf_parm_str p) "").data) rfl (by decide) hm (by have hp7 := vsvf_parm_str_len p; have hm26 := vsvf_strings_len m; simp only [grunt_number_chars_digit en he, List.length_append, List.nil_append, List.length_cons, List.length_nil, hl4, hl5]; unfold OUTPUT_QUEUE_SIZE; omega) ?_
  refine vr_pushn rfl (by decide) (by simp only [List.length_cons]; omega) ?_
  refine vr_flush ((((([] ++ (vsvf_strings.getD 4 "").data) ++ grunt_number_chars en) ++ (vsvf_strings.getD 5 "").data) ++ (vsvf_strings.getD (vsvf_parm_str p) "").data) ++ (vsvf_strings.getD m "").data) rfl (by decide) (by have hp7 := vsvf_parm_str_len p; have hm26 := vsvf_strings_len m; simp only [grunt_number_chars_digit en he, List.length_append, List.nil_append, List.length_cons, List.length_nil, hl4, hl5]; unfold OUTPUT_QUEUE_SIZE; omega) (no_nul_append (no_nul_append (no_nul_append (no_nul_append (by simpa using vsvf_strings_no_nul 4) (grunt_number_chars_no_nul he)) (vsvf_strings_no_nul 5)) (vsvf_parm_str_no_nul p)) (vsvf_strings_no_nul m)) ?_
  simp only [List.nil_append]
  exact vr_return rfl (by decide) hk

/-- Symbolic execution of the `EMIT_ERROR_PARMERR` subroutine. -/
theorem vr_EMIT_ERROR_PARMERR {en : Nat} {a c : List grunt_value}
    {q : List Nat} {hd : Nat} {e : List GruntEvent} {ret : Nat}
    {σ2 : VMState}
    (he : en < 10)
    (hcap : a.length + c.length + 4 ≤ GRUNT_STACK_SIZE)
    (hk : VReach ⟨a, c, q, hd, vsvf_strings, 24, obuf [], 0,
      e ++ [vsvf_parmerr_event en], ret⟩ σ2) :
    VReach ⟨.gnum en :: a, .gpc ret :: c, q, hd, vsvf_strings, 24,
      obuf [], 0, e, EMIT_ERROR_PARMERR⟩ σ2 := by
  have hl4 : (vsvf_strings.getD 4 "").data.length = 12 := by decide
  have hl7 : (vsvf_strings.getD 7 "").data.length = 16 := by decide
  refine vr_pushs rfl (by decide) (by simp only [List.length_cons]; omega) ?_
  refine vr_output_str ([] : List Char) rfl (by decide) (by decide) (by simp only [grunt_number_chars_digit en he, List.length_append, List.nil_append, List.length_cons, List.length_nil, hl4, hl7]; unfold OUTPUT_QUEUE_SIZE; omega) ?_
  refine vr_output_num ([] ++ (vsvf_strings.getD 4 "").data) rfl (by decide) (by simp only [grunt_number_chars_digit en he, List.length_append, List.nil_append, List.length_cons, List.length_nil, hl4, hl7]; unfold OUTPUT_QUEUE_SIZE; omega) ?_
  refine vr_pushs rfl (by decide) (by simp only [List.length_cons]; omega) ?_
  refine vr_output_str (([] ++ (vsvf_strings.getD 4 "").data) ++ grunt_number_chars en) rfl (by decide) (by decide) (by simp only [grunt_number_chars_digit en he, List.length_append, List.nil_append, List.length_cons, List.length_nil, hl4, hl7]; unfold OUTPUT_QUEUE_SIZE; omega) ?_
  refine vr_pushn rfl (by decide) (by simp only [List.length_cons]; omega) ?_
  refine vr_pushn rfl (by decide) (by simp only [List.length_cons]; omega) ?_
  refine vr_flush ((([] ++ (vsvf_strings.getD 4 "").data) ++ grunt_number_chars en) ++ (vsvf_strings.getD 7 "").data) rfl (by decide) (by simp only [grunt_number_chars_digit en he, List.length_append, List.nil_append, List.length_cons, List.length_nil, hl4, hl7]; unfold OUTPUT_QUEUE_SIZE; omega) (no_nul_append (no_nul_append (by simpa using vsvf_strings_no_nul 4) (grunt_number_chars_no_nul he)) (vsvf_strings_no_nul 7)) ?_
  simp only [List.nil_append]
  exact vr_return rfl (by decide) hk

/-- Symbolic execution of the `EMIT_INFO` subroutine. -/
theorem vr_EMIT_INFO {v i u : Nat} {a c : List grunt_value}
    {q : List Nat} {hd : Nat} {e : List GruntEvent} {ret : Nat}
    {σ2 : VMState}
    (hv : v < 10) (hi : i < 10) (hu : u < 10)
    (hcap : a.length + c.length + 5 ≤ GRUNT_STACK_SIZE)
    (hk : VReach ⟨a, c, q, hd, vsvf_strings, 24, obuf [], 0,
      e ++ [vsvf_info_event v i u], ret⟩ σ2) :
    VReach ⟨.gnum v :: .gnum i :: .gnum u :: a, .gpc ret :: c, q, hd,
      vsvf_strings, 24, obuf [], 0, e, EMIT_INFO⟩ σ2 := by
  have hl0 : (vsvf_strings.getD 0 "").data.length = 21 := by decide
  have hl1 : (vsvf_strings.getD 1 "").data.length = 8 := by decide
  have hl2 : (vsvf_strings.getD 2 "").data.length = 10 := by decide
  have hl3 : (vsvf_strings.getD 3 "").data.length = 7 := by decide
  refine vr_pushs rfl (by decide) (by simp only [List.length_cons]; omega) ?_
  refine vr_output_str ([] : List Char) rfl (by decide) (by decide) (by simp only [grunt_number_chars_digit v hv, grunt_number_chars_digit i hi, grunt_number_chars_digit u hu, List.length_append, List.nil_append, List.length_cons, List.length_nil, hl0, hl1, hl2, hl3]; unfold OUTPUT_QUEUE_SIZE; omega) ?_
  refine vr_output_num ([] ++ (vsvf_strings.getD 0 "").data) rfl (by decide) (by simp only [grunt_number_chars_digit v hv, grunt_number_chars_digit i hi, grunt_number_chars_digit u hu, List.length_append, List.nil_append, List.length_cons, List.length_nil, hl0, hl1, hl2, hl3]; unfold OUTPUT_QUEUE_SIZE; omega) ?_
  refine vr_pushs rfl (by decide) (by simp only [List.length_cons]; omega) ?_
  refine vr_output_str (([] ++ (vsvf_strings.getD 0 "").data) ++ grunt_number_chars v) rfl (by decide) (by decide) (by simp only [grunt_number_chars_digit v hv, grunt_number_chars_digit i hi, grunt_number_chars_digit u hu, List.length_append, List.nil_append, List.length_cons, List.length_nil, hl0, hl1, hl2, hl3]; unfold OUTPUT_QUEUE_SIZE; omega) ?_
  refine vr_output_num ((([] ++ (vsvf_strings.getD 0 "").data) ++ grunt_number_chars v) ++ (vsvf_strings.getD 1 "").data) rfl (by decide) (by simp only [grunt_number_chars_digit v hv, grunt_number_chars_digit i hi, grunt_number_chars_digit u hu, List.length_append, List.nil_append, List.length_cons, List.length_nil, hl0, hl1, hl2, hl3]; unfold OUTPUT_QUEUE_SIZE; omega) ?_
  refine vr_pushs rfl (by decide) (by simp only [List.length_cons]; omega) ?_
  refine vr_output_str (((([] ++ (vsvf_strings.getD 0 "").data) ++ grunt_number_chars v) ++ (vsvf_strings.getD 1 "").data) ++ grunt_number_chars i) rfl (by decide) (by decide) (by simp only [grunt_number_chars_digit v hv, grunt_number_chars_digit i hi, grunt_number_chars_digit u hu, List.length_append, List.nil_append, List.length_cons, List.length_nil, hl0, hl1, hl2, hl3]; unfold OUTPUT_QUEUE_SIZE; omega) ?_
  refine vr_output_num ((((([] ++ (vsvf_strings.getD 0 "").data) ++ grunt_number_chars v) ++ (vsvf_strings.getD 1 "").data) ++ grunt_number_chars i) ++ (vsvf_strings.getD 2 "").data) rfl (by decide) (by simp only [grunt_number_chars_digit v hv, grunt_number_chars_digit i hi, grunt_number_chars_digit u hu, List.length_append, List.nil_append, List.length_cons, List.length_nil, hl0, hl1, hl2, hl3]; unfold OUTPUT_QUEUE_SIZE; omega) ?_
  refine vr_pushs rfl (by decide) (by simp only [List.length_cons]; omega) ?_
  refine vr_output_str (((((([] ++ (vsvf_strings.getD 0 "").data) ++ grunt_number_chars v) ++ (vsvf_strings.getD 1 "").data) ++ grunt_number_chars i) ++ (vsvf_strings.getD 2 "").data) ++ grunt_number_chars u) rfl (by decide) (by decide) (by simp only [grunt_number_chars_digit v hv, grunt_number_chars_digit i hi, grunt_number_chars_digit u hu, List.length_append, List.nil_append, List.length_cons, List.length_nil, hl0, hl1, hl2, hl3]; unfold OUTPUT_QUEUE_SIZE; omega) ?_
  refine vr_pushn rfl (by decide) (by simp only [List.length_cons]; omega) ?_
  refine vr_pushn rfl (by decide) (by simp only [List.length_cons]; omega) ?_
  refine vr_flush ((((((([] ++ (vsvf_strings.getD 0 "").data) ++ grunt_number_chars v) ++ (vsvf_strings.getD 1 "").data) ++ grunt_number_chars i) ++ (vsvf_strings.getD 2 "").data) ++ grunt_number_chars u) ++ (vsvf_strings.getD 3 "").data) rfl (by decide) (by simp only [grunt_number_chars_digit v hv, grunt_number_chars_digit i hi, grunt_number_chars_digit u hu, List.length_append, List.nil_append, List.length_cons, List.length_nil, hl0, hl1, hl2, hl3]; unfold OUTPUT_QUEUE_SIZE; omega) (no_nul_append (no_nul_append (no_nul_append (no_nul_append (no_nul_append (no_nul_append (by simpa using vsvf_strings_no_nul 0) (grunt_number_chars_no_nul hv)) (vsvf_strings_no_nul 1)) (grunt_number_chars_no_nul hi)) (vsvf_strings_no_nul 2)) (grunt_number_chars_no_nul hu)) (vsvf_strings_no_nul 3)) ?_
  simp only [List.nil_append]
  exact vr_return rfl (by decide) hk

/-- Symbolic execution of the `INC_UNUSED` subroutine. -/
theorem vr_INC_UNUSED {p v u : Nat} {a c : List grunt_value} {q : List Nat}
    {hd : Nat} {st : List String} {ns : Nat} {o : List Char} {t : Nat}
    {e : List GruntEvent} {ret : Nat} {σ2 : VMState}
    (hno : u + 1 ≤ GRUNT_NUM_MAX)
    (hcap : a.length + c.length + 6 ≤ GRUNT_STACK_SIZE)
    (hk : VReach ⟨.gnum p :: .gnum v :: .gnum (u + 1) :: a, c, q, hd, st,
      ns, o, t, e, ret⟩ σ2) :
    VReach ⟨.gnum p :: .gnum v :: .gnum u :: a, .gpc ret :: c, q, hd, st,
      ns, o, t, e, INC_UNUSED⟩ σ2 := by
  refine vr_roll3 rfl (by decide) ?_
  refine vr_roll3 rfl (by decide) ?_
  refine vr_pushn rfl (by decide) (by simp only [List.length_cons]; omega) ?_
  refine vr_add rfl (by decide) (by omega) (by simp only [List.length_cons]; omega) ?_
  refine vr_roll3 rfl (by decide) ?_
  exact vr_return rfl (by decide) hk

/-- Symbolic execution of the `INC_VALID` subroutine. -/
theorem vr_INC_VALID {p v u : Nat} {a c : List grunt_value} {q : List Nat}
    {hd : Nat} {st : List String} {ns : Nat} {o : List Char} {t : Nat}
    {e : List GruntEvent} {ret : Nat} {σ2 : VMState}
    (hno : v + 1 ≤ GRUNT_NUM_MAX)
    (hcap : a.length + c.length + 6 ≤ GRUNT_STACK_SIZE)
    (hk : VReach ⟨.gnum p :: .gnum (v + 1) :: .gnum u :: a, c, q, hd, st,
      ns, o, t, e, ret⟩ σ2) :
    VReach ⟨.gnum p :: .gnum v :: .gnum u :: a, .gpc ret :: c, q, hd, st,
      ns, o, t, e, INC_VALID⟩ σ2 := by
  refine vr_roll2 rfl (by decide) ?_
  refine vr_pushn rfl (by decide) (by simp only [List.length_cons]; omega) ?_
  refine vr_add rfl (by decide) (by omega) (by simp only [List.length_cons]; omega) ?_
  refine vr_roll2 rfl (by decide) ?_
  exact vr_return rfl (by decide) hk

/-- Symbolic execution of the `COMPUTE_INVALID` subroutine. -/
theorem vr_COMPUTE_INVALID {v u : Nat} {a c : List grunt_value} {q : List Nat}
    {hd : Nat} {st : List String} {ns : Nat} {o : List Char} {t : Nat}
    {e : List GruntEvent} {ret : Nat} {σ2 : VMState}
    (hge : u + v ≤ 4)
    (hcap : a.length + c.length + 7 ≤ GRUNT_STACK_SIZE)
    (hk : VReach ⟨.gnum v :: .gnum (4 - (u + v)) :: .gnum u :: a, c, q,
      hd, st, ns, o, t, e, ret⟩ σ2) :
    VReach ⟨.gnum v :: .gnum u :: a, .gpc ret :: c, q, hd, st, ns, o, t,
      e, COMPUTE_INVALID⟩ σ2 := by
  refine vr_dup2 rfl (by decide) (by simp only [List.length_cons]; omega) ?_
  refine vr_add rfl (by decide) (by unfold GRUNT_NUM_MAX; omega) (by simp only [List.length_cons]; omega) ?_
  refine vr_pushn rfl (by decide) (by simp only [List.length_cons]; omega) ?_
  refine vr_roll2 rfl (by decide) ?_
  refine vr_sub rfl (by decide) (by omega) (by simp only [List.length_cons]; omega) ?_
  refine vr_roll2 rfl (by decide) ?_
  exact vr_return rfl (by decide) hk

/-- Symbolic execution of the `COMPUTE_RESULT` subroutine. -/
theorem vr_COMPUTE_RESULT {v iv u : Nat} {a c : List grunt_value} {q : List Nat}
    {hd : Nat} {st : List String} {ns : Nat} {o : List Char} {t : Nat}
    {e : List GruntEvent} {ret : Nat} {σ2 : VMState}
    (hcap : a.length + c.length + 8 ≤ GRUNT_STACK_SIZE)
    (hk : VReach ⟨.gnum v :: .gnum iv :: .gnum u ::
      .gbool (decide (0 = iv)) :: a, c, q, hd, st, ns, o, t, e, ret⟩ σ2) :
    VReach ⟨.gnum v :: .gnum iv :: .gnum u :: a, .gpc ret :: c, q, hd, st,
      ns, o, t, e, COMPUTE_RESULT⟩ σ2 := by
  refine vr_roll2 rfl (by decide) ?_
  refine vr_dup1 rfl (by decide) (by simp only [List.length_cons]; omega) ?_
  refine vr_pushn rfl (by decide) (by simp only [List.length_cons]; omega) ?_
  refine vr_eq2 rfl (by decide) (by simp only [List.length_cons]; omega) ?_
  refine vr_roll4 rfl (by decide) ?_
  refine vr_roll2 rfl (by decide) ?_
  exact vr_return rfl (by decide) hk

/-- Symbolic execution of the `HANDLE_PARMERR` subroutine: skip the rest
of the entry's bytes and emit the Parm-ID error event. -/
theorem vr_HANDLE_PARMERR {en : Nat} {a c : List grunt_value}
    {q : List Nat} {hd : Nat} {e : List GruntEvent} {ret : Nat}
    {σ2 : VMState}
    (he : en < 10)
    (himg : hd + 11 ≤ q.length)
    (hcap : a.length + c.length + 7 ≤ GRUNT_STACK_SIZE)
    (hk : VReach ⟨a, c, q, hd + 1 + 2 + 4 + 4, vsvf_strings, 24, obuf [],
      0, e ++ [vsvf_parmerr_event en], ret⟩ σ2) :
    VReach ⟨.gnum en :: a, .gpc ret :: c, q, hd, vsvf_strings, 24,
      obuf [], 0, e, HANDLE_PARMERR⟩ σ2 := by
  refine vr_input1 rfl (by decide) (by omega) (by simp only [List.length_cons]; omega) ?_
  refine vr_pop1 rfl (by decide) ?_
  refine vr_input2 rfl (by decide) (by omega) (by simp only [List.length_cons]; omega) ?_
  refine vr_pop1 rfl (by decide) ?_
  refine vr_input4 rfl (by decide) (by omega) (by simp only [List.length_cons]; omega) ?_
  refine vr_pop1 rfl (by decide) ?_
  refine vr_input4 rfl (by decide) (by omega) (by simp only [List.length_cons]; omega) ?_
  refine vr_pop1 rfl (by decide) ?_
  refine vr_call rfl (by decide) (by decide) (by simp only [List.length_cons]; omega) ?_
  refine vr_EMIT_ERROR_PARMERR he (by simp only [List.length_cons]; omega) ?_
  exact vr_return rfl (by decide) hk

/-- Rewriting the start state of a reachability chain. -/
theorem vreach_of_eq {σ σ1 σ2 : VMState} (h : σ = σ1)
    (hk : VReach σ1 σ2) : VReach σ σ2 := by
  rw [h]
  exact hk

/-- Symbolic execution of the `VALIDATE_PAD` subroutine. -/
theorem vr_VALIDATE_PAD {k p en : Nat} {a c : List grunt_value}
    {q : List Nat} {e : List GruntEvent} {ret : Nat} {σ2 : VMState}
    (he : en < 10)
    (himg : 12 * k + 4 ≤ q.length)
    (hcap : a.length + c.length + 10 ≤ GRUNT_STACK_SIZE)
    (hk : VReach ⟨.gbool (vsvf_pad_ok q k) :: a, c, q, 12 * k + 4,
      vsvf_strings, 24, obuf [], 0,
      e ++ (if vsvf_pad_ok q k then []
        else [vsvf_err_event VS_TBL_PAD_ERR_EID en p 8]), ret⟩ σ2) :
    VReach ⟨.gnum p :: .gnum en :: a, .gpc ret :: c, q, 12 * k + 1,
      vsvf_strings, 24, obuf [], 0, e, VALIDATE_PAD⟩ σ2 := by
  refine vr_input1 rfl (by decide) (by omega) (by simp only [List.length_cons]; omega) ?_
  refine vr_input2 rfl (by decide) (by omega) (by simp only [List.length_cons]; omega) ?_
  refine vr_pushn rfl (by decide) (by simp only [List.length_cons]; omega) ?_
  refine vr_eq3 rfl (by decide) (by simp only [List.length_cons]; omega) ?_
  rw [show (decide (0 = grunt_le q (12 * k + 1 + 1) 2) &&
    decide (0 = grunt_le q (12 * k + 1) 1)) = vsvf_pad_ok q k from rfl]
  refine vr_not rfl (by decide) (by simp only [List.length_cons]; omega) ?_
  by_cases h : vsvf_pad_ok q k = true
  · rw [h]
    refine vr_jmpiff rfl (by decide) (by decide) ?_
    refine vr_pop2 rfl (by decide) ?_
    refine vr_pushb rfl (by decide) (by simp only [List.length_cons]; omega) ?_
    refine vr_return rfl (by decide) ?_
    exact vreach_of_eq (by simp [h]) hk
  · rw [Bool.not_eq_true] at h
    rw [h]
    refine vr_jmpift rfl (by decide) (by decide) (by decide) ?_
    refine vr_roll2 rfl (by decide) ?_
    refine vr_pushn rfl (by decide) (by simp only [List.length_cons]; omega) ?_
    refine vr_roll3 rfl (by decide) ?_
    refine vr_pushs rfl (by decide) (by simp only [List.length_cons]; omega) ?_
    refine vr_roll3 rfl (by decide) ?_
    refine vr_call rfl (by decide) (by decide) (by simp only [List.length_cons]; omega) ?_
    refine vr_EMIT_ERROR he (by decide) (by simp only [List.length_cons]; omega) ?_
    refine vr_pushb rfl (by decide) (by simp only [List.length_cons]; omega) ?_
    refine vr_return rfl (by decide) ?_
    exact vreach_of_eq (by simp [h]) hk

/-- Symbolic execution of the `VALIDATE_RANGE` subroutine. -/
theorem vr_VALIDATE_RANGE {b mn mx p en m eid : Nat}
    {a c : List grunt_value} {q : List Nat} {hd : Nat}
    {e : List GruntEvent} {ret : Nat} {σ2 : VMState}
    (he : en < 10)
    (hm : m < 24)
    (hcap : a.length + c.length + 10 ≤ GRUNT_STACK_SIZE)
    (hk : VReach ⟨.gbool (!vsvf_range_bad mn mx b) :: a, c, q, hd,
      vsvf_strings, 24, obuf [], 0,
      e ++ (if vsvf_range_bad mn mx b then [vsvf_err_event eid en p m]
        else []), ret⟩ σ2) :
    VReach ⟨.gnum b :: .gnum mn :: .gnum mx :: .gnum p :: .gnum en ::
      .gstr m :: .gnum eid :: a, .gpc ret :: c, q, hd, vsvf_strings, 24,
      obuf [], 0, e, VALIDATE_RANGE⟩ σ2 := by
  refine vr_dup1 rfl (by decide) (by simp only [List.length_cons]; omega) ?_
  refine vr_roll4 rfl (by decide) ?_
  refine vr_roll2 rfl (by decide) ?_
  refine vr_lt rfl (by decide) (by simp only [List.length_cons]; omega) ?_
  refine vr_roll3 rfl (by decide) ?_
  refine vr_gt rfl (by decide) (by simp only [List.length_cons]; omega) ?_
  refine vr_or2 rfl (by decide) (by simp only [List.length_cons]; omega) ?_
  rw [show (decide (b > mx) || decide (b < mn)) = vsvf_range_bad mn mx b
    from rfl]
  by_cases h : vsvf_range_bad mn mx b = true
  · rw [h]
    refine vr_jmpift rfl (by decide) (by decide) (by decide) ?_
    refine vr_roll2 rfl (by decide) ?_
    refine vr_call rfl (by decide) (by decide) (by simp only [List.length_cons]; omega) ?_
    refine vr_EMIT_ERROR he hm (by simp only [List.length_cons]; omega) ?_
    refine vr_pushb rfl (by decide) (by simp only [List.length_cons]; omega) ?_
    refine vr_return rfl (by decide) ?_
    exact vreach_of_eq (by simp [h]) hk
  · rw [Bool.not_eq_true] at h
    rw [h]
    refine vr_jmpiff rfl (by decide) (by decide) ?_
    refine vr_pop4 rfl (by decide) ?_
    refine vr_pushb rfl (by decide) (by simp only [List.length_cons]; omega) ?_
    refine vr_return rfl (by decide) ?_
    exact vreach_of_eq (by simp [h]) hk

/-- Symbolic execution of the `VALIDATE_ORDER` subroutine. -/
theorem vr_VALIDATE_ORDER {lo hi p en : Nat} {a c : List grunt_value}
    {q : List Nat} {hd : Nat} {e : List GruntEvent} {ret : Nat}
    {σ2 : VMState}
    (he : en < 10)
    (hcap : a.length + c.length + 10 ≤ GRUNT_STACK_SIZE)
    (hk : VReach ⟨.gbool (!decide (hi < lo)) :: a, c, q, hd,
      vsvf_strings, 24, obuf [], 0,
      e ++ (if decide (hi < lo) then
        [vsvf_err_event VS_TBL_ORDER_ERR_EID en p 11] else []),
      ret⟩ σ2) :
    VReach ⟨.gnum lo :: .gnum hi :: .gnum p :: .gnum en :: a,
      .gpc ret :: c, q, hd, vsvf_strings, 24, obuf [], 0, e,
      VALIDATE_ORDER⟩ σ2 := by
  refine vr_lt rfl (by decide) (by simp only [List.length_cons]; omega) ?_
  by_cases h : decide (hi < lo) = true
  · rw [h]
    refine vr_jmpift rfl (by decide) (by decide) (by decide) ?_
    refine vr_roll2 rfl (by decide) ?_
    refine vr_pushs rfl (by decide) (by simp only [List.length_cons]; omega) ?_
    refine vr_roll3 rfl (by decide) ?_
    refine vr_pushn rfl (by decide) (by simp only [List.length_cons]; omega) ?_
    refine vr_roll4 rfl (by decide) ?_
    refine vr_call rfl (by decide) (by decide) (by simp only [List.length_cons]; omega) ?_
    refine vr_EMIT_ERROR he (by decide) (by simp only [List.length_cons]; omega) ?_
    refine vr_pushb rfl (by decide) (by simp only [List.length_cons]; omega) ?_
    refine vr_return rfl (by decide) ?_
    exact vreach_of_eq (by simp [h]) hk
  · rw [Bool.not_eq_true] at h
    rw [h]
    refine vr_jmpiff rfl (by decide) (by decide) ?_
    refine vr_pop2 rfl (by decide) ?_
    refine vr_pushb rfl (by decide) (by simp only [List.length_cons]; omega) ?_
    refine vr_return rfl (by decide) ?_
    exact vreach_of_eq (by simp [h]) hk

/-- Symbolic execution of the `VALIDATE_EXTRA` subroutine. -/
theorem vr_VALIDATE_EXTRA {u p en : Nat} {a c : List grunt_value}
    {q : List Nat} {hd : Nat} {e : List GruntEvent} {ret : Nat}
    {σ2 : VMState}
    (he : en < 10)
    (hcap : a.length + c.length + 10 ≤ GRUNT_STACK_SIZE)
    (hk : VReach ⟨.gbool (decide (0 = u)) :: a, c, q, hd,
      vsvf_strings, 24, obuf [], 0,
      e ++ (if decide (0 = u) then []
        else [vsvf_err_event VS_TBL_EXTRA_ERR_EID en p 12]), ret⟩ σ2) :
    VReach ⟨.gnum u :: .gnum p :: .gnum en :: a, .gpc ret :: c, q, hd,
      vsvf_strings, 24, obuf [], 0, e, VALIDATE_EXTRA⟩ σ2 := by
  refine vr_pushn rfl (by decide) (by simp only [List.length_cons]; omega) ?_
  refine vr_eq2 rfl (by decide) (by simp only [List.length_cons]; omega) ?_
  refine vr_not rfl (by decide) (by simp only [List.length_cons]; omega) ?_
  by_cases h : decide (0 = u) = true
  · rw [h]
    refine vr_jmpiff rfl (by decide) (by decide) ?_
    refine vr_pop2 rfl (by decide) ?_
    refine vr_pushb rfl (by decide) (by simp only [List.length_cons]; omega) ?_
    refine vr_return rfl (by decide) ?_
    exact vreach_of_eq (by simp [h]) hk
  · rw [Bool.not_eq_true] at h
    rw [h]
    refine vr_jmpift rfl (by decide) (by decide) (by decide) ?_
    refine vr_roll2 rfl (by decide) ?_
    refine vr_pushs rfl (by decide) (by simp only [List.length_cons]; omega) ?_
    refine vr_roll3 rfl (by decide) ?_
    refine vr_pushn rfl (by decide) (by simp only [List.length_cons]; omega) ?_
    refine vr_roll4 rfl (by decide) ?_
    refine vr_call rfl (by decide) (by decide) (by simp only [List.length_cons]; omega) ?_
    refine vr_EMIT_ERROR he (by decide) (by simp only [List.length_cons]; omega) ?_
    refine vr_pushb rfl (by decide) (by simp only [List.length_cons]; omega) ?_
    refine vr_return rfl (by decide) ?_
    exact vreach_of_eq (by simp [h]) hk

/-- Symbolic execution of the `VALIDATE_REDEF` subroutine. -/
theorem vr_VALIDATE_REDEF {p en s1 s2 s3 : Nat}
    {a c : List grunt_value} {q : List Nat} {hd : Nat}
    {e : List GruntEvent} {ret : Nat} {σ2 : VMState}
    (he : en < 10)
    (hcap : a.length + c.length + 10 ≤ GRUNT_STACK_SIZE)
    (hk : VReach ⟨.gbool (!vsvf_redef p s1 s2 s3) :: a, c, q, hd,
      vsvf_strings, 24, obuf [], 0,
      e ++ (if vsvf_redef p s1 s2 s3 then
        [vsvf_err_event VS_TBL_REDEF_ERR_EID en p 13] else []),
      ret⟩ σ2) :
    VReach ⟨.gnum p :: .gnum en :: .gnum s3 :: .gnum s2 :: .gnum s1 :: a,
      .gpc ret :: c, q, hd, vsvf_strings, 24, obuf [], 0, e,
      VALIDATE_REDEF⟩ σ2 := by
  refine vr_dup1 rfl (by decide) (by simp only [List.length_cons]; omega) ?_
  refine vr_roll5 rfl (by decide) ?_
  refine vr_dup1 rfl (by decide) (by simp only [List.length_cons]; omega) ?_
  refine vr_roll4 rfl (by decide) ?_
  refine vr_dup1 rfl (by decide) (by simp only [List.length_cons]; omega) ?_
  refine vr_roll3 rfl (by decide) ?_
  refine vr_roll8 rfl (by decide) ?_
  refine vr_roll8 rfl (by decide) ?_
  refine vr_eq2 rfl (by decide) (by simp only [List.length_cons]; omega) ?_
  refine vr_roll5 rfl (by decide) ?_
  refine vr_eq2 rfl (by decide) (by simp only [List.length_cons]; omega) ?_
  refine vr_roll3 rfl (by decide) ?_
  refine vr_eq2 rfl (by decide) (by simp only [List.length_cons]; omega) ?_
  refine vr_or3 rfl (by decide) (by simp only [List.length_cons]; omega) ?_
  rw [show ((decide (p = s1) || decide (p = s2)) || decide (p = s3)) =
    vsvf_redef p s1 s2 s3 from rfl]
  by_cases h : vsvf_redef p s1 s2 s3 = true
  · rw [h]
    refine vr_jmpift rfl (by decide) (by decide) (by decide) ?_
    refine vr_roll2 rfl (by decide) ?_
    refine vr_pushs rfl (by decide) (by simp only [List.length_cons]; omega) ?_
    refine vr_roll3 rfl (by decide) ?_
    refine vr_pushn rfl (by decide) (by simp only [List.length_cons]; omega) ?_
    refine vr_roll4 rfl (by decide) ?_
    refine vr_call rfl (by decide) (by decide) (by simp only [List.length_cons]; omega) ?_
    refine vr_EMIT_ERROR he (by decide) (by simp only [List.length_cons]; omega) ?_
    refine vr_pushb rfl (by decide) (by simp only [List.length_cons]; omega) ?_
    refine vr_return rfl (by decide) ?_
    exact vreach_of_eq (by simp [h]) hk
  · rw [Bool.not_eq_true] at h
    rw [h]
    refine vr_jmpiff rfl (by decide) (by decide) ?_
    refine vr_pop2 rfl (by decide) ?_
    refine vr_pushb rfl (by decide) (by simp only [List.length_cons]; omega) ?_
    refine vr_return rfl (by decide) ?_
    exact vreach_of_eq (by simp [h]) hk

/-- Symbolic execution of the `VALIDATE_UNUSED` subroutine. -/
theorem vr_VALIDATE_UNUSED {k p en : Nat} {a c : List grunt_value}
    {q : List Nat} {e : List GruntEvent} {ret : Nat} {σ2 : VMState}
    (he : en < 10)
    (himg : 12 * k + 12 ≤ q.length)
    (hcap : a.length + c.length + 10 ≤ GRUNT_STACK_SIZE)
    (hk : VReach ⟨.gbool (vsvf_unused_ok q k) :: a, c, q, 12 * k + 12,
      vsvf_strings, 24, obuf [], 0,
      e ++ (if vsvf_unused_ok q k then []
        else [vsvf_err_event VS_TBL_ZERO_ERR_EID en p 6]), ret⟩ σ2) :
    VReach ⟨.gnum p :: .gnum en :: a, .gpc ret :: c, q, 12 * k + 1,
      vsvf_strings, 24, obuf [], 0, e, VALIDATE_UNUSED⟩ σ2 := by
  refine vr_input1 rfl (by decide) (by omega) (by simp only [List.length_cons]; omega) ?_
  refine vr_input2 rfl (by decide) (by omega) (by simp only [List.length_cons]; omega) ?_
  refine vr_input4 rfl (by decide) (by omega) (by simp only [List.length_cons]; omega) ?_
  refine vr_input4 rfl (by decide) (by omega) (by simp only [List.length_cons]; omega) ?_
  refine vr_pushn rfl (by decide) (by simp only [List.length_cons]; omega) ?_
  refine vr_eq5 rfl (by decide) (by simp only [List.length_cons]; omega) ?_
  rw [show (((decide (0 = grunt_le q (12 * k + 1 + 1 + 2 + 4) 4) &&
      decide (0 = grunt_le q (12 * k + 1 + 1 + 2) 4)) &&
      decide (0 = grunt_le q (12 * k + 1 + 1) 2)) &&
      decide (0 = grunt_le q (12 * k + 1) 1)) = vsvf_unused_ok q k
    from rfl]
  by_cases h : vsvf_unused_ok q k = true
  · rw [h]
    refine vr_jmpift rfl (by decide) (by decide) (by decide) ?_
    refine vr_pop2 rfl (by decide) ?_
    refine vr_pushb rfl (by decide) (by simp only [List.length_cons]; omega) ?_
    refine vr_return rfl (by decide) ?_
    exact vreach_of_eq (by simp [h]) hk
  · rw [Bool.not_eq_true] at h
    rw [h]
    refine vr_jmpiff rfl (by decide) (by decide) ?_
    refine vr_roll2 rfl (by decide) ?_
    refine vr_pushn rfl (by decide) (by simp only [List.length_cons]; omega) ?_
    refine vr_roll3 rfl (by decide) ?_
    refine vr_pushs rfl (by decide) (by simp only [List.length_cons]; omega) ?_
    refine vr_roll3 rfl (by decide) ?_
    refine vr_call rfl (by decide) (by decide) (by simp only [List.length_cons]; omega) ?_
    refine vr_EMIT_ERROR he (by decide) (by simp only [List.length_cons]; omega) ?_
    refine vr_pushb rfl (by decide) (by simp only [List.length_cons]; omega) ?_
    refine vr_return rfl (by decide) ?_
    exact vreach_of_eq (by simp [h]) hk

/-- Symbolic execution of the `VALIDATE_BOUNDS` subroutine: validates
both bounds against the range and their order, emitting LBND, HBND and
ORDER errors in that sequence. -/
theorem vr_VALIDATE_BOUNDS {k mn mx p en : Nat}
    {a c : List grunt_value} {q : List Nat} {e : List GruntEvent}
    {ret : Nat} {σ2 : VMState}
    (he : en < 10)
    (himg : 12 * k + 12 ≤ q.length)
    (hcap : a.length + c.length + 18 ≤ GRUNT_STACK_SIZE)
    (hk : VReach ⟨.gbool ((!vsvf_order_bad q k &&
        !vsvf_range_bad mn mx (vsvf_lbnd q k)) &&
        !vsvf_range_bad mn mx (vsvf_hbnd q k)) :: a, c, q, 12 * k + 12,
      vsvf_strings, 24, obuf [], 0,
      ((e ++ (if vsvf_range_bad mn mx (vsvf_lbnd q k) then
          [vsvf_err_event VS_TBL_LBND_ERR_EID en p 9] else [])) ++
        (if vsvf_range_bad mn mx (vsvf_hbnd q k) then
          [vsvf_err_event VS_TBL_HBND_ERR_EID en p 10] else [])) ++
        (if vsvf_order_bad q k then
          [vsvf_err_event VS_TBL_ORDER_ERR_EID en p 11] else []),
      ret⟩ σ2) :
    VReach ⟨.gnum mn :: .gnum mx :: .gnum p :: .gnum en :: a,
      .gpc ret :: c, q, 12 * k + 4, vsvf_strings, 24, obuf [], 0, e,
      VALIDATE_BOUNDS⟩ σ2 := by
  refine vr_dup4 rfl (by decide) (by simp only [List.length_cons]; omega) ?_
  refine vr_input4 rfl (by decide) (by omega) (by simp only [List.length_cons]; omega) ?_
  refine vr_dup1 rfl (by decide) (by simp only [List.length_cons]; omega) ?_
  refine vr_roll10 rfl (by decide) ?_
  refine vr_pushn rfl (by decide) (by simp only [List.length_cons]; omega) ?_
  refine vr_roll6 rfl (by decide) ?_
  refine vr_pushs rfl (by decide) (by simp only [List.length_cons]; omega) ?_
  refine vr_roll6 rfl (by decide) ?_
  refine vr_call rfl (by decide) (by decide) (by simp only [List.length_cons]; omega) ?_
  refine vr_VALIDATE_RANGE he (by decide) (by simp only [List.length_cons]; omega) ?_
  refine vr_roll6 rfl (by decide) ?_
  refine vr_dup4 rfl (by decide) (by simp only [List.length_cons]; omega) ?_
  refine vr_input4 rfl (by decide) (by omega) (by simp only [List.length_cons]; omega) ?_
  refine vr_dup1 rfl (by decide) (by simp only [List.length_cons]; omega) ?_
  refine vr_roll11 rfl (by decide) ?_
  refine vr_pushn rfl (by decide) (by simp only [List.length_cons]; omega) ?_
  refine vr_roll6 rfl (by decide) ?_
  refine vr_pushs rfl (by decide) (by simp only [List.length_cons]; omega) ?_
  refine vr_roll6 rfl (by decide) ?_
  refine vr_call rfl (by decide) (by decide) (by simp only [List.length_cons]; omega) ?_
  refine vr_VALIDATE_RANGE he (by decide) (by simp only [List.length_cons]; omega) ?_
  refine vr_roll8 rfl (by decide) ?_
  refine vr_pop2 rfl (by decide) ?_
  refine vr_roll4 rfl (by decide) ?_
  refine vr_roll4 rfl (by decide) ?_
  refine vr_call rfl (by decide) (by decide) (by simp only [List.length_cons]; omega) ?_
  refine vr_VALIDATE_ORDER he (by simp only [List.length_cons]; omega) ?_
  refine vr_and3 rfl (by decide) (by simp only [List.length_cons]; omega) ?_
  exact vr_return rfl (by decide) hk

/-- Symbolic execution of the `VALIDATE_INUSE` subroutine: runs the
PAD, BOUNDS (LBND/HBND/ORDER), EXTRA and REDEF checks in program order
and combines their verdicts with `AND 4`. -/
theorem vr_VALIDATE_INUSE {k mn mx p en u s1 s2 s3 : Nat}
    {a c : List grunt_value} {q : List Nat} {e : List GruntEvent}
    {ret : Nat} {σ2 : VMState}
    (he : en < 10)
    (himg : 12 * k + 12 ≤ q.length)
    (hcap : a.length + c.length + 26 ≤ GRUNT_STACK_SIZE)
    (hk : VReach ⟨.gbool (((!vsvf_redef p s1 s2 s3 &&
        ((!vsvf_order_bad q k &&
            !vsvf_range_bad mn mx (vsvf_lbnd q k)) &&
          !vsvf_range_bad mn mx (vsvf_hbnd q k))) &&
        decide (0 = u)) && vsvf_pad_ok q k) :: a, c, q, 12 * k + 12,
      vsvf_strings, 24, obuf [], 0,
      (((((e ++ (if vsvf_pad_ok q k then []
          else [vsvf_err_event VS_TBL_PAD_ERR_EID en p 8])) ++
        (if vsvf_range_bad mn mx (vsvf_lbnd q k) then
          [vsvf_err_event VS_TBL_LBND_ERR_EID en p 9] else [])) ++
        (if vsvf_range_bad mn mx (vsvf_hbnd q k) then
          [vsvf_err_event VS_TBL_HBND_ERR_EID en p 10] else [])) ++
        (if vsvf_order_bad q k then
          [vsvf_err_event VS_TBL_ORDER_ERR_EID en p 11] else [])) ++
        (if decide (0 = u) then []
          else [vsvf_err_event VS_TBL_EXTRA_ERR_EID en p 12])) ++
        (if vsvf_redef p s1 s2 s3 then
          [vsvf_err_event VS_TBL_REDEF_ERR_EID en p 13] else []),
      ret⟩ σ2) :
    VReach ⟨.gnum mn :: .gnum mx :: .gnum p :: .gnum en :: .gnum u ::
      .gnum s3 :: .gnum s2 :: .gnum s1 :: a, .gpc ret :: c, q,
      12 * k + 1, vsvf_strings, 24, obuf [], 0, e, VALIDATE_INUSE⟩
      σ2 := by
  refine vr_roll8 rfl (by decide) ?_
  refine vr_roll8 rfl (by decide) ?_
  refine vr_dup2 rfl (by decide) (by simp only [List.length_cons]; omega) ?_
  refine vr_call rfl (by decide) (by decide) (by simp only [List.length_cons]; omega) ?_
  refine vr_VALIDATE_PAD he (by omega) (by simp only [List.length_cons]; omega) ?_
  refine vr_roll9 rfl (by decide) ?_
  refine vr_dup2 rfl (by decide) (by simp only [List.length_cons]; omega) ?_
  refine vr_roll10 rfl (by decide) ?_
  refine vr_roll10 rfl (by decide) ?_
  refine vr_roll10 rfl (by decide) ?_
  refine vr_roll10 rfl (by decide) ?_
  refine vr_roll10 rfl (by decide) ?_
  refine vr_roll10 rfl (by decide) ?_
  refine vr_roll10 rfl (by decide) ?_
  refine vr_roll10 rfl (by decide) ?_
  refine vr_call rfl (by decide) (by decide) (by simp only [List.length_cons]; omega) ?_
  refine vr_VALIDATE_BOUNDS he (by omega) (by simp only [List.length_cons]; omega) ?_
  refine vr_roll7 rfl (by decide) ?_
  refine vr_dup2 rfl (by decide) (by simp only [List.length_cons]; omega) ?_
  refine vr_roll5 rfl (by decide) ?_
  refine vr_roll5 rfl (by decide) ?_
  refine vr_roll3 rfl (by decide) ?_
  refine vr_roll3 rfl (by decide) ?_
  refine vr_call rfl (by decide) (by decide) (by simp only [List.length_cons]; omega) ?_
  refine vr_VALIDATE_EXTRA he (by simp only [List.length_cons]; omega) ?_
  refine vr_roll7 rfl (by decide) ?_
  refine vr_call rfl (by decide) (by decide) (by simp only [List.length_cons]; omega) ?_
  refine vr_VALIDATE_REDEF he (by simp only [List.length_cons]; omega) ?_
  refine vr_and4 rfl (by decide) (by simp only [List.length_cons]; omega) ?_
  exact vr_return rfl (by decide) hk

/-- Symbolic execution of the `VALIDATE_ENTRY` subroutine: reads entry
`k`'s fields, dispatches on the parameter id, emits exactly the entry's
reference events, updates the unused/valid counters per the reference
predicates, and leaves the raw parameter id on the stack. -/
theorem vr_VALIDATE_ENTRY (k : Nat) {u v s1 s2 s3 : Nat}
    {a c : List grunt_value} {q : List Nat} {e : List GruntEvent}
    {ret : Nat} {σ2 : VMState}
    (he : k + 1 < 10)
    (himg : 12 * k + 12 ≤ q.length)
    (hun : u + 1 ≤ GRUNT_NUM_MAX)
    (hvn : v + 1 ≤ GRUNT_NUM_MAX)
    (hcap : a.length + c.length + 30 ≤ GRUNT_STACK_SIZE)
    (hk : VReach ⟨.gnum (vsvf_parm q k) ::
      .gnum (v + if vsvf_entry_valid_at q k u s1 s2 s3 then 1 else 0) ::
      .gnum (u + if vsvf_entry_unused_inc q k then 1 else 0) :: a, c, q,
      12 * k + 12, vsvf_strings, 24, obuf [], 0,
      e ++ vsvf_entry_events_at q k u s1 s2 s3, ret⟩ σ2) :
    VReach ⟨.gnum (k + 1) :: .gnum s3 :: .gnum s2 :: .gnum s1 ::
      .gnum v :: .gnum u :: a, .gpc ret :: c, q, 12 * k, vsvf_strings,
      24, obuf [], 0, e, VALIDATE_ENTRY⟩ σ2 := by
  refine vr_input1 rfl (by decide) (by omega) (by simp only [List.length_cons]; omega) ?_
  rw [show grunt_le q (12 * k) 1 = vsvf_parm q k from rfl]
  refine vr_dup1 rfl (by decide) (by simp only [List.length_cons]; omega) ?_
  refine vr_roll6 rfl (by decide) ?_
  refine vr_dup1 rfl (by decide) (by simp only [List.length_cons]; omega) ?_
  refine vr_call rfl (by decide) (by decide) (by simp only [List.length_cons]; omega) ?_
  refine vr_IS_UNUSED (by simp only [List.length_cons]; omega) ?_
  by_cases hp0 : vsvf_parm q k = 0
  · rw [decide_eq_true (show VS_PARM_UNUSED = vsvf_parm q k
      by unfold VS_PARM_UNUSED; omega)]
    refine vr_not rfl (by decide) (by simp only [List.length_cons]; omega) ?_
    refine vr_jmpiff rfl (by decide) (by decide) ?_
    refine vr_roll5 rfl (by decide) ?_
    refine vr_roll5 rfl (by decide) ?_
    refine vr_pop3 rfl (by decide) ?_
    refine vr_call rfl (by decide) (by decide) (by simp only [List.length_cons]; omega) ?_
    refine vr_VALIDATE_UNUSED he (by omega) (by simp only [List.length_cons]; omega) ?_
    by_cases hz : vsvf_unused_ok q k = true
    · rw [hz]
      refine vr_jmpift rfl (by decide) (by decide) (by decide) ?_
      refine vr_call rfl (by decide) (by decide) (by simp only [List.length_cons]; omega) ?_
      refine vr_INC_UNUSED hun (by simp only [List.length_cons]; omega) ?_
      refine vr_return rfl (by decide) ?_
      exact vreach_of_eq (by simp [vsvf_entry_valid_at, vsvf_entry_unused_inc, vsvf_entry_events_at, vsvf_inuse_events, List.append_assoc, hp0, hz]) hk
    · rw [Bool.not_eq_true] at hz
      rw [hz]
      refine vr_jmpiff rfl (by decide) (by decide) ?_
      refine vr_return rfl (by decide) ?_
      exact vreach_of_eq (by simp [vsvf_entry_valid_at, vsvf_entry_unused_inc, vsvf_entry_events_at, vsvf_inuse_events, List.append_assoc, hp0, hz]) hk
  · rw [decide_eq_false (show ¬(VS_PARM_UNUSED = vsvf_parm q k)
      by unfold VS_PARM_UNUSED; omega)]
    refine vr_not rfl (by decide) (by simp only [List.length_cons]; omega) ?_
    refine vr_jmpift rfl (by decide) (by decide) (by decide) ?_
    refine vr_roll8 rfl (by decide) ?_
    refine vr_roll8 rfl (by decide) ?_
    refine vr_roll8 rfl (by decide) ?_
    refine vr_roll8 rfl (by decide) ?_
    refine vr_roll8 rfl (by decide) ?_
    refine vr_roll8 rfl (by decide) ?_
    refine vr_roll8 rfl (by decide) ?_
    refine vr_dup1 rfl (by decide) (by simp only [List.length_cons]; omega) ?_
    refine vr_roll9 rfl (by decide) ?_
    refine vr_roll3 rfl (by decide) ?_
    refine vr_dup1 rfl (by decide) (by simp only [List.length_cons]; omega) ?_
    refine vr_call rfl (by decide) (by decide) (by simp only [List.length_cons]; omega) ?_
    refine vr_IS_ANIMAL (by simp only [List.length_cons]; omega) ?_
    by_cases ha : vsvf_is_animal (vsvf_parm q k) = true
    · rw [ha]
      refine vr_not rfl (by decide) (by simp only [List.length_cons]; omega) ?_
      refine vr_jmpiff rfl (by decide) (by decide) ?_
      refine vr_pushn rfl (by decide) (by simp only [List.length_cons]; omega) ?_
      refine vr_pushn rfl (by decide) (by simp only [List.length_cons]; omega) ?_
      refine vr_call rfl (by decide) (by decide) (by simp only [List.length_cons]; omega) ?_
      refine vr_VALIDATE_INUSE he (by omega) (by simp only [List.length_cons]; omega) ?_
      rw [show (((!vsvf_redef (vsvf_parm q k) s1 s2 s3 &&
        ((!vsvf_order_bad q k && !vsvf_range_bad VS_PARM_ANIMAL_MIN
            VS_PARM_ANIMAL_MAX (vsvf_lbnd q k)) &&
          !vsvf_range_bad VS_PARM_ANIMAL_MIN VS_PARM_ANIMAL_MAX
            (vsvf_hbnd q k))) && decide (0 = u)) && vsvf_pad_ok q k) =
        vsvf_inuse_ok q k u s1 s2 s3 VS_PARM_ANIMAL_MIN
          VS_PARM_ANIMAL_MAX from rfl]
      by_cases hio : vsvf_inuse_ok q k u s1 s2 s3 VS_PARM_ANIMAL_MIN
        VS_PARM_ANIMAL_MAX = true
      · rw [hio]
        refine vr_jmpift rfl (by decide) (by decide) (by decide) ?_
        refine vr_call rfl (by decide) (by decide) (by simp only [List.length_cons]; omega) ?_
        refine vr_INC_VALID hvn (by simp only [List.length_cons]; omega) ?_
        refine vr_return rfl (by decide) ?_
        exact vreach_of_eq (by simp [vsvf_entry_valid_at, vsvf_entry_unused_inc, vsvf_entry_events_at, vsvf_inuse_events, List.append_assoc, hp0, ha, hio]) hk
      · rw [Bool.not_eq_true] at hio
        rw [hio]
        refine vr_jmpiff rfl (by decide) (by decide) ?_
        refine vr_return rfl (by decide) ?_
        exact vreach_of_eq (by simp [vsvf_entry_valid_at, vsvf_entry_unused_inc, vsvf_entry_events_at, vsvf_inuse_events, List.append_assoc, hp0, ha, hio]) hk
    · rw [Bool.not_eq_true] at ha
      rw [ha]
      refine vr_not rfl (by decide) (by simp only [List.length_cons]; omega) ?_
      refine vr_jmpift rfl (by decide) (by decide) (by decide) ?_
      refine vr_dup1 rfl (by decide) (by simp only [List.length_cons]; omega) ?_
      refine vr_call rfl (by decide) (by decide) (by simp only [List.length_cons]; omega) ?_
      refine vr_IS_DIRECTION (by simp only [List.length_cons]; omega) ?_
      by_cases hdv : vsvf_is_direction (vsvf_parm q k) = true
      · rw [hdv]
        refine vr_not rfl (by decide) (by simp only [List.length_cons]; omega) ?_
        refine vr_jmpiff rfl (by decide) (by decide) ?_
        refine vr_pushn rfl (by decide) (by simp only [List.length_cons]; omega) ?_
        refine vr_pushn rfl (by decide) (by simp only [List.length_cons]; omega) ?_
        refine vr_call rfl (by decide) (by decide) (by simp only [List.length_cons]; omega) ?_
        refine vr_VALIDATE_INUSE he (by omega) (by simp only [List.length_cons]; omega) ?_
        rw [show (((!vsvf_redef (vsvf_parm q k) s1 s2 s3 &&
          ((!vsvf_order_bad q k && !vsvf_range_bad VS_PARM_DIRECTION_MIN
              VS_PARM_DIRECTION_MAX (vsvf_lbnd q k)) &&
            !vsvf_range_bad VS_PARM_DIRECTION_MIN VS_PARM_DIRECTION_MAX
              (vsvf_hbnd q k))) && decide (0 = u)) &&
          vsvf_pad_ok q k) = vsvf_inuse_ok q k u s1 s2 s3
            VS_PARM_DIRECTION_MIN VS_PARM_DIRECTION_MAX from rfl]
        by_cases hio : vsvf_inuse_ok q k u s1 s2 s3 VS_PARM_DIRECTION_MIN
          VS_PARM_DIRECTION_MAX = true
        · rw [hio]
          refine vr_jmpift rfl (by decide) (by decide) (by decide) ?_
          refine vr_call rfl (by decide) (by decide) (by simp only [List.length_cons]; omega) ?_
          refine vr_INC_VALID hvn (by simp only [List.length_cons]; omega) ?_
          refine vr_return rfl (by decide) ?_
          exact vreach_of_eq (by simp [vsvf_entry_valid_at, vsvf_entry_unused_inc, vsvf_entry_events_at, vsvf_inuse_events, List.append_assoc, hp0, ha, hdv, hio]) hk
        · rw [Bool.not_eq_true] at hio
          rw [hio]
          refine vr_jmpiff rfl (by decide) (by decide) ?_
          refine vr_return rfl (by decide) ?_
          exact vreach_of_eq (by simp [vsvf_entry_valid_at, vsvf_entry_unused_inc, vsvf_entry_events_at, vsvf_inuse_events, List.append_assoc, hp0, ha, hdv, hio]) hk
      · rw [Bool.not_eq_true] at hdv
        rw [hdv]
        refine vr_not rfl (by decide) (by simp only [List.length_cons]; omega) ?_
        refine vr_jmpift rfl (by decide) (by decide) (by decide) ?_
        refine vr_pop1 rfl (by decide) ?_
        refine vr_roll5 rfl (by decide) ?_
        refine vr_pop4 rfl (by decide) ?_
        refine vr_call rfl (by decide) (by decide) (by simp only [List.length_cons]; omega) ?_
        refine vr_HANDLE_PARMERR he (by omega) (by simp only [List.length_cons]; omega) ?_
        refine vr_return rfl (by decide) ?_
        exact vreach_of_eq (by simp [vsvf_entry_valid_at, vsvf_entry_unused_inc, vsvf_entry_events_at, vsvf_inuse_events, List.append_assoc, hp0, ha, hdv]) hk

/-- The unused counter never exceeds the number of entries seen. -/
theorem vsvf_ucount_le (img : List Nat) : ∀ k, vsvf_ucount img k ≤ k := by
  intro k
  induction k with
  | zero => simp [vsvf_ucount]
  | succ k ih =>
    unfold vsvf_ucount
    split <;> omega

/-- The unused and valid counters together never exceed the number of
entries seen: an entry increments at most one of them. -/
theorem vsvf_counts_le (img : List Nat) :
    ∀ k, vsvf_ucount img k + vsvf_vcount img k ≤ k := by
  intro k
  induction k with
  | zero => simp [vsvf_ucount, vsvf_vcount]
  | succ k ih =>
    unfold vsvf_ucount vsvf_vcount
    by_cases h : vsvf_parm img k = 0
    · have hval : vsvf_entry_valid img k = false := by
        unfold vsvf_entry_valid vsvf_entry_valid_at
        simp [h]
      rw [hval, if_neg (show ¬(false = true) by simp)]
      split <;> omega
    · have hinc : vsvf_entry_unused_inc img k = false := by
        unfold vsvf_entry_unused_inc
        simp [h]
      rw [hinc, if_neg (show ¬(false = true) by simp)]
      split <;> omega

/-- Characterization of a full validator run: on any table image of at
least 48 bytes, the Grunt VM halts with the reference verdict, emits
exactly the reference event sequence, and leaves the interpreter in the
fully-drained state. -/
theorem grunt_run_vsvf (img : List Nat) (hlen : 48 ≤ img.length) :
    GRUNT_Run vsvf_program img vsvf_strings 24 =
      some ((if vsvf_verdict img then GRUNT_HALT_TRUE
          else GRUNT_HALT_FALSE),
        ⟨[], [], img, 48, vsvf_strings, 24, obuf [], 0, vsvf_events img,
          33⟩) := by
  refine grunt_run_of_vreach ?_
    (vreach_halt (show vsvf_program.getD 32 grunt_instruction.UNDEF =
      grunt_instruction.HALT from rfl) (by decide))
  refine vr_pushn rfl (by decide) (by simp only [List.length_cons, List.length_nil]; unfold GRUNT_STACK_SIZE; omega) ?_
  refine vr_pushn rfl (by decide) (by simp only [List.length_cons, List.length_nil]; unfold GRUNT_STACK_SIZE; omega) ?_
  refine vr_pushn rfl (by decide) (by simp only [List.length_cons, List.length_nil]; unfold GRUNT_STACK_SIZE; omega) ?_
  refine vr_pushn rfl (by decide) (by simp only [List.length_cons, List.length_nil]; unfold GRUNT_STACK_SIZE; omega) ?_
  refine vr_pushn rfl (by decide) (by simp only [List.length_cons, List.length_nil]; unfold GRUNT_STACK_SIZE; omega) ?_
  refine vr_pushn rfl (by decide) (by simp only [List.length_cons, List.length_nil]; unfold GRUNT_STACK_SIZE; omega) ?_
  refine vr_call rfl (by decide) (by decide) (by simp only [List.length_cons, List.length_nil]; unfold GRUNT_STACK_SIZE; omega) ?_
  refine vr_VALIDATE_ENTRY 0 (by decide) (by omega) (by unfold GRUNT_NUM_MAX; omega) (by unfold GRUNT_NUM_MAX; omega) (by simp only [List.length_cons, List.length_nil]; unfold GRUNT_STACK_SIZE; omega) ?_
  rw [show (0 + if vsvf_entry_valid_at img 0 0 VS_PARM_UNUSED VS_PARM_UNUSED VS_PARM_UNUSED
      then 1 else 0) = vsvf_vcount img 1 from rfl,
    show (0 + if vsvf_entry_unused_inc img 0 then 1 else 0) =
      vsvf_ucount img 1 from rfl,
    show vsvf_entry_events_at img 0 0 VS_PARM_UNUSED VS_PARM_UNUSED VS_PARM_UNUSED =
      vsvf_entry_events img 0 from rfl]

  rw [List.nil_append]
  refine vr_dup1 rfl (by decide) (by simp only [List.length_cons, List.length_nil]; unfold GRUNT_STACK_SIZE; omega) ?_
  refine vr_roll4 rfl (by decide) ?_
  refine vr_dup1 rfl (by decide) (by simp only [List.length_cons, List.length_nil]; unfold GRUNT_STACK_SIZE; omega) ?_
  refine vr_roll4 rfl (by decide) ?_
  refine vr_pushn rfl (by decide) (by simp only [List.length_cons, List.length_nil]; unfold GRUNT_STACK_SIZE; omega) ?_
  refine vr_pushn rfl (by decide) (by simp only [List.length_cons, List.length_nil]; unfold GRUNT_STACK_SIZE; omega) ?_
  refine vr_pushn rfl (by decide) (by simp only [List.length_cons, List.length_nil]; unfold GRUNT_STACK_SIZE; omega) ?_
  refine vr_call rfl (by decide) (by decide) (by simp only [List.length_cons, List.length_nil]; unfold GRUNT_STACK_SIZE; omega) ?_
  refine vr_VALIDATE_ENTRY 1 (by decide) (by omega) (by have := vsvf_ucount_le img 1; unfold GRUNT_NUM_MAX; omega) (by have := vsvf_counts_le img 1; unfold GRUNT_NUM_MAX; omega) (by simp only [List.length_cons, List.length_nil]; unfold GRUNT_STACK_SIZE; omega) ?_
  rw [show ((vsvf_vcount img 1) + if vsvf_entry_valid_at img 1 (vsvf_ucount img 1) (vsvf_parm img 0) VS_PARM_UNUSED VS_PARM_UNUSED
      then 1 else 0) = vsvf_vcount img 2 from rfl,
    show ((vsvf_ucount img 1) + if vsvf_entry_unused_inc img 1 then 1 else 0) =
      vsvf_ucount img 2 from rfl,
    show vsvf_entry_events_at img 1 (vsvf_ucount img 1) (vsvf_parm img 0) VS_PARM_UNUSED VS_PARM_UNUSED =
      vsvf_entry_events img 1 from rfl]

  refine vr_dup1 rfl (by decide) (by simp only [List.length_cons, List.length_nil]; unfold GRUNT_STACK_SIZE; omega) ?_
  refine vr_roll5 rfl (by decide) ?_
  refine vr_roll3 rfl (by decide) ?_
  refine vr_roll4 rfl (by decide) ?_
  refine vr_roll4 rfl (by decide) ?_
  refine vr_pushn rfl (by decide) (by simp only [List.length_cons, List.length_nil]; unfold GRUNT_STACK_SIZE; omega) ?_
  refine vr_pushn rfl (by decide) (by simp only [List.length_cons, List.length_nil]; unfold GRUNT_STACK_SIZE; omega) ?_
  refine vr_call rfl (by decide) (by decide) (by simp only [List.length_cons, List.length_nil]; unfold GRUNT_STACK_SIZE; omega) ?_
  refine vr_VALIDATE_ENTRY 2 (by decide) (by omega) (by have := vsvf_ucount_le img 2; unfold GRUNT_NUM_MAX; omega) (by have := vsvf_counts_le img 2; unfold GRUNT_NUM_MAX; omega) (by simp only [List.length_cons, List.length_nil]; unfold GRUNT_STACK_SIZE; omega) ?_
  rw [show ((vsvf_vcount img 2) + if vsvf_entry_valid_at img 2 (vsvf_ucount img 2) (vsvf_parm img 0) (vsvf_parm img 1) VS_PARM_UNUSED
      then 1 else 0) = vsvf_vcount img 3 from rfl,
    show ((vsvf_ucount img 2) + if vsvf_entry_unused_inc img 2 then 1 else 0) =
      vsvf_ucount img 3 from rfl,
    show vsvf_entry_events_at img 2 (vsvf_ucount img 2) (vsvf_parm img 0) (vsvf_parm img 1) VS_PARM_UNUSED =
      vsvf_entry_events img 2 from rfl]

  refine vr_roll3 rfl (by decide) ?_
  refine vr_roll5 rfl (by decide) ?_
  refine vr_roll5 rfl (by decide) ?_
  refine vr_pushn rfl (by decide) (by simp only [List.length_cons, List.length_nil]; unfold GRUNT_STACK_SIZE; omega) ?_
  refine vr_call rfl (by decide) (by decide) (by simp only [List.length_cons, List.length_nil]; unfold GRUNT_STACK_SIZE; omega) ?_
  refine vr_VALIDATE_ENTRY 3 (by decide) (by omega) (by have := vsvf_ucount_le img 3; unfold GRUNT_NUM_MAX; omega) (by have := vsvf_counts_le img 3; unfold GRUNT_NUM_MAX; omega) (by simp only [List.length_cons, List.length_nil]; unfold GRUNT_STACK_SIZE; omega) ?_
  rw [show ((vsvf_vcount img 3) + if vsvf_entry_valid_at img 3 (vsvf_ucount img 3) (vsvf_parm img 0) (vsvf_parm img 1) (vsvf_parm img 2)
      then 1 else 0) = vsvf_vcount img 4 from rfl,
    show ((vsvf_ucount img 3) + if vsvf_entry_unused_inc img 3 then 1 else 0) =
      vsvf_ucount img 4 from rfl,
    show vsvf_entry_events_at img 3 (vsvf_ucount img 3) (vsvf_parm img 0) (vsvf_parm img 1) (vsvf_parm img 2) =
      vsvf_entry_events img 3 from rfl]

  refine vr_pop1 rfl (by decide) ?_
  refine vr_call rfl (by decide) (by decide) (by simp only [List.length_cons, List.length_nil]; unfold GRUNT_STACK_SIZE; omega) ?_
  refine vr_COMPUTE_INVALID (by have := vsvf_counts_le img 4; omega)
    (by simp only [List.length_cons, List.length_nil]; unfold GRUNT_STACK_SIZE; omega) ?_
  rw [show (4 - (vsvf_ucount img 4 + vsvf_vcount img 4)) =
    vsvf_icount img from rfl]
  refine vr_call rfl (by decide) (by decide) (by simp only [List.length_cons, List.length_nil]; unfold GRUNT_STACK_SIZE; omega) ?_
  refine vr_COMPUTE_RESULT (by simp only [List.length_cons, List.length_nil]; unfold GRUNT_STACK_SIZE; omega) ?_
  rw [show (decide (0 = vsvf_icount img)) = vsvf_verdict img from rfl]
  refine vr_call rfl (by decide) (by decide) (by simp only [List.length_cons, List.length_nil]; unfold GRUNT_STACK_SIZE; omega) ?_
  refine vr_EMIT_INFO (by have := vsvf_counts_le img 4; omega)
    (by unfold vsvf_icount; omega)
    (by have := vsvf_ucount_le img 4; omega) (by simp only [List.length_cons, List.length_nil]; unfold GRUNT_STACK_SIZE; omega) ?_
  exact VReach.refl _

/-- The fuel `GRUNT_Run` grants a 421-instruction program comfortably
exceeds 500 steps. -/
theorem grunt_fuel_421_big : 500 ≤ grunt_fuel 421 := by
  unfold grunt_fuel
  have h : 422 ≤ 422 ^ 33 := Nat.le_self_pow (by decide) 422
  have h2 : 421 * 422 ≤ 421 * 422 ^ 33 := Nat.mul_le_mul_left 421 h
  omega

/-- A run-loop result found with small fuel is the result of
`GRUNT_Run` on the validator program. -/
theorem grunt_run_from_fuel (img : List Nat) (strs : List String)
    (ns : Nat) {f : Nat} {r : Nat × VMState}
    (h : grunt_run_loop vsvf_program 421 f
      (grunt_vm_startup initialGlobals img strs ns) = some r)
    (hf : f ≤ grunt_fuel 421) :
    GRUNT_Run vsvf_program img strs ns = some r := by
  unfold GRUNT_Run GRUNT_Run_from
  rw [vsvf_length421]
  exact grunt_run_loop_mono h hf

set_option maxRecDepth 32768 in
/-- C1 (amended): on the all-unused table image -- four 12-byte records,
all 48 bytes zero -- the validator run emits exactly one event, id 0x0008
(`VS_VALIDATION_INF_EID`), severity INFORMATION, with line
`"Table image entries: 0 valid, 0 invalid, 4 unused"`, returns
`GRUNT_HALT_TRUE`, and the host validate callback returns `CFE_SUCCESS`. -/
theorem vsvf_all_unused_run :
    (GRUNT_Run vsvf_program (List.replicate 48 0) vsvf_strings 24).map
        (fun r => (r.1, r.2.events)) =
      some (GRUNT_HALT_TRUE,
        [⟨VS_VALIDATION_INF_EID, CFE_EVS_EventType_INFORMATION,
          "Table image entries: 0 valid, 0 invalid, 4 unused".data⟩]) ∧
    VSC_table_validate (List.replicate 48 0) = CFE_SUCCESS := by
  have hsome : (grunt_run_loop vsvf_program 421 500
      (grunt_vm_startup initialGlobals (List.replicate 48 0)
        vsvf_strings 24)).isSome = true := by decide
  obtain ⟨r, hr⟩ := Option.isSome_iff_exists.mp hsome
  have hg := grunt_run_from_fuel (List.replicate 48 0) vsvf_strings 24
    hr grunt_fuel_421_big
  have hmap : (some r).map (fun x => (x.1, x.2.events)) =
      some (GRUNT_HALT_TRUE,
        [⟨VS_VALIDATION_INF_EID, CFE_EVS_EventType_INFORMATION,
          "Table image entries: 0 valid, 0 invalid, 4 unused".data⟩]) := by
    rw [← hr]
    decide
  have hpair : (r.1, r.2.events) =
      (GRUNT_HALT_TRUE,
        [(⟨VS_VALIDATION_INF_EID, CFE_EVS_EventType_INFORMATION,
          "Table image entries: 0 valid, 0 invalid, 4 unused".data⟩ :
          GruntEvent)]) := by
    simpa using hmap
  constructor
  · rw [hg]
    exact hmap
  · have hr1 : r.1 = GRUNT_HALT_TRUE := congrArg Prod.fst hpair
    unfold VSC_table_validate
    rw [show VSVF_NUM_STRINGS = 24 from rfl, hg]
    obtain ⟨st, σ⟩ := r
    simp only at hr1
    rw [hr1]
    dsimp only
    rw [if_pos rfl]

set_option maxRecDepth 32768 in
/-- C1 (counterexample): on the 32-byte all-zero image that the original
claim describes (four 8-byte records), the run does not emit any event
and faults with `GRUNT_ERROR_OUTOFBOUNDS` instead of returning
`GRUNT_HALT_TRUE`: a table entry is 12 bytes, not 8, so the image is 16
bytes short and the input window runs dry. -/
theorem vsvf_all_unused_32byte_fault :
    (GRUNT_Run vsvf_program (List.replicate 32 0) vsvf_strings 24).map
        (fun r => (r.1, r.2.events)) =
      some (GRUNT_ERROR_OUTOFBOUNDS, []) ∧
    VSC_table_validate (List.replicate 32 0) =
      VSC_TABLE_INVALID_RESULT := by
  have hsome : (grunt_run_loop vsvf_program 421 500
      (grunt_vm_startup initialGlobals (List.replicate 32 0)
        vsvf_strings 24)).isSome = true := by decide
  obtain ⟨r, hr⟩ := Option.isSome_iff_exists.mp hsome
  have hg := grunt_run_from_fuel (List.replicate 32 0) vsvf_strings 24
    hr grunt_fuel_421_big
  have hmap : (some r).map (fun x => (x.1, x.2.events)) =
      some (GRUNT_ERROR_OUTOFBOUNDS, ([] : List GruntEvent)) := by
    rw [← hr]
    decide
  have hpair : (r.1, r.2.events) =
      (GRUNT_ERROR_OUTOFBOUNDS, ([] : List GruntEvent)) := by
    simpa using hmap
  constructor
  · rw [hg]
    exact hmap
  · have hr1 : r.1 = GRUNT_ERROR_OUTOFBOUNDS := congrArg Prod.fst hpair
    unfold VSC_table_validate
    rw [show VSVF_NUM_STRINGS = 24 from rfl, hg]
    obtain ⟨st, σ⟩ := r
    simp only at hr1
    rw [hr1]
    dsimp only
    rw [if_neg (by decide)]

/-- C2: every run of `GRUNT_Run` terminates with some result -- for any
prior interpreter state, any program expressible in the C API (its length
is a `grunt_pc_t`), any input image and any string table -- and that
result is a halt verdict or a fault, never the internal "keep running"
status. -/
theorem grunt_termination (g : VMState)
    (program : List grunt_instruction) (p_data : List Nat)
    (strs : List String) (ns : Nat)
    (hlen : program.length ≤ GRUNT_PC_MAX) :
    ∃ r : Nat × VMState,
      GRUNT_Run_from g program p_data strs ns = some r ∧ r.1 ≠ 0 :=
  GRUNT_Run_from_terminates g program p_data strs ns hlen

/-- Witness for C2 at a concrete program and image. -/
theorem grunt_termination_witness :
    vsvf_program.length ≤ GRUNT_PC_MAX ∧
    ∃ r : Nat × VMState,
      GRUNT_Run_from initialGlobals vsvf_program [] vsvf_strings 24 =
        some r ∧ r.1 ≠ 0 :=
  ⟨by rw [vsvf_length421]; decide,
    grunt_termination initialGlobals vsvf_program [] vsvf_strings 24
      (by rw [vsvf_length421]; decide)⟩

/-- C5: `FLUSH` pops the severity from the top of the argument stack and
the event id beneath it, appends the event
`emit(event_id, severity, line)` with the buffer's NUL-terminated line,
and resets the output buffer to all zero bytes with `tail = 0`; a
non-`Num` value in either position is `GRUNT_ERROR_INVALIDARGUMENT`. -/
theorem grunt_flush_semantics (sev eid : Nat) (bb : Bool) (si pc2 : Nat)
    (rest ctl : List grunt_value) (q : List Nat) (hd : Nat)
    (st : List String) (ns : Nat) (o : List Char) (t : Nat)
    (e : List GruntEvent) (p : Nat) :
    grunt_vm_flush ⟨.gnum sev :: .gnum eid :: rest, ctl, q, hd, st, ns,
        o, t, e, p⟩ =
      (0, ⟨rest, ctl, q, hd, st, ns,
        List.replicate OUTPUT_QUEUE_SIZE (Char.ofNat 0), 0,
        e ++ [⟨eid, sev, o.takeWhile (· ≠ Char.ofNat 0)⟩], p⟩) ∧
    (grunt_vm_flush ⟨.gbool bb :: rest, ctl, q, hd, st, ns, o, t, e,
      p⟩).1 = GRUNT_ERROR_INVALIDARGUMENT ∧
    (grunt_vm_flush ⟨.gstr si :: rest, ctl, q, hd, st, ns, o, t, e,
      p⟩).1 = GRUNT_ERROR_INVALIDARGUMENT ∧
    (grunt_vm_flush ⟨.gpc pc2 :: rest, ctl, q, hd, st, ns, o, t, e,
      p⟩).1 = GRUNT_ERROR_INVALIDARGUMENT ∧
    (grunt_vm_flush ⟨.gnum sev :: .gbool bb :: rest, ctl, q, hd, st, ns,
      o, t, e, p⟩).1 = GRUNT_ERROR_INVALIDARGUMENT ∧
    (grunt_vm_flush ⟨.gnum sev :: .gstr si :: rest, ctl, q, hd, st, ns,
      o, t, e, p⟩).1 = GRUNT_ERROR_INVALIDARGUMENT ∧
    (grunt_vm_flush ⟨.gnum sev :: .gpc pc2 :: rest, ctl, q, hd, st, ns,
      o, t, e, p⟩).1 = GRUNT_ERROR_INVALIDARGUMENT := by
  refine ⟨?_, rfl, rfl, rfl, rfl, rfl, rfl⟩
  unfold grunt_vm_flush grunt_stack_arg_pop grunt_output_flush
    grunt_output_reset
  rfl

/-- C8 (amended): `ADD` pushes the exact sum of the two popped numbers
unless it exceeds `GRUNT_NUM_MAX`, in which case it returns
`GRUNT_ERROR_OUTOFBOUNDS`; `SUB` subtracts the value popped first (the
old top of the stack) from the one beneath it and returns
`GRUNT_ERROR_OUTOFBOUNDS` when that difference would go below zero;
neither operation wraps modulo `2 ^ 32`. -/
theorem grunt_add_sub_no_wrap (na nb : Nat) (rest ctl : List grunt_value)
    (q : List Nat) (hd : Nat) (st : List String) (ns : Nat)
    (o : List Char) (t : Nat) (e : List GruntEvent) (p : Nat)
    (hna : na ≤ GRUNT_NUM_MAX) (hnb : nb ≤ GRUNT_NUM_MAX)
    (hcap : rest.length + ctl.length + 1 ≤ GRUNT_STACK_SIZE) :
    (grunt_vm_add_sub true ⟨.gnum nb :: .gnum na :: rest, ctl, q, hd, st,
        ns, o, t, e, p⟩ =
      if na + nb ≤ GRUNT_NUM_MAX then
        (0, ⟨.gnum (na + nb) :: rest, ctl, q, hd, st, ns, o, t, e, p⟩)
      else (GRUNT_ERROR_OUTOFBOUNDS,
        ⟨rest, ctl, q, hd, st, ns, o, t, e, p⟩)) ∧
    (grunt_vm_add_sub false ⟨.gnum nb :: .gnum na :: rest, ctl, q, hd,
        st, ns, o, t, e, p⟩ =
      if nb ≤ na then
        (0, ⟨.gnum (na - nb) :: rest, ctl, q, hd, st, ns, o, t, e, p⟩)
      else (GRUNT_ERROR_OUTOFBOUNDS,
        ⟨rest, ctl, q, hd, st, ns, o, t, e, p⟩)) ∧
    GRUNT_NUM_MAX = 2 ^ 32 - 1 := by
  refine ⟨?_, ?_, rfl⟩
  · unfold grunt_vm_add_sub grunt_stack_arg_pop grunt_stack_arg_push
    dsimp only
    rw [if_pos (rfl : true = true)]
    by_cases hov : na + nb ≤ GRUNT_NUM_MAX
    · rw [if_neg (show ¬(nb > GRUNT_NUM_MAX - na) by omega), if_pos hov,
        if_neg (by omega)]
    · rw [if_pos (show nb > GRUNT_NUM_MAX - na by omega), if_neg hov]
  · unfold grunt_vm_add_sub grunt_stack_arg_pop grunt_stack_arg_push
    dsimp only
    rw [if_neg Bool.false_ne_true]
    by_cases hun : nb ≤ na
    · rw [if_neg (show ¬(na < nb) by omega), if_pos hun,
        if_neg (by omega)]
    · rw [if_pos (show na < nb by omega), if_neg hun]

/-- Witness for C8 at concrete operands. -/
theorem grunt_add_sub_no_wrap_witness :
    (3 ≤ GRUNT_NUM_MAX ∧ 2 ≤ GRUNT_NUM_MAX ∧
      ([] : List grunt_value).length + ([] : List grunt_value).length +
        1 ≤ GRUNT_STACK_SIZE) ∧
    (grunt_vm_add_sub true ⟨[.gnum 2, .gnum 3], [], [], 0, [], 0, [], 0,
        [], 0⟩ =
      if 3 + 2 ≤ GRUNT_NUM_MAX then
        (0, ⟨[.gnum (3 + 2)], [], [], 0, [], 0, [], 0, [], 0⟩)
      else (GRUNT_ERROR_OUTOFBOUNDS,
        ⟨[], [], [], 0, [], 0, [], 0, [], 0⟩)) := by
  refine ⟨⟨by decide, by decide, by decide⟩, ?_⟩
  exact (grunt_add_sub_no_wrap 3 2 [] [] [] 0 [] 0 [] 0 [] 0 (by decide)
    (by decide) (by decide)).1

/-- C8 (counterexample): with `Num(1)` on top of `Num(5)`, the claimed
contract `Num(a) Num(b) -- Num(a-b)` under the spec's own notation
("consumes `a` then `b` from the top") predicts `1 - 5`, an underflow
fault; the code instead subtracts the top from the value beneath it and
succeeds with `Num(4)`. -/
theorem grunt_sub_operand_order :
    grunt_vm_add_sub false ⟨[.gnum 1, .gnum 5], [], [], 0, [], 0, [], 0,
        [], 0⟩ =
      (0, ⟨[.gnum 4], [], [], 0, [], 0, [], 0, [], 0⟩) ∧
    (0 : Nat) ≠ GRUNT_ERROR_OUTOFBOUNDS := by
  constructor
  · decide
  · decide

/-- C9: no interpreter state persists from one run to the next:
`GRUNT_Run` reinitializes the stacks, input cursor, output buffer,
events and program counter on entry, so two runs from arbitrary prior
interpreter states produce identical results -- the same final status
and the same emitted event sequence. -/
theorem grunt_run_no_persistence (g1 g2 : VMState)
    (program : List grunt_instruction) (p_data : List Nat)
    (strs : List String) (ns : Nat) :
    GRUNT_Run_from g1 program p_data strs ns =
      GRUNT_Run_from g2 program p_data strs ns ∧
    (GRUNT_Run_from g1 program p_data strs ns).map (fun r => r.2.events) =
      (GRUNT_Run_from g2 program p_data strs ns).map
        (fun r => r.2.events) ∧
    (GRUNT_Run_from g1 program p_data strs ns).map (fun r => r.1) =
      (GRUNT_Run_from g2 program p_data strs ns).map (fun r => r.1) := by
  have hs : grunt_vm_startup g1 p_data strs ns =
      grunt_vm_startup g2 p_data strs ns := rfl
  unfold GRUNT_Run_from
  rw [hs]
  exact ⟨rfl, rfl, rfl⟩

/-- C10: `OUTPUT` on a `Str(i)` whose index is not below the number of
strings in the table returns `GRUNT_ERROR_INVALIDLITERAL` -- which is
neither `OutOfBounds` nor `InvalidArgument` -- and leaves the output
line buffer and its tail index unchanged. -/
theorem grunt_output_bad_string_index (i : Nat)
    (rest ctl : List grunt_value) (q : List Nat) (hd : Nat)
    (st : List String) (ns : Nat) (o : List Char) (t : Nat)
    (e : List GruntEvent) (p : Nat)
    (hS : ns ≤ i) :
    grunt_vm_output ⟨.gstr i :: rest, ctl, q, hd, st, ns, o, t, e, p⟩ =
      (GRUNT_ERROR_INVALIDLITERAL,
        ⟨rest, ctl, q, hd, st, ns, o, t, e, p⟩) ∧
    GRUNT_ERROR_INVALIDLITERAL ≠ GRUNT_ERROR_OUTOFBOUNDS ∧
    GRUNT_ERROR_INVALIDLITERAL ≠ GRUNT_ERROR_INVALIDARGUMENT := by
  refine ⟨?_, by decide, by decide⟩
  unfold grunt_vm_output grunt_stack_arg_pop grunt_output_enqueue_string
  dsimp only
  rw [if_pos (by omega)]

/-- Witness for C10 at a concrete out-of-range index. -/
theorem grunt_output_bad_string_index_witness :
    (3 : Nat) ≤ 5 ∧
    grunt_vm_output ⟨[.gstr 5], [], [], 0, ["a", "b", "c"], 3, [], 0,
        [], 0⟩ =
      (GRUNT_ERROR_INVALIDLITERAL,
        ⟨[], [], [], 0, ["a", "b", "c"], 3, [], 0, [], 0⟩) :=
  ⟨by decide,
    (grunt_output_bad_string_index 5 [] [] [] 0 ["a", "b", "c"] 3 [] 0
      [] 0 (by decide)).1⟩


/-- C6: a `CALL` whose PC literal is at or before the already-incremented
program counter faults with `NoLoops`; a successful `CALL` pushes the
incremented program counter onto the control stack (raising its height by
exactly one) and sets the program counter to the literal; and the
matching `RETURN` pops that frame -- restoring the control-stack height,
so the net height change of the pair is zero -- and resumes at one past
the `CALL` instruction. -/
theorem grunt_call_return (tgt p : Nat) (a c : List grunt_value)
    (q : List Nat) (hd : Nat) (st : List String) (ns : Nat) (o : List Char)
    (t : Nat) (e : List GruntEvent) (hpc : p + 1 < 2 ^ 16) :
    (tgt ≤ p →
      (grunt_vm_step (.CALL (.gpc tgt))
          ⟨a, c, q, hd, st, ns, o, t, e, p⟩).1 = GRUNT_ERROR_NOLOOPS) ∧
    (p < tgt → a.length + c.length + 1 ≤ GRUNT_STACK_SIZE →
      grunt_vm_step (.CALL (.gpc tgt)) ⟨a, c, q, hd, st, ns, o, t, e, p⟩ =
        (0, ⟨a, .gpc (p + 1) :: c, q, hd, st, ns, o, t, e, tgt⟩) ∧
      (grunt_value.gpc (p + 1) :: c).length = c.length + 1) ∧
    (∀ p2 : Nat, grunt_vm_step .RETURN
        ⟨a, .gpc (p + 1) :: c, q, hd, st, ns, o, t, e, p2⟩ =
      (0, ⟨a, c, q, hd, st, ns, o, t, e, p + 1⟩)) := by
  refine ⟨?_, ?_, ?_⟩
  · intro hle
    unfold grunt_vm_step grunt_vm_call
    dsimp only
    rw [Nat.mod_eq_of_lt hpc, if_pos (show tgt < p + 1 by omega)]
  · intro hgt hcap
    refine ⟨?_, by simp⟩
    unfold grunt_vm_step grunt_vm_call grunt_stack_ctl_push
    dsimp only
    rw [Nat.mod_eq_of_lt hpc]
    repeat rw [if_neg (by omega)]
    norm_num [if_neg (show ¬ GRUNT_STACK_SIZE < a.length + c.length + 1
      by omega)]
  · intro p2
    unfold grunt_vm_step grunt_vm_return grunt_stack_ctl_pop
    dsimp only
    rfl

theorem grunt_call_return_witness :
    (3 + 1 < 2 ^ 16) ∧
    ((7 ≤ 3 →
      (grunt_vm_step (.CALL (.gpc 7))
          ⟨[], [], [], 0, [], 0, [], 0, [], 3⟩).1 = GRUNT_ERROR_NOLOOPS) ∧
    (3 < 7 → List.length ([] : List grunt_value) +
        List.length ([] : List grunt_value) + 1 ≤ GRUNT_STACK_SIZE →
      grunt_vm_step (.CALL (.gpc 7)) ⟨[], [], [], 0, [], 0, [], 0, [], 3⟩ =
        (0, ⟨[], [.gpc 4], [], 0, [], 0, [], 0, [], 7⟩) ∧
      (grunt_value.gpc 4 :: ([] : List grunt_value)).length =
        List.length ([] : List grunt_value) + 1) ∧
    (∀ p2 : Nat, grunt_vm_step .RETURN
        ⟨[], [.gpc 4], [], 0, [], 0, [], 0, [], p2⟩ =
      (0, ⟨[], [], [], 0, [], 0, [], 0, [], 4⟩))) :=
  ⟨by decide, grunt_call_return 7 3 [] [] [] 0 [] 0 [] 0 [] (by decide)⟩

/-- C7: for `n ≥ 2` with at least `n` values on the argument stack,
`ROLL n` rotates the top `n` slots by one toward the top: the old top
value lands `n` deep while each of the `n - 1` values below it moves up
one position, and positions `n` and deeper are untouched; in particular
`roll(3)` turns `w x y z` (top last) into `w z x y`. -/
theorem grunt_roll_rotation (n : Nat) (v : grunt_value)
    (rest ctl : List grunt_value) (q : List Nat) (hd : Nat)
    (st : List String) (ns : Nat) (o : List Char) (t : Nat)
    (e : List GruntEvent) (p : Nat)
    (hn : 2 ≤ n) (hlen : n ≤ (v :: rest).length) :
    grunt_vm_roll n ⟨v :: rest, ctl, q, hd, st, ns, o, t, e, p⟩ =
      (0, ⟨rest.take (n - 1) ++ v :: rest.drop (n - 1), ctl, q, hd, st,
        ns, o, t, e, p⟩) ∧
    (∀ j, j + 1 < n →
      (rest.take (n - 1) ++ v :: rest.drop (n - 1)).getD j (.gbool false) =
        (v :: rest).getD (j + 1) (.gbool false)) ∧
    (rest.take (n - 1) ++ v :: rest.drop (n - 1)).getD (n - 1)
        (.gbool false) = v ∧
    (∀ w x y z : grunt_value, ∀ b : List grunt_value,
      grunt_vm_roll 3 ⟨z :: y :: x :: w :: b, ctl, q, hd, st, ns, o, t,
          e, p⟩ =
        (0, ⟨y :: x :: z :: w :: b, ctl, q, hd, st, ns, o, t, e, p⟩)) := by
  have hrest : n - 1 ≤ rest.length := by
    simp only [List.length_cons] at hlen; omega
  have htake : (rest.take (n - 1)).length = n - 1 := by
    rw [List.length_take]; omega
  refine ⟨?_, ?_, ?_, ?_⟩
  · unfold grunt_vm_roll grunt_stack_arg_roll
    dsimp only
    rw [if_neg (by omega), if_neg (by omega), if_neg (by omega)]
  · intro j hj
    rw [List.getD_append (rest.take (n - 1)) (v :: rest.drop (n - 1))
        (.gbool false) j (by omega),
      List.getD_cons_succ]
    simp only [List.getD_eq_getElem?_getD, List.getElem?_take]
    rw [if_pos (by omega)]
  · rw [List.getD_append_right (rest.take (n - 1))
        (v :: rest.drop (n - 1)) (.gbool false) (n - 1) (by omega), htake,
      Nat.sub_self, List.getD_cons_zero]
  · intro w x y z b
    unfold grunt_vm_roll grunt_stack_arg_roll
    dsimp only
    rw [if_neg (by omega),
      if_neg (show ¬ (z :: y :: x :: w :: b).length < 3 by
        simp only [List.length_cons]; omega)]
    rfl

theorem grunt_roll_rotation_witness :
    (2 ≤ 3 ∧
      3 ≤ ([.gnum 9, .gnum 2, .gnum 3, .gnum 4] :
        List grunt_value).length) ∧
    grunt_vm_roll 3
        ⟨[.gnum 9, .gnum 2, .gnum 3, .gnum 4], [], [], 0, [], 0, [], 0,
          [], 0⟩ =
      (0, ⟨[.gnum 2, .gnum 3, .gnum 9, .gnum 4], [], [], 0, [], 0, [], 0,
        [], 0⟩) :=
  ⟨⟨by decide, by decide⟩,
    (grunt_roll_rotation 3 (.gnum 9) [.gnum 2, .gnum 3, .gnum 4] [] []
      0 [] 0 [] 0 [] 0 (by decide) (by decide)).1⟩

/-- Filtering an entry's events for INFORMATION severity yields nothing:
every event a table entry emits is an ERROR event. -/
theorem vsvf_entry_events_filter (img : List Nat) (k : Nat) :
    (vsvf_entry_events img k).filter
      (fun ev => ev.event_type == CFE_EVS_EventType_INFORMATION) = [] := by
  unfold vsvf_entry_events vsvf_entry_events_at vsvf_inuse_events
  repeat' split
  all_goals rfl

/-- The one INFORMATION event of a validator run's reference event
sequence is the final summary event. -/
theorem vsvf_events_info_filter (img : List Nat) :
    (vsvf_events img).filter
      (fun ev => ev.event_type == CFE_EVS_EventType_INFORMATION) =
      [vsvf_info_event (vsvf_vcount img 4) (vsvf_icount img)
        (vsvf_ucount img 4)] := by
  unfold vsvf_events
  simp only [List.filter_append, vsvf_entry_events_filter,
    List.nil_append]
  rfl

/-- C3 (amended): on every table image of at least 48 bytes the validator
emits exactly one INFORMATION event, the summary line
`"Table image entries: V valid, I invalid, U unused"` with decimal
counts satisfying `V + I + U = 4` and `I = 4 - V - U`, and the run
returns `GRUNT_HALT_TRUE` exactly when `I = 0`. -/
theorem vsvf_run_info_event (img : List Nat) (hlen : 48 ≤ img.length) :
    ∃ V I U : Nat,
      V + I + U = 4 ∧ I = 4 - V - U ∧
      (grunt_run_events vsvf_program img vsvf_strings 24).map
        (fun evs => evs.filter
          (fun ev => ev.event_type == CFE_EVS_EventType_INFORMATION)) =
        some [⟨VS_VALIDATION_INF_EID, CFE_EVS_EventType_INFORMATION,
          vsvf_info_line V I U⟩] ∧
      (grunt_run_status vsvf_program img vsvf_strings 24 =
          some GRUNT_HALT_TRUE ↔ I = 0) := by
  refine ⟨vsvf_vcount img 4, vsvf_icount img, vsvf_ucount img 4,
    ?_, ?_, ?_, ?_⟩
  · have h := vsvf_counts_le img 4
    unfold vsvf_icount
    omega
  · have h := vsvf_counts_le img 4
    unfold vsvf_icount
    omega
  · unfold grunt_run_events
    rw [grunt_run_vsvf img hlen]
    simp only [Option.map_some']
    rw [vsvf_events_info_filter]
    rfl
  · unfold grunt_run_status
    rw [grunt_run_vsvf img hlen]
    simp only [Option.map_some']
    unfold vsvf_verdict
    by_cases hz : vsvf_icount img = 0
    · rw [if_pos (by simp [hz])]
      simp [hz]
    · rw [if_neg (by simp; omega)]
      simp only [GRUNT_HALT_TRUE, GRUNT_HALT_FALSE]
      constructor
      · intro h
        exact absurd h (by simp)
      · intro h
        exact absurd h hz

/-- Witness for C3 on the all-unused 48-byte image. -/
theorem vsvf_run_info_event_witness :
    ∃ V I U : Nat,
      V + I + U = 4 ∧ I = 4 - V - U ∧
      (grunt_run_events vsvf_program (List.replicate 48 0) vsvf_strings
          24).map
        (fun evs => evs.filter
          (fun ev => ev.event_type == CFE_EVS_EventType_INFORMATION)) =
        some [⟨VS_VALIDATION_INF_EID, CFE_EVS_EventType_INFORMATION,
          vsvf_info_line V I U⟩] ∧
      (grunt_run_status vsvf_program (List.replicate 48 0) vsvf_strings
          24 = some GRUNT_HALT_TRUE ↔ I = 0) :=
  vsvf_run_info_event (List.replicate 48 0) (by decide)

set_option maxRecDepth 32768 in
/-- C3 (counterexample): on a 32-byte image -- the size the original
claim prescribes -- the run emits no INFORMATION event at all: it faults
with `GRUNT_ERROR_OUTOFBOUNDS` when the input window runs dry, because a
table image is 48 bytes. -/
theorem vsvf_32byte_no_info :
    (grunt_run_events vsvf_program (List.replicate 32 0) vsvf_strings
        24).map
      (fun evs => evs.filter
        (fun ev => ev.event_type == CFE_EVS_EventType_INFORMATION)) =
      some [] ∧
    grunt_run_status vsvf_program (List.replicate 32 0) vsvf_strings 24 =
      some GRUNT_ERROR_OUTOFBOUNDS := by
  have hsome : (grunt_run_loop vsvf_program 421 500
      (grunt_vm_startup initialGlobals (List.replicate 32 0)
        vsvf_strings 24)).isSome = true := by decide
  obtain ⟨r, hr⟩ := Option.isSome_iff_exists.mp hsome
  have hg := grunt_run_from_fuel (List.replicate 32 0) vsvf_strings 24
    hr grunt_fuel_421_big
  constructor
  · unfold grunt_run_events
    rw [hg]
    have : (some r).map (fun x =>
        (x.2.events.filter
          (fun ev => ev.event_type == CFE_EVS_EventType_INFORMATION))) =
        some [] := by
      rw [← hr]
      decide
    simpa using this
  · unfold grunt_run_status
    rw [hg]
    have : (some r).map (fun x => x.1) =
        some GRUNT_ERROR_OUTOFBOUNDS := by
      rw [← hr]
      decide
    simpa using this

/-- The event ids an entry emits form a subsequence of the fixed
ascending id order ZERO, PARM, PAD, LBND, HBND, ORDER, EXTRA, REDEF. -/
theorem vsvf_entry_events_ids (img : List Nat) (k : Nat) :
    ((vsvf_entry_events img k).map GruntEvent.event_id).Sublist
      [VS_TBL_ZERO_ERR_EID, VS_TBL_PARM_ERR_EID, VS_TBL_PAD_ERR_EID,
        VS_TBL_LBND_ERR_EID, VS_TBL_HBND_ERR_EID, VS_TBL_ORDER_ERR_EID,
        VS_TBL_EXTRA_ERR_EID, VS_TBL_REDEF_ERR_EID] := by
  unfold vsvf_entry_events vsvf_entry_events_at vsvf_inuse_events
  repeat' split
  all_goals simp only [List.map_append, List.map_cons, List.map_nil,
    vsvf_err_event, vsvf_parmerr_event]
  all_goals decide

/-- C4: the validator's event stream is the per-entry event blocks of
entries 0, 1, 2 and 3 in that order followed by the summary event, so
every error for entry `k` precedes every error for entry `k + 1`; within
one entry the emitted error ids are a subsequence of the fixed ascending
order ZERO, PARM, PAD, LBND, HBND, ORDER, EXTRA, REDEF; an entry whose
id fails the identifier check emits only PARM; and an UNUSED entry that
is not all-zero emits only ZERO. -/
theorem vsvf_event_order (img : List Nat) (hlen : 48 ≤ img.length) :
    grunt_run_events vsvf_program img vsvf_strings 24 =
      some (vsvf_entry_events img 0 ++ vsvf_entry_events img 1 ++
        vsvf_entry_events img 2 ++ vsvf_entry_events img 3 ++
        [vsvf_info_event (vsvf_vcount img 4) (vsvf_icount img)
          (vsvf_ucount img 4)]) ∧
    (∀ k, ((vsvf_entry_events img k).map GruntEvent.event_id).Sublist
      [VS_TBL_ZERO_ERR_EID, VS_TBL_PARM_ERR_EID, VS_TBL_PAD_ERR_EID,
        VS_TBL_LBND_ERR_EID, VS_TBL_HBND_ERR_EID, VS_TBL_ORDER_ERR_EID,
        VS_TBL_EXTRA_ERR_EID, VS_TBL_REDEF_ERR_EID]) ∧
    (∀ k, vsvf_parm img k ≠ 0 →
      vsvf_is_animal (vsvf_parm img k) = false →
      vsvf_is_direction (vsvf_parm img k) = false →
      (vsvf_entry_events img k).map GruntEvent.event_id =
        [VS_TBL_PARM_ERR_EID]) ∧
    (∀ k, vsvf_parm img k = 0 → vsvf_unused_ok img k = false →
      (vsvf_entry_events img k).map GruntEvent.event_id =
        [VS_TBL_ZERO_ERR_EID]) := by
  refine ⟨?_, vsvf_entry_events_ids img, ?_, ?_⟩
  · unfold grunt_run_events
    rw [grunt_run_vsvf img hlen]
    rfl
  · intro k h0 ha hd
    unfold vsvf_entry_events vsvf_entry_events_at
    rw [if_neg h0, if_neg (by simp [ha]), if_neg (by simp [hd])]
    rfl
  · intro k h0 hu
    unfold vsvf_entry_events vsvf_entry_events_at
    rw [if_pos h0, if_neg (by simp [hu])]
    rfl

/-- Witness for C4 on the all-unused 48-byte image: the run's event
stream is the four entry blocks followed by the summary. -/
theorem vsvf_event_order_witness :
    grunt_run_events vsvf_program (List.replicate 48 0) vsvf_strings 24 =
      some (vsvf_entry_events (List.replicate 48 0) 0 ++
        vsvf_entry_events (List.replicate 48 0) 1 ++
        vsvf_entry_events (List.replicate 48 0) 2 ++
        vsvf_entry_events (List.replicate 48 0) 3 ++
        [vsvf_info_event (vsvf_vcount (List.replicate 48 0) 4)
          (vsvf_icount (List.replicate 48 0))
          (vsvf_ucount (List.replicate 48 0) 4)]) :=
  (vsvf_event_order (List.replicate 48 0) (by decide)).1

end Grunt
